import Mathlib

/-!
Scene viewer: meshes, transforms, per-frame state and texture loading.

A shallow embedding of `Source.cpp`: the five hand-written vertex tables of the mesh builders and
the vertex-attribute layout under which the GPU reads them; the model-matrix composition of the
draw functions and the projection of `updateCamera`; the program's global variables and the part
of the GL context it touches, as a state that the input functions, the callbacks and the draw
functions transform; `flipImageVertically` over int arithmetic and `UCreateTexture`.

Float literals of the source are read as exact rationals. The transform code is generic in the
scalar type so that it can be evaluated over `ℚ` and reasoned about over `ℝ`. The camera
utility, the C maths functions and the image decoder are parameters. The type int is taken as
32 bits; signed overflow and accesses outside a buffer give no result.
-/

namespace Scene

/-! ## Vectors -/

/-- A three-component vector (`glm::vec3`). -/
structure Vec3 (α : Type) where
  x : α
  y : α
  z : α
deriving DecidableEq, Repr

/-- A two-component vector (`glm::vec2`), used for texture coordinates. -/
structure Vec2 (α : Type) where
  u : α
  v : α
deriving DecidableEq, Repr

namespace Vec3

variable {α : Type}

/-- Dot product. -/
def dot [Add α] [Mul α] (a b : Vec3 α) : α := a.x * b.x + a.y * b.y + a.z * b.z

/-- Component-wise difference `a - b`. -/
def sub [Sub α] (a b : Vec3 α) : Vec3 α := ⟨a.x - b.x, a.y - b.y, a.z - b.z⟩

/-- Component-wise sum. -/
def add [Add α] (a b : Vec3 α) : Vec3 α := ⟨a.x + b.x, a.y + b.y, a.z + b.z⟩

/-- Component-wise negation. -/
def neg [Neg α] (a : Vec3 α) : Vec3 α := ⟨-a.x, -a.y, -a.z⟩

/-- Scalar multiple `t * a`. -/
def smul [Mul α] (a : Vec3 α) (t : α) : Vec3 α := ⟨t * a.x, t * a.y, t * a.z⟩

/-- Cross product. -/
def cross [Sub α] [Mul α] (a b : Vec3 α) : Vec3 α :=
  ⟨a.y * b.z - a.z * b.y, a.z * b.x - a.x * b.z, a.x * b.y - a.y * b.x⟩

end Vec3

/-! ## Vertex tables -/

/-- The verts float table of createPlaneMesh: per vertex three position floats, three normal
floats and two texture floats, with the decimal literals of the source read as exact rationals. -/
def planeVerts : List ℚ := [
  -- Vertex Positions||  Normal vectors  || Texture coordinates
  -- Base (Facing Y+)
   -0.5,   0.0,   0.5,   0.0,   0.0,   1.0,   0.0,   0.0,   -- A
    0.5,   0.0,   0.5,   0.0,   0.0,   1.0,   1.0,   0.0,   -- B
    0.5,   0.0,  -0.5,   0.0,   0.0,   1.0,   1.0,   1.0,   -- C
   -0.5,   0.0,   0.5,   0.0,   0.0,   1.0,   0.0,   0.0,   -- A
   -0.5,   0.0,  -0.5,   0.0,   0.0,   1.0,   0.0,   1.0,   -- D
    0.5,   0.0,  -0.5,   0.0,   0.0,   1.0,   1.0,   1.0   -- C
]

/-- The verts float table of createPyramidMesh: per vertex three position floats, three normal
floats and two texture floats, with the decimal literals of the source read as exact rationals. -/
def pyramidVerts : List ℚ := [
  -- Vertex Positions||  Normal vectors   || Texture coordinates
  -- Base (Facing Y-)
   -0.5,  -0.5,   0.0,   0.0,   0.0,  -1.0,   0.0,   0.0,   -- A
    0.5,  -0.5,   0.0,   0.0,   0.0,  -1.0,   1.0,   0.0,   -- B
    0.5,   0.5,   0.0,   0.0,   0.0,  -1.0,   1.0,   1.0,   -- C
   -0.5,  -0.5,   0.0,   0.0,   0.0,  -1.0,   0.0,   0.0,   -- A
   -0.5,   0.5,   0.0,   0.0,   0.0,  -1.0,   0.0,   1.0,   -- D
    0.5,   0.5,   0.0,   0.0,   0.0,  -1.0,   1.0,   1.0,   -- C
  -- Side 1 (Facing Z+)
   -0.5,  -0.5,   0.0,   0.0,  -1.0,   1.0,   0.0,   0.0,   -- A
    0.5,  -0.5,   0.0,   0.0,  -1.0,   1.0,   1.0,   0.0,   -- B
    0.0,  -0.0,   1.0,   0.0,  -1.0,   1.0,   0.5,   1.0,   -- E
  -- Side 2 (Facing X+)
    0.5,  -0.5,   0.0,   1.0,   0.0,   1.0,   0.0,   0.0,   -- B
    0.5,   0.5,   0.0,   1.0,   0.0,   1.0,   1.0,   0.0,   -- C
    0.0,  -0.0,   1.0,   1.0,   0.0,   1.0,   0.5,   1.0,   -- E
  -- Side 3 (Facing Z-)
    0.5,   0.5,   0.0,   0.0,   1.0,   1.0,   0.0,   0.0,   -- C
   -0.5,   0.5,   0.0,   0.0,   1.0,   1.0,   1.0,   0.0,   -- D
    0.0,  -0.0,   1.0,   0.0,   1.0,   1.0,   0.5,   1.0,   -- E
  -- Side 4 (Facing X-)
   -0.5,   0.5,   0.0,  -1.0,   0.0,   1.0,   0.0,   0.0,   -- D
   -0.5,  -0.5,   0.0,  -1.0,   0.0,   1.0,   1.0,   0.0,   -- A
    0.0,  -0.0,   1.0,  -1.0,   0.0,   1.0,   0.5,   1.0   -- E
]

/-- The verts float table of createCubeMesh: per vertex three position floats, three normal
floats and two texture floats, with the decimal literals of the source read as exact rationals. -/
def cubeVerts : List ℚ := [
  -- Normal vectors must be opposite for light to pass through
  -- Vertex Positions||  Normal vectors   || Texture coordinates
  -- Base (Facing Y-)
   -0.5,   0.0,  -0.5,   0.0,   1.0,   0.0,   0.0,   0.0,   -- A
    0.5,   0.0,  -0.5,   0.0,   1.0,   0.0,   1.0,   0.0,   -- B
    0.5,   0.0,   0.5,   0.0,   1.0,   0.0,   1.0,   1.0,   -- C
   -0.5,   0.0,  -0.5,   0.0,   1.0,   0.0,   0.0,   0.0,   -- A
   -0.5,   0.0,   0.5,   0.0,   1.0,   0.0,   0.0,   1.0,   -- D
    0.5,   0.0,   0.5,   0.0,   1.0,   0.0,   1.0,   1.0,   -- C
  -- Top (Facing Y+)
   -0.5,   1.0,  -0.5,   0.0,  -1.0,   0.0,   0.0,   0.0,   -- E
    0.5,   1.0,  -0.5,   0.0,  -1.0,   0.0,   1.0,   0.0,   -- F
    0.5,   1.0,   0.5,   0.0,  -1.0,   0.0,   1.0,   1.0,   -- G
   -0.5,   1.0,  -0.5,   0.0,  -1.0,   0.0,   0.0,   0.0,   -- E
   -0.5,   1.0,   0.5,   0.0,  -1.0,   0.0,   0.0,   1.0,   -- H
    0.5,   1.0,   0.5,   0.0,  -1.0,   0.0,   1.0,   1.0,   -- G
  -- Side #1 (Facing Z-)
   -0.5,   0.0,  -0.5,   0.0,   0.0,   1.0,   0.0,   0.0,   -- A
    0.5,   0.0,  -0.5,   0.0,   0.0,   1.0,   1.0,   0.0,   -- B
    0.5,   1.0,  -0.5,   0.0,   0.0,   1.0,   1.0,   1.0,   -- F
   -0.5,   0.0,  -0.5,   0.0,   0.0,   1.0,   0.0,   0.0,   -- A
   -0.5,   1.0,  -0.5,   0.0,   0.0,   1.0,   0.0,   1.0,   -- E
    0.5,   1.0,  -0.5,   0.0,   0.0,   1.0,   1.0,   1.0,   -- F
  -- Side #2 (Facing X-)
   -0.5,   1.0,  -0.5,   1.0,   0.0,   0.0,   0.0,   0.0,   -- E
   -0.5,   0.0,  -0.5,   1.0,   0.0,   0.0,   1.0,   0.0,   -- A
   -0.5,   0.0,   0.5,   1.0,   0.0,   0.0,   1.0,   1.0,   -- D
   -0.5,   1.0,  -0.5,   1.0,   0.0,   0.0,   0.0,   0.0,   -- E
   -0.5,   1.0,   0.5,   1.0,   0.0,   0.0,   0.0,   1.0,   -- H
   -0.5,   0.0,   0.5,   1.0,   0.0,   0.0,   1.0,   1.0,   -- D
  -- Side #3 (Facing X+)
    0.5,   0.0,  -0.5,  -1.0,   0.0,   0.0,   1.0,   1.0,   -- B
    0.5,   1.0,  -0.5,  -1.0,   0.0,   0.0,   1.0,   0.0,   -- F
    0.5,   1.0,   0.5,  -1.0,   0.0,   0.0,   0.0,   0.0,   -- G
    0.5,   0.0,  -0.5,  -1.0,   0.0,   0.0,   1.0,   1.0,   -- B
    0.5,   0.0,   0.5,  -1.0,   0.0,   0.0,   0.0,   1.0,   -- C
    0.5,   1.0,   0.5,  -1.0,   0.0,   0.0,   0.0,   0.0,   -- G
  -- Side #4 (Facing Z+)
   -0.5,   0.0,   0.5,   0.0,   0.0,  -1.0,   0.0,   0.0,   -- D
    0.5,   0.0,   0.5,   0.0,   0.0,  -1.0,   1.0,   0.0,   -- C
    0.5,   1.0,   0.5,   0.0,   0.0,  -1.0,   1.0,   1.0,   -- G
   -0.5,   0.0,   0.5,   0.0,   0.0,  -1.0,   0.0,   0.0,   -- D
   -0.5,   1.0,   0.5,   0.0,   0.0,  -1.0,   0.0,   1.0,   -- H
    0.5,   1.0,   0.5,   0.0,   0.0,  -1.0,   1.0,   1.0   -- G
]

/-- The verts float table of createRectPrismMesh: per vertex three position floats, three normal
floats and two texture floats, with the decimal literals of the source read as exact rationals. -/
def rectPrismVerts : List ℚ := [
  -- Vertex Positions||  Normal vectors   || Texture coordinates
  -- Base (Facing Y-)
   -0.5,   0.0,  -0.5,   0.0,  -1.0,   0.0,   0.0,   0.0,   -- A
    0.5,   0.0,  -0.5,   0.0,  -1.0,   0.0,   1.0,   0.0,   -- B
    0.5,   0.0,   0.5,   0.0,  -1.0,   0.0,   1.0,   1.0,   -- C
   -0.5,   0.0,  -0.5,   0.0,  -1.0,   0.0,   0.0,   0.0,   -- A
   -0.5,   0.0,   0.5,   0.0,  -1.0,   0.0,   0.0,   1.0,   -- D
    0.5,   0.0,   0.5,   0.0,  -1.0,   0.0,   1.0,   1.0,   -- C
  -- Top (Facing Y+)
   -0.5,   1.0,  -0.5,   0.0,   1.0,   0.0,   0.0,   0.0,   -- E
    0.5,   1.0,  -0.5,   0.0,   1.0,   0.0,   1.0,   0.0,   -- F
    0.5,   1.0,   0.5,   0.0,   1.0,   0.0,   1.0,   1.0,   -- G
   -0.5,   1.0,  -0.5,   0.0,   1.0,   0.0,   0.0,   0.0,   -- E
   -0.5,   1.0,   0.5,   0.0,   1.0,   0.0,   0.0,   1.0,   -- H
    0.5,   1.0,   0.5,   0.0,   1.0,   0.0,   1.0,   1.0,   -- G
  -- Side #1 (Facing Z-)
   -0.5,   0.0,  -0.5,   0.0,   0.0,  -1.0,   0.0,   0.0,   -- A
    0.5,   0.0,  -0.5,   0.0,   0.0,  -1.0,   1.0,   0.0,   -- B
    0.5,   1.0,  -0.5,   0.0,   0.0,  -1.0,   1.0,   1.0,   -- F
   -0.5,   0.0,  -0.5,   0.0,   0.0,  -1.0,   0.0,   0.0,   -- A
   -0.5,   1.0,  -0.5,   0.0,   0.0,  -1.0,   0.0,   1.0,   -- E
    0.5,   1.0,  -0.5,   0.0,   0.0,  -1.0,   1.0,   1.0,   -- F
  -- Side #2 (Facing X-)
   -0.5,   1.0,  -0.5,  -1.0,   0.0,   0.0,   0.0,   0.0,   -- E
   -0.5,   0.0,  -0.5,  -1.0,   0.0,   0.0,   0.0,   1.0,   -- A
   -0.5,   0.0,   0.5,  -1.0,   0.0,   0.0,   1.0,   1.0,   -- D
   -0.5,   1.0,  -0.5,  -1.0,   0.0,   0.0,   0.0,   0.0,   -- E
   -0.5,   1.0,   0.5,  -1.0,   0.0,   0.0,   1.0,   0.0,   -- H
   -0.5,   0.0,   0.5,  -1.0,   0.0,   0.0,   1.0,   1.0,   -- D
  -- Side #3 (Facing X+)
    0.5,   0.0,  -0.5,   1.0,   0.0,   0.0,   1.0,   1.0,   -- B
    0.5,   1.0,  -0.5,   1.0,   0.0,   0.0,   1.0,   0.0,   -- F
    0.5,   1.0,   0.5,   1.0,   0.0,   0.0,   0.0,   0.0,   -- G
    0.5,   0.0,  -0.5,   1.0,   0.0,   0.0,   1.0,   1.0,   -- B
    0.5,   0.0,   0.5,   1.0,   0.0,   0.0,   0.0,   1.0,   -- C
    0.5,   1.0,   0.5,   1.0,   0.0,   0.0,   0.0,   0.0,   -- G
  -- Side #4 (Facing Z+)
   -0.5,   0.0,   0.5,   0.0,   0.0,   1.0,   0.0,   0.0,   -- D
    0.5,   0.0,   0.5,   0.0,   0.0,   1.0,   1.0,   0.0,   -- C
    0.5,   1.0,   0.5,   0.0,   0.0,   1.0,   1.0,   1.0,   -- G
   -0.5,   0.0,   0.5,   0.0,   0.0,   1.0,   0.0,   0.0,   -- D
   -0.5,   1.0,   0.5,   0.0,   0.0,   1.0,   0.0,   1.0,   -- H
    0.5,   1.0,   0.5,   0.0,   0.0,   1.0,   1.0,   1.0   -- G
]

/-- The verts float table of createCylinderMesh: per vertex three position floats, three normal
floats and two texture floats, with the decimal literals of the source read as exact rationals. -/
def cylinderVerts : List ℚ := [
  -- Vertex Positions  ||  Normal vectors   || Texture coordinates
  -- Base (Facing Y-)
   -1.0,   0.0,   0.0,   0.0,   0.0,   0.0,   0.0,   0.0,   -- A
   -0.7,   0.0,  -0.7,   0.0,   0.0,   0.0,   0.0,   1.0,   -- B
    0.0,   0.0,   0.0,   0.0,   0.0,   0.0,   1.0,   1.0,   -- O
   -0.7,   0.0,  -0.7,   0.0,   0.0,   0.0,   0.0,   0.0,   -- B
    0.0,   0.0,  -1.0,   0.0,   0.0,   0.0,   0.0,   1.0,   -- C
    0.0,   0.0,   0.0,   0.0,   0.0,   0.0,   1.0,   1.0,   -- O
    0.0,   0.0,  -1.0,   0.0,   0.0,   0.0,   0.0,   0.0,   -- C
    0.7,   0.0,  -0.7,   0.0,   0.0,   0.0,   0.0,   1.0,   -- D
    0.0,   0.0,   0.0,   0.0,   0.0,   0.0,   1.0,   1.0,   -- O
    0.7,   0.0,  -0.7,   0.0,   0.0,   0.0,   0.0,   0.0,   -- D
    1.0,   0.0,   0.0,   0.0,   0.0,   0.0,   0.0,   1.0,   -- E
    0.0,   0.0,   0.0,   0.0,   0.0,   0.0,   1.0,   1.0,   -- O
    1.0,   0.0,   0.0,   0.0,   0.0,   0.0,   0.0,   0.0,   -- E
    0.7,   0.0,   0.7,   0.0,   0.0,   0.0,   0.0,   1.0,   -- F
    0.0,   0.0,   0.0,   0.0,   0.0,   0.0,   1.0,   1.0,   -- O
    0.7,   0.0,   0.7,   0.0,   0.0,   0.0,   0.0,   0.0,   -- F
    0.0,   0.0,   1.0,   0.0,   0.0,   0.0,   0.0,   1.0,   -- G
    0.0,   0.0,   0.0,   0.0,   0.0,   0.0,   1.0,   1.0,   -- O
    0.0,   0.0,   1.0,   0.0,   0.0,   0.0,   0.0,   0.0,   -- G
   -0.7,   0.0,   0.7,   0.0,   0.0,   0.0,   0.0,   1.0,   -- H
    0.0,   0.0,   0.0,   0.0,   0.0,   0.0,   1.0,   1.0,   -- O
   -0.7,   0.0,   0.7,   0.0,   0.0,   0.0,   0.0,   0.0,   -- H
   -1.0,   0.0,   0.0,   0.0,   0.0,   0.0,   0.0,   1.0,   -- A
    0.0,   0.0,   0.0,   0.0,   0.0,   0.0,   1.0,   1.0,   -- O
  -- Side #1
   -1.0,   0.0,   0.0,  -1.0,   0.0,   0.0,   0.0,   0.0,   -- A
   -1.0,   1.0,   0.0,  -1.0,   0.0,   0.0,   0.0,   0.0,   -- A2
   -0.7,   1.0,  -0.7,  -1.0,   0.0,   0.0,   0.0,   0.0,   -- B2
   -1.0,   0.0,   0.0,  -1.0,   0.0,   0.0,   0.0,   0.0,   -- A
   -0.7,   0.0,  -0.7,  -1.0,   0.0,   0.0,   0.0,   0.0,   -- B
   -0.7,   1.0,  -0.7,  -1.0,   0.0,   0.0,   0.0,   0.0,   -- B2
  -- Side #2
   -0.7,   0.0,  -0.7,   0.0,   0.0,  -1.0,   0.0,   0.0,   -- B
   -0.7,   1.0,  -0.7,   0.0,   0.0,  -1.0,   0.0,   0.0,   -- B2
    0.0,   1.0,  -1.0,   0.0,   0.0,  -1.0,   0.0,   0.0,   -- C2
   -0.7,   0.0,  -0.7,   0.0,   0.0,  -1.0,   0.0,   0.0,   -- B
    0.0,   0.0,  -1.0,   0.0,   0.0,  -1.0,   0.0,   0.0,   -- C
    0.0,   1.0,  -1.0,   0.0,   0.0,  -1.0,   0.0,   0.0,   -- C2
  -- Side #3
    0.0,   0.0,  -1.0,   0.0,   0.0,  -1.0,   0.0,   0.0,   -- C
    0.0,   1.0,  -1.0,   0.0,   0.0,  -1.0,   0.0,   0.0,   -- C2
    0.7,   1.0,  -0.7,   0.0,   0.0,  -1.0,   0.0,   0.0,   -- D2
    0.0,   0.0,  -1.0,   0.0,   0.0,  -1.0,   0.0,   0.0,   -- C
    0.7,   0.0,  -0.7,   0.0,   0.0,  -1.0,   0.0,   0.0,   -- D
    0.7,   1.0,  -0.7,   0.0,   0.0,  -1.0,   0.0,   0.0,   -- D2
  -- Side #4
    0.7,   0.0,  -0.7,   1.0,   0.0,   0.0,   0.0,   0.0,   -- D
    0.7,   1.0,  -0.7,   1.0,   0.0,   0.0,   0.0,   0.0,   -- D2
    1.0,   1.0,   0.0,   1.0,   0.0,   0.0,   0.0,   0.0,   -- E2
    0.7,   0.0,  -0.7,   1.0,   0.0,   0.0,   0.0,   0.0,   -- D
    1.0,   0.0,   0.0,   1.0,   0.0,   0.0,   0.0,   0.0,   -- E
    1.0,   1.0,   0.0,   1.0,   0.0,   0.0,   0.0,   0.0,   -- E2
  -- Side #5
    1.0,   0.0,   0.0,   1.0,   0.0,   0.0,   0.0,   0.0,   -- E
    1.0,   1.0,   0.0,   1.0,   0.0,   0.0,   0.0,   0.0,   -- E2
    0.7,   1.0,   0.7,   1.0,   0.0,   0.0,   0.0,   0.0,   -- F2
    1.0,   0.0,   0.0,   1.0,   0.0,   0.0,   0.0,   0.0,   -- E
    0.7,   0.0,   0.7,   1.0,   0.0,   0.0,   0.0,   0.0,   -- F
    0.7,   1.0,   0.7,   1.0,   0.0,   0.0,   0.0,   0.0,   -- F2
  -- Side #6
    0.7,   0.0,   0.7,   0.0,   0.0,   1.0,   0.0,   0.0,   -- F
    0.7,   1.0,   0.7,   0.0,   0.0,   1.0,   0.0,   0.0,   -- F2
    0.0,   1.0,   1.0,   0.0,   0.0,   1.0,   0.0,   0.0,   -- G2
    0.7,   0.0,   0.7,   0.0,   0.0,   1.0,   0.0,   0.0,   -- F
    0.0,   0.0,   1.0,   0.0,   0.0,   1.0,   0.0,   0.0,   -- G
    0.0,   1.0,   1.0,   0.0,   0.0,   1.0,   0.0,   0.0,   -- G2
  -- Side #7
    0.0,   0.0,   1.0,   0.0,   0.0,   1.0,   0.0,   0.0,   -- G
    0.0,   1.0,   1.0,   0.0,   0.0,   1.0,   0.0,   0.0,   -- G2
   -0.7,   1.0,   0.7,   0.0,   0.0,   1.0,   0.0,   0.0,   -- H2
    0.0,   0.0,   1.0,   0.0,   0.0,   1.0,   0.0,   0.0,   -- G
   -0.7,   0.0,   0.7,   0.0,   0.0,   1.0,   0.0,   0.0,   -- H
   -0.7,   1.0,   0.7,   0.0,   0.0,   1.0,   0.0,   0.0,   -- H2
  -- Side #8
   -0.7,   0.0,   0.7,  -1.0,   0.0,   0.0,   0.0,   0.0,   -- H
   -0.7,   1.0,   0.7,  -1.0,   0.0,   0.0,   0.0,   0.0,   -- H2
   -1.0,   1.0,   0.0,  -1.0,   0.0,   0.0,   0.0,   0.0,   -- A2
   -0.7,   0.0,   0.7,  -1.0,   0.0,   0.0,   0.0,   0.0,   -- H
   -1.0,   0.0,   0.0,  -1.0,   0.0,   0.0,   0.0,   0.0,   -- A
   -1.0,   1.0,   0.0,  -1.0,   0.0,   0.0,   0.0,   0.0,   -- A2
  -- Top (Facing Y+)
   -1.0,   1.0,   0.0,   0.0,   1.0,   0.0,   0.0,   0.0,   -- A2
   -0.7,   1.0,  -0.7,   0.0,   1.0,   0.0,   0.0,   1.0,   -- B2
    0.0,   1.0,   0.0,   0.0,   1.0,   0.0,   1.0,   1.0,   -- O2
   -0.7,   1.0,  -0.7,   0.0,   1.0,   0.0,   0.0,   0.0,   -- B2
    0.0,   1.0,  -1.0,   0.0,   1.0,   0.0,   0.0,   1.0,   -- C2
    0.0,   1.0,   0.0,   0.0,   1.0,   0.0,   1.0,   1.0,   -- O2
    0.0,   1.0,  -1.0,   0.0,   1.0,   0.0,   0.0,   0.0,   -- C2
    0.7,   1.0,  -0.7,   0.0,   1.0,   0.0,   0.0,   1.0,   -- D2
    0.0,   1.0,   0.0,   0.0,   1.0,   0.0,   1.0,   1.0,   -- O2
    0.7,   1.0,  -0.7,   0.0,   1.0,   0.0,   0.0,   0.0,   -- D2
    1.0,   1.0,   0.0,   0.0,   1.0,   0.0,   0.0,   1.0,   -- E2
    0.0,   1.0,   0.0,   0.0,   1.0,   0.0,   1.0,   1.0,   -- O2
    1.0,   1.0,   0.0,   0.0,   1.0,   0.0,   0.0,   0.0,   -- E2
    0.7,   1.0,   0.7,   0.0,   1.0,   0.0,   0.0,   1.0,   -- F2
    0.0,   1.0,   0.0,   0.0,   1.0,   0.0,   1.0,   1.0,   -- O2
    0.7,   1.0,   0.7,   0.0,   1.0,   0.0,   0.0,   0.0,   -- F2
    0.0,   1.0,   1.0,   0.0,   1.0,   0.0,   0.0,   1.0,   -- G2
    0.0,   1.0,   0.0,   0.0,   1.0,   0.0,   1.0,   1.0,   -- O2
    0.0,   1.0,   1.0,   0.0,   1.0,   0.0,   0.0,   0.0,   -- G2
   -0.7,   1.0,   0.7,   0.0,   1.0,   0.0,   0.0,   1.0,   -- H2
    0.0,   1.0,   0.0,   0.0,   1.0,   0.0,   1.0,   1.0,   -- O2
   -0.7,   1.0,   0.7,   0.0,   1.0,   0.0,   0.0,   0.0,   -- H2
   -1.0,   1.0,   0.0,   0.0,   1.0,   0.0,   0.0,   1.0,   -- A2
    0.0,   1.0,   0.0,   0.0,   1.0,   0.0,   1.0,   1.0   -- O2
]

/-! ## Vertex layout -/

/-- Number of position floats per vertex. -/
def floatsPerVertex : Nat := 3

/-- Number of normal floats per vertex. -/
def floatsPerNormal : Nat := 3

/-- Number of texture-coordinate floats per vertex. -/
def floatsPerUV : Nat := 2

/-- Size in bytes of one float of a vertex table (sizeof(verts[0])). -/
def sizeofFloat : Nat := 4

/-- Size in bytes of a vertex table (sizeof(verts)). -/
def sizeofVerts (verts : List ℚ) : Nat := sizeofFloat * verts.length

/-- The vertex count every mesh builder stores:
sizeof(verts) / (sizeof(verts[0]) * (floatsPerVertex + floatsPerNormal + floatsPerUV)). -/
def vertexCount (verts : List ℚ) : Nat :=
  sizeofVerts verts / (sizeofFloat * (floatsPerVertex + floatsPerNormal + floatsPerUV))

/-- The stride between consecutive vertices, counted in floats. -/
def stride : Nat := floatsPerVertex + floatsPerNormal + floatsPerUV

/-- The float read for component k of the attribute that starts offset floats into vertex i
(glVertexAttribPointer with the common stride). -/
def attrib (verts : List ℚ) (offset i k : Nat) : ℚ := verts.getD (stride * i + offset + k) 0

/-- Attribute 0 of vertex i: its position. -/
def position (verts : List ℚ) (i : Nat) : Vec3 ℚ :=
  ⟨attrib verts 0 i 0, attrib verts 0 i 1, attrib verts 0 i 2⟩

/-- Attribute 1 of vertex i: its normal, stored after the position. -/
def normal (verts : List ℚ) (i : Nat) : Vec3 ℚ :=
  ⟨attrib verts floatsPerVertex i 0, attrib verts floatsPerVertex i 1,
   attrib verts floatsPerVertex i 2⟩

/-- Attribute 2 of vertex i: its texture coordinate, stored after position and normal. -/
def uv (verts : List ℚ) (i : Nat) : Vec2 ℚ :=
  ⟨attrib verts (floatsPerVertex + floatsPerNormal) i 0,
   attrib verts (floatsPerVertex + floatsPerNormal) i 1⟩

/-- The GL data kept for a mesh: the two handles and the vertex count. -/
structure GLMesh where
  vao : Nat
  vbo : Nat
  nVertices : Nat
deriving DecidableEq, Repr

/-- The mesh record written by createPlaneMesh, for the handles the driver generated. -/
def createPlaneMesh (vao vbo : Nat) : GLMesh := ⟨vao, vbo, vertexCount planeVerts⟩

/-- The mesh record written by createPyramidMesh. -/
def createPyramidMesh (vao vbo : Nat) : GLMesh := ⟨vao, vbo, vertexCount pyramidVerts⟩

/-- The mesh record written by createCubeMesh. -/
def createCubeMesh (vao vbo : Nat) : GLMesh := ⟨vao, vbo, vertexCount cubeVerts⟩

/-- The mesh record written by createRectPrismMesh. -/
def createRectPrismMesh (vao vbo : Nat) : GLMesh := ⟨vao, vbo, vertexCount rectPrismVerts⟩

/-- The mesh record written by createCylinderMesh. -/
def createCylinderMesh (vao vbo : Nat) : GLMesh := ⟨vao, vbo, vertexCount cylinderVerts⟩

/-! ## Box meshes: faces -/

/-- The centre of the unit box spanned by the cube and rectangular-prism tables
(x and z in [-0.5, 0.5], y in [0, 1]). -/
def boxCentre : Vec3 ℚ := ⟨0, 0.5, 0⟩

/-- The six signed unit axis vectors +X, -X, +Y, -Y, +Z, -Z. -/
def signedAxes : List (Vec3 ℚ) :=
  [⟨1, 0, 0⟩, ⟨-1, 0, 0⟩, ⟨0, 1, 0⟩, ⟨0, -1, 0⟩, ⟨0, 0, 1⟩, ⟨0, 0, -1⟩]

/-- The normals of the six faces of a box table, one per group of six vertices (read at the
first vertex of each group). -/
def faceNormals (verts : List ℚ) : List (Vec3 ℚ) :=
  (List.range 6).map fun f => normal verts (6 * f)

/-! ## Cylinder mesh: caps and side walls -/

/-- Index of the first bottom-cap vertex in the cylinder table. -/
def bottomCapStart : Nat := 0

/-- Index of the first side-wall vertex in the cylinder table (after the 8 bottom triangles). -/
def sideStart : Nat := 24

/-- Index of the first top-cap vertex in the cylinder table (after the 8 side walls). -/
def topCapStart : Nat := 72

/-- The i-th boundary vertex of the octagon (A, B, ..., H, cyclically), read off the table as
the first vertex of the i-th bottom-cap triangle. -/
def ringVertex (i : Nat) : Vec3 ℚ := position cylinderVerts (bottomCapStart + 3 * (i % 8))

/-- The ring vertex i placed at height y (y = 0 for the bottom ring, y = 1 for the top ring). -/
def ringAt (i : Nat) (y : ℚ) : Vec3 ℚ := ⟨(ringVertex i).x, y, (ringVertex i).z⟩

/-- Position of vertex k (0..5) of side wall i (0..7). -/
def wallPosition (i k : Nat) : Vec3 ℚ := position cylinderVerts (sideStart + 6 * i + k)

/-- Normal of vertex k (0..5) of side wall i (0..7). -/
def wallNormal (i k : Nat) : Vec3 ℚ := normal cylinderVerts (sideStart + 6 * i + k)

/-- The normal of side wall i, read at the wall's first vertex. -/
def sideNormal (i : Nat) : Vec3 ℚ := wallNormal i 0

/-- The horizontal direction from the cylinder axis (x = 0, z = 0) to the midpoint of the
bottom edge of side wall i; the bottom edge joins the wall's vertices 3 and 4. -/
def wallMidDirection (i : Nat) : Vec3 ℚ :=
  ⟨((wallPosition i 3).x + (wallPosition i 4).x) / 2, 0,
   ((wallPosition i 3).z + (wallPosition i 4).z) / 2⟩

/-! ## Pyramid mesh: sides -/

/-- Index of the first side vertex in the pyramid table (after the 2 base triangles). -/
def pyramidSideStart : Nat := 6

/-- Position of corner k (0..2) of pyramid side s (0..3). -/
def sidePosition (s k : Nat) : Vec3 ℚ := position pyramidVerts (pyramidSideStart + 3 * s + k)

/-- Normal stored on corner k (0..2) of pyramid side s (0..3). -/
def sideCornerNormal (s k : Nat) : Vec3 ℚ := normal pyramidVerts (pyramidSideStart + 3 * s + k)

/-- The base edge of side s: from its first to its second corner (both in the base z = 0). -/
def sideBaseEdge (s : Nat) : Vec3 ℚ := (sidePosition s 1).sub (sidePosition s 0)

/-- The slanted edge of side s from its first corner to the apex E. -/
def sideSlantEdge (s : Nat) : Vec3 ℚ := (sidePosition s 2).sub (sidePosition s 0)

/-- The other slanted edge of side s, from its second corner to the apex E. -/
def sideSlantEdge2 (s : Nat) : Vec3 ℚ := (sidePosition s 2).sub (sidePosition s 1)

/-- The geometric normal of side s: the cross product of its base edge and slanted edge. -/
def sideCross (s : Nat) : Vec3 ℚ := (sideBaseEdge s).cross (sideSlantEdge s)

/-- The centroid of the pyramid, a point of its interior: on the axis through the apex, a
quarter of the height above the base. -/
def pyramidCentroid : Vec3 ℚ := ⟨0, 0, 0.25⟩


/-! ## Model transforms -/

/-- The scalar functions the matrix library takes from the C maths library: cosine, sine and
the reciprocal square root used to normalise a rotation axis. -/
structure ScalarMath (α : Type) where
  cos : α → α
  sin : α → α
  inversesqrt : α → α

/-- A 4x4 matrix (glm::mat4), indexed here by row and then column. -/
abbrev Mat4 (α : Type) := Matrix (Fin 4) (Fin 4) α

section Transforms

variable {α : Type} [CommRing α]

/-- The library call glm::normalize(v) = v * inversesqrt(dot(v, v)). -/
def glmNormalize (m : ScalarMath α) (v : Vec3 α) : Vec3 α := v.smul (m.inversesqrt (v.dot v))

/-- The library call glm::scale(v): the diagonal matrix of v. -/
def glmScale (v : Vec3 α) : Mat4 α :=
  !![v.x, 0, 0, 0; 0, v.y, 0, 0; 0, 0, v.z, 0; 0, 0, 0, 1]

/-- The library call glm::translate(v): the identity with v in the last column. -/
def glmTranslate (v : Vec3 α) : Mat4 α :=
  !![1, 0, 0, v.x; 0, 1, 0, v.y; 0, 0, 1, v.z; 0, 0, 0, 1]

/-- The library call glm::rotate(angle, v): with c = cos(angle), s = sin(angle),
axis = normalize(v) and temp = (1 - c) * axis, the matrix whose column j, row i entry is the
library's Rotate[j][i]. -/
def glmRotate (m : ScalarMath α) (angle : α) (v : Vec3 α) : Mat4 α :=
  let c := m.cos angle
  let s := m.sin angle
  let axis := glmNormalize m v
  let temp := axis.smul (1 - c)
  !![c + temp.x * axis.x, temp.y * axis.x - s * axis.z, temp.z * axis.x + s * axis.y, 0;
     temp.x * axis.y + s * axis.z, c + temp.y * axis.y, temp.z * axis.y - s * axis.x, 0;
     temp.x * axis.z - s * axis.y, temp.y * axis.z + s * axis.x, c + temp.z * axis.z, 0;
     0, 0, 0, 1]

/-- The model matrix built by drawPlane. -/
def drawPlaneModel (m : ScalarMath α) (xScale yScale zScale xPos yPos zPos angle : α) :
    Mat4 α :=
  let scale := glmScale ⟨xScale, yScale, zScale⟩
  let rotation := glmRotate m angle ⟨0, 1, 0⟩
  let translation := glmTranslate ⟨xPos, yPos, zPos⟩
  translation * rotation * scale

/-- The model matrix built by drawCube for the lit draw of the cube. -/
def drawCubeModel (m : ScalarMath α) (xScale yScale zScale xPos yPos zPos angle : α) :
    Mat4 α :=
  let scale := glmScale ⟨xScale, yScale, zScale⟩
  let rotation := glmRotate m angle ⟨0, 1, 0⟩
  let translation := glmTranslate ⟨xPos, yPos, zPos⟩
  translation * rotation * scale

/-- The model matrix built by drawRectPrism. -/
def drawRectPrismModel (m : ScalarMath α) (xScale yScale zScale xPos yPos zPos angle : α) :
    Mat4 α :=
  let scale := glmScale ⟨xScale, yScale, zScale⟩
  let rotation := glmRotate m angle ⟨0, 1, 0⟩
  let translation := glmTranslate ⟨xPos, yPos, zPos⟩
  translation * rotation * scale

/-- The model matrix built by drawCylinder. -/
def drawCylinderModel (m : ScalarMath α) (xScale yScale zScale xPos yPos zPos angle : α) :
    Mat4 α :=
  let scale := glmScale ⟨xScale, yScale, zScale⟩
  let rotation := glmRotate m angle ⟨0, 1, 0⟩
  let translation := glmTranslate ⟨xPos, yPos, zPos⟩
  translation * rotation * scale

/-- The world position the vertex shader computes: vec3(model * vec4(position, 1.0)). -/
def vertexFragmentPos (model : Mat4 α) (position : Vec3 α) : Vec3 α :=
  let v := model.mulVec ![position.x, position.y, position.z, 1]
  ⟨v 0, v 1, v 2⟩

end Transforms

section PyramidTransform

variable {α : Type} [Field α]

/-- The model matrix built by drawPyramid: the fixed adjustment, a rotation by 1.58 rad about
the axis (-1, 0, 0), sits between the Y rotation and the scale. -/
def drawPyramidModel (m : ScalarMath α) (xScale yScale zScale xPos yPos zPos angle : α) :
    Mat4 α :=
  let scale := glmScale ⟨xScale, yScale, zScale⟩
  let rotation := glmRotate m angle ⟨0, 1, 0⟩
  let adjustment := glmRotate m 1.58 ⟨-1, 0, 0⟩
  let translation := glmTranslate ⟨xPos, yPos, zPos⟩
  translation * (rotation * adjustment) * scale

end PyramidTransform

/-! ## Program state: globals, GL context, window -/

/-- The named uniform slots of the two shader programs. -/
inductive Uniform
  | model | view | projection | objectColor | lightColor | torchColor | lightPos
  | viewPosition | uTexture | uvScale
deriving DecidableEq, Repr

/-- A value written into a uniform slot. -/
inductive UniformValue (α : Type)
  | mat4 (m : Mat4 α)
  | vec3 (v : Vec3 α)
  | vec2 (v : Vec2 α)
  | int (n : Int)

/-- The keys the program polls with glfwGetKey. -/
inductive Key
  | ESCAPE | W | S | A | D | Q | E | P | O
deriving DecidableEq, Repr

/-- The movement directions of the camera utility. -/
inductive Camera_Movement
  | FORWARD | BACKWARD | LEFT | RIGHT | UP | DOWN
deriving DecidableEq, Repr

/-- The texture parameters the program sets. -/
inductive TexPname
  | WRAP_S | WRAP_T | MIN_FILTER | MAG_FILTER
deriving DecidableEq, Repr

/-- The texture parameter values the program uses. -/
inductive TexParam
  | REPEAT | LINEAR
deriving DecidableEq, Repr

/-- The internal formats the program uploads textures with. -/
inductive InternalFormat
  | RGB8 | RGBA8
deriving DecidableEq, Repr

/-- A byte of image data (unsigned char). -/
abbrev UChar := Fin 256

/-- The image data a glTexImage2D call stores in a texture object. -/
structure TexImage where
  internalFormat : InternalFormat
  width : Int
  height : Int
  pixels : List UChar
  mipmaps : Bool
deriving DecidableEq, Repr

/-- The external camera utility (learnOpengl/camera.h), over a camera state type κ: its
readable fields and its methods. -/
structure CameraApi (α κ : Type) where
  Position : κ → Vec3 α
  Zoom : κ → α
  GetViewMatrix : κ → Mat4 α
  ProcessKeyboard : κ → Camera_Movement → α → κ
  ProcessMouseMovement : κ → α → α → κ
  ProcessMouseScroll : κ → α → κ

/-- One glDrawArrays(GL_TRIANGLES, 0, count) call, with the context state it was issued in:
the program in use and its uniform values, the bound vertex array and the bound texture. -/
structure DrawCall (α : Type) where
  program : Nat
  vertexArray : Nat
  texture : Nat
  count : Nat
  uniforms : Uniform → Option (UniformValue α)

/-- The variables of the unnamed namespace that hold the resources main creates at start-up:
the five meshes, the five texture names and the two program names. -/
structure Resources where
  planeMesh : GLMesh
  pyramidMesh : GLMesh
  cubeMesh : GLMesh
  rectPrismMesh : GLMesh
  cylinderMesh : GLMesh
  texTorchHandleId : Nat
  texTorchLightId : Nat
  texShinyBlueId : Nat
  texBirchId : Nat
  texPlasticId : Nat
  gProgramId : Nat
  gLightProgramId : Nat

/-- The variables of the unnamed namespace that the program assigns at run time: the
resources, the camera, the mouse tracking, the view flag and the frame timing. -/
structure Globals (α κ : Type) extends Resources where
  gCamera : κ
  gLastX : α
  gLastY : α
  gFirstMouse : Bool
  gPerspectiveView : Bool
  gDeltaTime : α
  gLastFrame : α

/-- The kinds of GL object the program creates. -/
inductive ObjectKind
  | vertexArray | buffer | texture | program | shader
deriving DecidableEq, Repr

/-- The four GLSL source texts of the program: the vertex and fragment shader of the object
program and those of the light program. -/
inductive ShaderSource
  | vertexShaderSource | fragmentShaderSource | lightVertexShaderSource
  | lightFragmentShaderSource
deriving DecidableEq, Repr

/-- The part of the GL context the program touches: the program in use, the bound vertex
array, array buffer and 2D texture, the uniform values of each program, the parameters and
image of each texture, the draws issued since the last clear, the number of object names
generated so far, the objects that exist, the names passed to the glDelete* calls, in order,
for the shader and program objects their source, compile status, attached shaders and
link status, and the glUniform* calls made so far, in order, each with the program in use,
the slot and the value. -/
structure GLContext (α : Type) where
  currentProgram : Nat
  vertexArray : Nat
  arrayBuffer : Nat
  texture2D : Nat
  uniforms : Nat → Uniform → Option (UniformValue α)
  texParams : Nat → TexPname → Option TexParam
  texImages : Nat → Option TexImage
  draws : List (DrawCall α)
  names : Nat
  live : List (ObjectKind × Nat)
  deleted : List (ObjectKind × Nat)
  shaderSource : Nat → Option ShaderSource
  compileStatus : Nat → Option Bool
  attached : Nat → List Nat
  linkStatus : Nat → Option Bool
  uniformWrites : List (Nat × Uniform × UniformValue α)

/-- The state of the running program: its global variables, the GL context, the window's
close flag and the lines written to cout. -/
structure World (α κ : Type) extends Globals α κ, GLContext α where
  windowShouldClose : Bool
  cout : List String

section GLCalls

variable {α κ : Type}

/-- The call glUseProgram(program). -/
def glUseProgram (program : Nat) (w : World α κ) : World α κ :=
  { w with currentProgram := program }

/-- A glUniform* call on the location of the named slot: it writes the slot of the program in
use; the call is recorded. -/
def glUniform (slot : Uniform) (v : UniformValue α) (w : World α κ) : World α κ :=
  { w with
    uniforms := fun p u => if p = w.currentProgram ∧ u = slot then some v else w.uniforms p u
    uniformWrites := w.uniformWrites ++ [(w.currentProgram, slot, v)] }

/-- The call glBindVertexArray(array). -/
def glBindVertexArray (array : Nat) (w : World α κ) : World α κ :=
  { w with vertexArray := array }

/-- The call glBindBuffer(GL_ARRAY_BUFFER, buffer). -/
def glBindBuffer (buffer : Nat) (w : World α κ) : World α κ :=
  { w with arrayBuffer := buffer }

/-- The call glBindTexture(GL_TEXTURE_2D, texture). -/
def glBindTexture (texture : Nat) (w : World α κ) : World α κ :=
  { w with texture2D := texture }

/-- The call glTexParameteri(GL_TEXTURE_2D, pname, v): it sets the parameter of the bound
texture. -/
def glTexParameteri (pname : TexPname) (v : TexParam) (w : World α κ) : World α κ :=
  { w with texParams := fun t p =>
      if t = w.texture2D ∧ p = pname then some v else w.texParams t p }

/-- The call glDrawArrays(GL_TRIANGLES, 0, count): the draw is recorded with the state it sees. -/
def glDrawArrays (count : Nat) (w : World α κ) : World α κ :=
  { w with draws := w.draws ++
      [⟨w.currentProgram, w.vertexArray, w.texture2D, count, w.uniforms w.currentProgram⟩] }

/-- The call glClear(GL_COLOR_BUFFER_BIT | GL_DEPTH_BUFFER_BIT): what was drawn is discarded. -/
def glClear (w : World α κ) : World α κ :=
  { w with draws := [] }

/-- A glGen* or glCreate* call for one object name: the context hands out the next unused
non-zero name. -/
def glGen (w : World α κ) : Nat × World α κ :=
  (w.names + 1, { w with names := w.names + 1 })

/-- The call glGenVertexArrays(1, &name): a new vertex array object. -/
def glGenVertexArrays (w : World α κ) : Nat × World α κ :=
  let (name, w) := glGen w
  (name, { w with live := w.live ++ [(ObjectKind.vertexArray, name)] })

/-- The call glGenBuffers(1, &name): a new buffer object. -/
def glGenBuffers (w : World α κ) : Nat × World α κ :=
  let (name, w) := glGen w
  (name, { w with live := w.live ++ [(ObjectKind.buffer, name)] })

/-- The call glGenTextures(1, &name): a new texture object. -/
def glGenTextures (w : World α κ) : Nat × World α κ :=
  let (name, w) := glGen w
  (name, { w with live := w.live ++ [(ObjectKind.texture, name)] })

/-- The call glCreateProgram(): a new program object. -/
def glCreateProgram (w : World α κ) : Nat × World α κ :=
  let (name, w) := glGen w
  (name, { w with live := w.live ++ [(ObjectKind.program, name)] })

/-- The call glCreateShader(type): a new shader object. -/
def glCreateShader (w : World α κ) : Nat × World α κ :=
  let (name, w) := glGen w
  (name, { w with live := w.live ++ [(ObjectKind.shader, name)] })

/-- The call glDeleteVertexArrays(1, &name): the object ceases to exist; if it is bound, the
binding reverts to 0. -/
def glDeleteVertexArrays (name : Nat) (w : World α κ) : World α κ :=
  { w with
    live := w.live.filter (fun o => o ≠ (ObjectKind.vertexArray, name))
    deleted := w.deleted ++ [(ObjectKind.vertexArray, name)]
    vertexArray := if w.vertexArray = name then 0 else w.vertexArray }

/-- The call glDeleteBuffers(1, &name): the object ceases to exist; if it is bound, the
binding reverts to 0. -/
def glDeleteBuffers (name : Nat) (w : World α κ) : World α κ :=
  { w with
    live := w.live.filter (fun o => o ≠ (ObjectKind.buffer, name))
    deleted := w.deleted ++ [(ObjectKind.buffer, name)]
    arrayBuffer := if w.arrayBuffer = name then 0 else w.arrayBuffer }

/-- The call glDeleteProgram(name): the object ceases to exist, unless it is the program in
use, which is only flagged for deletion. -/
def glDeleteProgram (name : Nat) (w : World α κ) : World α κ :=
  { w with
    live := if w.currentProgram = name then w.live
      else w.live.filter (fun o => o ≠ (ObjectKind.program, name))
    deleted := w.deleted ++ [(ObjectKind.program, name)] }

end GLCalls

/-! ## Projection, lights and the per-frame functions -/

/-- What the program takes from outside itself when it computes: the camera utility, and the
cosine, sine, reciprocal square root and tangent of the C maths library. -/
structure Env (α κ : Type) where
  camera : CameraApi α κ
  math : ScalarMath α
  tan : α → α

section Frame

variable {α κ : Type} [Field α]

/-- Window width in pixels. -/
def WINDOW_WIDTH : Nat := 800

/-- Window height in pixels. -/
def WINDOW_HEIGHT : Nat := 600

/-- Colour multiplier of every object. -/
def gObjectColor : Vec3 α := ⟨1.0, 1.0, 1.0⟩

/-- Position of the global light. -/
def sunPosition : Vec3 α := ⟨0.0, 8.0, 0.0⟩

/-- Colour of the global light. -/
def sunColor : Vec3 α := ⟨1.0, 1.0, 1.0⟩

/-- Colour of the torch light. -/
def torchLightColor : Vec3 α := ⟨1.0, 0.7, 0.3⟩

/-- Position of the torch light. -/
def torchLightPosition : Vec3 α := ⟨1.4, 3.3, -0.15⟩

/-- Scale of the light marker, glm::vec3(0.2f). -/
def gLightScale : Vec3 α := ⟨0.2, 0.2, 0.2⟩

/-- The library call glm::radians(degrees). -/
def glmRadians (degrees : α) : α := degrees * 0.01745329251994329576923690768489

/-- The library call glm::perspective(fovy, aspect, zNear, zFar) for the right-handed,
minus-one-to-one clip space the library defaults to. -/
def glmPerspective (tan : α → α) (fovy aspect zNear zFar : α) : Mat4 α :=
  let tanHalfFovy := tan (fovy / 2)
  !![1 / (aspect * tanHalfFovy), 0, 0, 0;
     0, 1 / tanHalfFovy, 0, 0;
     0, 0, -(zFar + zNear) / (zFar - zNear), -(2 * zFar * zNear) / (zFar - zNear);
     0, 0, -1, 0]

/-- The library call glm::ortho(left, right, bottom, top, zNear, zFar). -/
def glmOrtho (left right bottom top zNear zFar : α) : Mat4 α :=
  !![2 / (right - left), 0, 0, -(right + left) / (right - left);
     0, 2 / (top - bottom), 0, -(top + bottom) / (top - bottom);
     0, 0, -2 / (zFar - zNear), -(zFar + zNear) / (zFar - zNear);
     0, 0, 0, 1]

/-- The projection local of updateCamera (and of drawCube): perspective with the camera's zoom
as field of view when gPerspectiveView is set, the fixed orthographic frustum otherwise. -/
def updateCameraProjection (env : Env α κ) (w : World α κ) : Mat4 α :=
  if w.gPerspectiveView then
    glmPerspective env.tan (glmRadians (env.camera.Zoom w.gCamera))
      ((WINDOW_WIDTH : α) / (WINDOW_HEIGHT : α)) 0.1 100.0
  else
    glmOrtho (-2.0) 2.0 (-2.0) 2.0 0.1 100.0

/-- The function processView: P selects the orthographic view, O the perspective view. -/
def processView (keys : Key → Bool) (w : World α κ) : World α κ :=
  let w := if keys Key.P then { w with gPerspectiveView := false } else w
  if keys Key.O then { w with gPerspectiveView := true } else w

/-- The function updateCamera: it selects the object program and writes its matrix, colour,
light and camera uniforms, first with the sun's data and then with the torch's. -/
def updateCamera (env : Env α κ) (model : Mat4 α) (w : World α κ) : World α κ :=
  let view := env.camera.GetViewMatrix w.gCamera
  let projection := updateCameraProjection env w
  let w := glUseProgram w.gProgramId w
  let w := glUniform Uniform.model (UniformValue.mat4 model) w
  let w := glUniform Uniform.view (UniformValue.mat4 view) w
  let w := glUniform Uniform.projection (UniformValue.mat4 projection) w
  let w := glUniform Uniform.objectColor (UniformValue.vec3 gObjectColor) w
  let w := glUniform Uniform.lightColor (UniformValue.vec3 sunColor) w
  let w := glUniform Uniform.lightPos (UniformValue.vec3 sunPosition) w
  let cameraPosition := env.camera.Position w.gCamera
  let w := glUniform Uniform.viewPosition (UniformValue.vec3 cameraPosition) w
  let w := glUniform Uniform.objectColor (UniformValue.vec3 gObjectColor) w
  let w := glUniform Uniform.lightColor (UniformValue.vec3 torchLightColor) w
  glUniform Uniform.lightPos (UniformValue.vec3 torchLightPosition) w

/-- The function drawPlane. It binds no vertex array. -/
def drawPlane (env : Env α κ) (xScale yScale zScale xPos yPos zPos angle : α)
    (w : World α κ) : World α κ :=
  let w := glUseProgram w.gProgramId w
  let model := drawPlaneModel env.math xScale yScale zScale xPos yPos zPos angle
  let w := updateCamera env model w
  let w := glUniform Uniform.uvScale (UniformValue.vec2 ⟨1.0, 1.0⟩) w
  let w := glBindTexture w.texBirchId w
  glDrawArrays w.planeMesh.nVertices w

/-- The function drawCube: the lit draw of the cube, then the draw of the light marker with
the light program. -/
def drawCube (env : Env α κ) (xScale yScale zScale xPos yPos zPos angle : α)
    (w : World α κ) : World α κ :=
  let w := glUseProgram w.gProgramId w
  let model := drawCubeModel env.math xScale yScale zScale xPos yPos zPos angle
  let view := env.camera.GetViewMatrix w.gCamera
  let projection := updateCameraProjection env w
  let w := updateCamera env model w
  let w := glUniform Uniform.uvScale (UniformValue.vec2 ⟨1.0, 1.0⟩) w
  let w := glBindVertexArray w.cubeMesh.vao w
  let w := glBindTexture w.texTorchLightId w
  let w := glDrawArrays w.cubeMesh.nVertices w
  let w := glUseProgram w.gLightProgramId w
  let model := glmTranslate torchLightPosition * glmScale gLightScale
  let w := glUniform Uniform.model (UniformValue.mat4 model) w
  let w := glUniform Uniform.view (UniformValue.mat4 view) w
  let w := glUniform Uniform.projection (UniformValue.mat4 projection) w
  glDrawArrays w.cubeMesh.nVertices w

/-- The function drawRectPrism. -/
def drawRectPrism (env : Env α κ) (xScale yScale zScale xPos yPos zPos angle : α)
    (w : World α κ) : World α κ :=
  let w := glUseProgram w.gProgramId w
  let model := drawRectPrismModel env.math xScale yScale zScale xPos yPos zPos angle
  let w := updateCamera env model w
  let w := glUniform Uniform.uvScale (UniformValue.vec2 ⟨1.0, 1.0⟩) w
  let w := glBindVertexArray w.rectPrismMesh.vao w
  let w := glBindTexture w.texTorchHandleId w
  glDrawArrays w.rectPrismMesh.nVertices w

/-- The function drawPyramid. -/
def drawPyramid (env : Env α κ) (xScale yScale zScale xPos yPos zPos angle : α)
    (w : World α κ) : World α κ :=
  let w := glUseProgram w.gProgramId w
  let model := drawPyramidModel env.math xScale yScale zScale xPos yPos zPos angle
  let w := updateCamera env model w
  let w := glUniform Uniform.uvScale (UniformValue.vec2 ⟨1.0, 1.0⟩) w
  let w := glBindVertexArray w.pyramidMesh.vao w
  let w := glBindTexture w.texShinyBlueId w
  glDrawArrays w.pyramidMesh.nVertices w

/-- The function drawCylinder. -/
def drawCylinder (env : Env α κ) (xScale yScale zScale xPos yPos zPos angle : α)
    (w : World α κ) : World α κ :=
  let w := glUseProgram w.gProgramId w
  let model := drawCylinderModel env.math xScale yScale zScale xPos yPos zPos angle
  let w := updateCamera env model w
  let w := glUniform Uniform.uvScale (UniformValue.vec2 ⟨1.0, 1.0⟩) w
  let w := glBindVertexArray w.cylinderMesh.vao w
  let w := glBindTexture w.texPlasticId w
  glDrawArrays w.cylinderMesh.nVertices w

/-- The function drawScene: clear, draw the eight parts of the scene, unbind the vertex array
and the program. -/
def drawScene (env : Env α κ) (w : World α κ) : World α κ :=
  let w := glClear w
  let w := drawPlane env 12.5 1.0 10.0 0.0 0.0 0.0 0.0 w
  let w := drawPyramid env 1.0 1.0 1.0 0.0 0.0 0.0 0.0 w
  let w := drawRectPrism env 0.8 3.2 0.8 1.4 0.0 (-0.15) 5.0 w
  let w := drawCube env 0.8 0.8 0.8 1.4 3.2 (-0.15) 5.0 w
  let w := drawCylinder env 0.6 2.8 0.6 0.0 0.0 (-2.0) 0.0 w
  let w := drawCylinder env 0.55 0.3 0.55 0.0 2.8 (-2.0) 0.0 w
  let w := drawCylinder env 0.2 0.2 0.2 0.0 3.1 (-2.0) 0.0 w
  let w := glBindVertexArray 0 w
  glUseProgram 0 w

/-- One key test of UProcessInput: when the key is pressed the camera moves in the direction
over the frame time, gCamera.ProcessKeyboard(direction, gDeltaTime). -/
def keyMove (env : Env α κ) (isPressed : Bool) (direction : Camera_Movement)
    (w : World α κ) : World α κ :=
  if isPressed then
    { w with gCamera := env.camera.ProcessKeyboard w.gCamera direction w.gDeltaTime }
  else w

/-- The function UProcessInput for the polled key states. -/
def UProcessInput (env : Env α κ) (keys : Key → Bool) (w : World α κ) : World α κ :=
  let w := if keys Key.ESCAPE then { w with windowShouldClose := true } else w
  let w := keyMove env (keys Key.W) Camera_Movement.FORWARD w
  let w := keyMove env (keys Key.S) Camera_Movement.BACKWARD w
  let w := keyMove env (keys Key.A) Camera_Movement.LEFT w
  let w := keyMove env (keys Key.D) Camera_Movement.RIGHT w
  let w := keyMove env (keys Key.Q) Camera_Movement.DOWN w
  let w := keyMove env (keys Key.E) Camera_Movement.UP w
  let w := glBindTexture w.texTorchHandleId w
  let w := glBindTexture w.texTorchLightId w
  let w := glBindTexture w.texShinyBlueId w
  let w := glBindTexture w.texBirchId w
  let w := glTexParameteri TexPname.WRAP_S TexParam.REPEAT w
  let w := glTexParameteri TexPname.WRAP_T TexParam.REPEAT w
  glBindTexture 0 w

/-- The callback UMousePositionCallback. -/
def UMousePositionCallback (env : Env α κ) (xpos ypos : α) (w : World α κ) : World α κ :=
  let w := if w.gFirstMouse then
    { w with gLastX := xpos, gLastY := ypos, gFirstMouse := false } else w
  let xoffset := xpos - w.gLastX
  let yoffset := w.gLastY - ypos
  let w := { w with gLastX := xpos, gLastY := ypos }
  { w with gCamera := env.camera.ProcessMouseMovement w.gCamera xoffset yoffset }

/-- The callback UMouseScrollCallback. -/
def UMouseScrollCallback (env : Env α κ) (_xoffset yoffset : α) (w : World α κ) : World α κ :=
  { w with gCamera := env.camera.ProcessMouseScroll w.gCamera yoffset }

/-- The value of GLFW_PRESS. -/
def GLFW_PRESS : Int := 1

/-- The value of GLFW_MOUSE_BUTTON_LEFT. -/
def GLFW_MOUSE_BUTTON_LEFT : Int := 0

/-- The value of GLFW_MOUSE_BUTTON_RIGHT. -/
def GLFW_MOUSE_BUTTON_RIGHT : Int := 1

/-- The value of GLFW_MOUSE_BUTTON_MIDDLE. -/
def GLFW_MOUSE_BUTTON_MIDDLE : Int := 2

/-- The callback UMouseButtonCallback: it only writes a line to cout. -/
def UMouseButtonCallback (button action _mods : Int) (w : World α κ) : World α κ :=
  if button = GLFW_MOUSE_BUTTON_LEFT then
    if action = GLFW_PRESS then { w with cout := w.cout ++ ["Left mouse button pressed"] }
    else { w with cout := w.cout ++ ["Left mouse button released"] }
  else if button = GLFW_MOUSE_BUTTON_MIDDLE then
    if action = GLFW_PRESS then { w with cout := w.cout ++ ["Middle mouse button pressed"] }
    else { w with cout := w.cout ++ ["Middle mouse button released"] }
  else if button = GLFW_MOUSE_BUTTON_RIGHT then
    if action = GLFW_PRESS then { w with cout := w.cout ++ ["Right mouse button pressed"] }
    else { w with cout := w.cout ++ ["Right mouse button released"] }
  else { w with cout := w.cout ++ ["Unhandled mouse button event"] }

/-- The GL calls every mesh builder makes around its table: generate and bind a vertex array,
generate and bind a buffer; the result is the mesh record for the two names. -/
def genMesh (build : Nat → Nat → GLMesh) (w : World α κ) : GLMesh × World α κ :=
  let (vao, w) := glGenVertexArrays w
  let w := glBindVertexArray vao w
  let (vbo, w) := glGenBuffers w
  let w := glBindBuffer vbo w
  (build vao vbo, w)

/-- The five mesh-builder calls of main, in order. -/
def createMeshes (w : World α κ) : World α κ :=
  let (m, w) := genMesh createPlaneMesh w
  let w := { w with planeMesh := m }
  let (m, w) := genMesh createPyramidMesh w
  let w := { w with pyramidMesh := m }
  let (m, w) := genMesh createCubeMesh w
  let w := { w with cubeMesh := m }
  let (m, w) := genMesh createRectPrismMesh w
  let w := { w with rectPrismMesh := m }
  let (m, w) := genMesh createCylinderMesh w
  { w with cylinderMesh := m }

end Frame

/-! ## Start-up state and a concrete environment -/

section Startup

variable {α κ : Type} [Field α]

/-- The state the program starts in: the initial values of the variables of the unnamed
name space (for the camera main constructs at (0, 1.5, 7)) and a fresh GL context. -/
def initialWorld (camera : κ) : World α κ where
  planeMesh := ⟨0, 0, 0⟩
  pyramidMesh := ⟨0, 0, 0⟩
  cubeMesh := ⟨0, 0, 0⟩
  rectPrismMesh := ⟨0, 0, 0⟩
  cylinderMesh := ⟨0, 0, 0⟩
  texTorchHandleId := 0
  texTorchLightId := 0
  texShinyBlueId := 0
  texBirchId := 0
  texPlasticId := 0
  gProgramId := 0
  gLightProgramId := 0
  gCamera := camera
  gLastX := (WINDOW_WIDTH : α) / 2.0
  gLastY := (WINDOW_HEIGHT : α) / 2.0
  gFirstMouse := true
  gPerspectiveView := true
  gDeltaTime := 0.0
  gLastFrame := 0.0
  currentProgram := 0
  vertexArray := 0
  arrayBuffer := 0
  texture2D := 0
  uniforms := fun _ _ => none
  texParams := fun _ _ => none
  texImages := fun _ => none
  draws := []
  names := 0
  live := []
  deleted := []
  shaderSource := fun _ => none
  compileStatus := fun _ => none
  attached := fun _ => []
  linkStatus := fun _ => none
  uniformWrites := []
  windowShouldClose := false
  cout := []

end Startup

/-- A camera utility over the rationals that stores a position and a zoom and ignores all
input, for evaluating the program's functions on concrete states. -/
def fixedCamera : CameraApi ℚ (Vec3 ℚ × ℚ) where
  Position := fun c => c.1
  Zoom := fun c => c.2
  GetViewMatrix := fun _ => 1
  ProcessKeyboard := fun c _ _ => c
  ProcessMouseMovement := fun c _ _ => c
  ProcessMouseScroll := fun c _ => c

/-- A concrete environment over the rationals: the fixed camera, and constant stand-ins for
the maths library (cos = 1, sin = 0, inversesqrt = 1, tan = 1). -/
def fixedEnv : Env ℚ (Vec3 ℚ × ℚ) := ⟨fixedCamera, ⟨fun _ => 1, fun _ => 0, fun _ => 1⟩, fun _ => 1⟩

/-- The key state with exactly the listed keys pressed. -/
def pressed (ks : List Key) : Key → Bool := fun k => decide (k ∈ ks)

section Snapshots

variable {α : Type}

/-- What the claims read off a draw call: program, vertex array, texture and count. -/
def DrawCall.binding (d : DrawCall α) : Nat × Nat × Nat × Nat :=
  (d.program, d.vertexArray, d.texture, d.count)

/-- The light and camera uniforms a draw call sees: lightColor, lightPos, viewPosition. -/
def DrawCall.lighting (d : DrawCall α) :
    Option (UniformValue α) × Option (UniformValue α) × Option (UniformValue α) :=
  (d.uniforms Uniform.lightColor, d.uniforms Uniform.lightPos, d.uniforms Uniform.viewPosition)

/-- The light and camera uniforms of the program in use, as a draw issued now would see them. -/
def currentLighting {κ : Type} (w : World α κ) :
    Option (UniformValue α) × Option (UniformValue α) × Option (UniformValue α) :=
  (w.uniforms w.currentProgram Uniform.lightColor, w.uniforms w.currentProgram Uniform.lightPos,
   w.uniforms w.currentProgram Uniform.viewPosition)

end Snapshots

/-! ## The render loop -/

/-- An event processed by glfwPollEvents: one delivered to a registered callback, or the
user's request to close the window. -/
inductive Event (α : Type)
  | cursorPos (xpos ypos : α)
  | scroll (xoffset yoffset : α)
  | mouseButton (button action mods : Int)
  | framebufferSize (width height : Int)
  | windowClose

/-- What one iteration of the render loop receives from outside: the clock reading, the key
states the two input functions poll, and the events waiting at glfwPollEvents. -/
structure FrameInput (α : Type) where
  time : α
  keys : Key → Bool
  events : List (Event α)

section RenderLoop

variable {α κ : Type} [Field α]

/-- The callback GLFW runs for one event; UResizeWindow only sets the viewport. A request to
close the window has no callback: the library sets the window's close flag. -/
def dispatch (env : Env α κ) (e : Event α) (w : World α κ) : World α κ :=
  match e with
  | Event.cursorPos xpos ypos => UMousePositionCallback env xpos ypos w
  | Event.scroll xoffset yoffset => UMouseScrollCallback env xoffset yoffset w
  | Event.mouseButton button action mods => UMouseButtonCallback button action mods w
  | Event.framebufferSize _ _ => w
  | Event.windowClose => { w with windowShouldClose := true }

/-- The call glfwPollEvents(): the callbacks run for the waiting events, in order. -/
def glfwPollEvents (env : Env α κ) (events : List (Event α)) (w : World α κ) : World α κ :=
  events.foldl (fun w e => dispatch env e w) w

/-- One iteration of the render loop of main: frame timing, the two input functions,
drawScene, glfwPollEvents. -/
def renderFrame (env : Env α κ) (input : FrameInput α) (w : World α κ) : World α κ :=
  let currentFrame := input.time
  let w := { w with gDeltaTime := currentFrame - w.gLastFrame }
  let w := { w with gLastFrame := currentFrame }
  let w := UProcessInput env input.keys w
  let w := processView input.keys w
  let w := drawScene env w
  glfwPollEvents env input.events w

end RenderLoop

/-! ## Image flipping -/

/-- The largest value of the 32-bit type int. -/
def INT_MAX : Int := 2147483647

/-- The smallest value of the 32-bit type int. -/
def INT_MIN : Int := -2147483648

/-- The result of an int computation whose exact value is x: the value when it is representable;
signed overflow is undefined behaviour and gives no result. -/
def checkInt (x : Int) : Option Int :=
  if INT_MIN ≤ x ∧ x ≤ INT_MAX then some x else none

/-- The read image[index]: no result outside the buffer. -/
def readByte (image : List UChar) (index : Int) : Option UChar :=
  if 0 ≤ index ∧ index < image.length then image[index.toNat]? else none

/-- The write image[index] = v: no result outside the buffer. -/
def writeByte (image : List UChar) (index : Int) (v : UChar) : Option (List UChar) :=
  if 0 ≤ index ∧ index < image.length then some (image.set index.toNat v) else none

/-- The inner loop of flipImageVertically, for (int i = ...; i > 0; --i), with i iterations
left: swap image[index1] and image[index2] and advance both indices. -/
def swapLoop : Nat → List UChar → Int → Int → Option (List UChar)
  | 0, image, _, _ => some image
  | i + 1, image, index1, index2 => do
    let tmp ← readByte image index1
    let v ← readByte image index2
    let image ← writeByte image index1 v
    let image ← writeByte image index2 tmp
    let index1 ← checkInt (index1 + 1)
    let index2 ← checkInt (index2 + 1)
    swapLoop i image index1 index2

/-- The body of the outer loop of flipImageVertically for row j: compute index1, index2 and
the row length in int arithmetic, left to right, and run the inner loop. -/
def flipRow (image : List UChar) (width height channels j : Int) : Option (List UChar) := do
  let jw ← checkInt (j * width)
  let index1 ← checkInt (jw * channels)
  let h1 ← checkInt (height - 1)
  let h1j ← checkInt (h1 - j)
  let h1jw ← checkInt (h1j * width)
  let index2 ← checkInt (h1jw * channels)
  let i ← checkInt (width * channels)
  swapLoop i.toNat image index1 index2

/-- The outer loop of flipImageVertically, for (int j = ...; j < height / 2; ++j), with the
given number of iterations left. -/
def flipLoop (width height channels : Int) : Nat → Int → List UChar → Option (List UChar)
  | 0, _, image => some image
  | n + 1, j, image => do
    let image ← flipRow image width height channels j
    let j ← checkInt (j + 1)
    flipLoop width height channels n j image

/-- The function flipImageVertically on the buffer image; the result is the buffer afterwards,
or nothing when the run overflows an int or leaves the buffer. The loop over j runs height / 2
times (none when that is not positive). -/
def flipImageVertically (image : List UChar) (width height channels : Int) :
    Option (List UChar) :=
  flipLoop width height channels (Int.tdiv height 2).toNat 0 image

/-! ## Texture loading -/

/-- What stbi_load hands back when it can decode the file: the pixel buffer and the width,
height and channel count it stores through its out-parameters. -/
structure StbImage where
  data : List UChar
  width : Int
  height : Int
  channels : Int
deriving DecidableEq, Repr

/-- What the image decoder guarantees of a decoded image: non-negative sizes, a buffer of
width * height * channels bytes, and sizes that fit an int. -/
def StbImage.WellFormed (img : StbImage) : Prop :=
  0 ≤ img.width ∧ 0 ≤ img.height ∧ 0 ≤ img.channels ∧
  (img.data.length : Int) = img.width * img.height * img.channels ∧
  img.height ≤ INT_MAX ∧ img.width * img.height ≤ INT_MAX ∧
  img.width * img.height * img.channels ≤ INT_MAX

section Textures

variable {α κ : Type}

/-- The call glTexImage2D(GL_TEXTURE_2D, 0, internalFormat, width, height, ...): the image of
the bound texture is replaced. -/
def glTexImage2D (internalFormat : InternalFormat) (width height : Int) (pixels : List UChar)
    (w : World α κ) : World α κ :=
  { w with texImages := fun t =>
      if t = w.texture2D then some ⟨internalFormat, width, height, pixels, false⟩
      else w.texImages t }

/-- The call glGenerateMipmap(GL_TEXTURE_2D) on the bound texture. -/
def glGenerateMipmap (w : World α κ) : World α κ :=
  { w with texImages := fun t =>
      if t = w.texture2D then (w.texImages t).map fun img => { img with mipmaps := true }
      else w.texImages t }

/-- The function UCreateTexture, for the decoder stbi_load and the current value of the
argument passed as textureId. The result is the returned bool, the value of textureId
afterwards and the state afterwards; there is no result when flipImageVertically has none. -/
def UCreateTexture (stbi_load : String → Option StbImage) (filename : String) (textureId : Nat)
    (w : World α κ) : Option (Bool × Nat × World α κ) :=
  match stbi_load filename with
  | some img => do
    let image ← flipImageVertically img.data img.width img.height img.channels
    let (textureId, w) := glGenTextures w
    let w := glBindTexture textureId w
    let w := glTexParameteri TexPname.WRAP_S TexParam.REPEAT w
    let w := glTexParameteri TexPname.WRAP_T TexParam.REPEAT w
    let w := glTexParameteri TexPname.MIN_FILTER TexParam.LINEAR w
    let w := glTexParameteri TexPname.MAG_FILTER TexParam.LINEAR w
    if img.channels = 3 then
      let w := glTexImage2D InternalFormat.RGB8 img.width img.height image w
      let w := glGenerateMipmap w
      let w := glBindTexture 0 w
      some (true, textureId, w)
    else if img.channels = 4 then
      let w := glTexImage2D InternalFormat.RGBA8 img.width img.height image w
      let w := glGenerateMipmap w
      let w := glBindTexture 0 w
      some (true, textureId, w)
    else
      let w := { w with cout := w.cout ++
        ["Not implemented to handle image with " ++ toString img.channels ++ " channels"] }
      some (false, textureId, w)
  | none => some (false, textureId, w)

end Textures

/-- A decoder that finds no file. -/
def noFile : String → Option StbImage := fun _ => none

/-- A decoder that decodes every file to the given image. -/
def decodesTo (img : StbImage) : String → Option StbImage := fun _ => some img

/-- The state UCreateTexture reaches just before it tests the channel count: a texture name
generated and bound, the two wrap and two filter parameters set. -/
def texturePrepared {α κ : Type} (w : World α κ) : World α κ :=
  glTexParameteri TexPname.MAG_FILTER TexParam.LINEAR
    (glTexParameteri TexPname.MIN_FILTER TexParam.LINEAR
      (glTexParameteri TexPname.WRAP_T TexParam.REPEAT
        (glTexParameteri TexPname.WRAP_S TexParam.REPEAT
          (glBindTexture (glGenTextures w).1 (glGenTextures w).2))))



/-! ## The model matrices of the scene -/

/-- The model uniform a draw call sees. -/
def DrawCall.modelMatrix {α : Type} (d : DrawCall α) : Option (UniformValue α) :=
  d.uniforms Uniform.model

section SceneModels

variable {α : Type} [Field α]

/-- The model matrix of the desk: drawScene calls drawPlane(12.5, 1.0, 10.0, 0.0, 0.0, 0.0, 0.0). -/
def deskModel (m : ScalarMath α) : Mat4 α := drawPlaneModel m 12.5 1.0 10.0 0.0 0.0 0.0 0.0

/-- The model matrix of the blue pyramid: drawPyramid(1.0, 1.0, 1.0, 0.0, 0.0, 0.0, 0.0). -/
def pyramidModel (m : ScalarMath α) : Mat4 α := drawPyramidModel m 1.0 1.0 1.0 0.0 0.0 0.0 0.0

/-- The model matrix of the torch handle: drawRectPrism(0.8, 3.2, 0.8, 1.4, 0.0, -0.15, 5.0). -/
def torchHandleModel (m : ScalarMath α) : Mat4 α :=
  drawRectPrismModel m 0.8 3.2 0.8 1.4 0.0 (-0.15) 5.0

/-- The model matrix of the torch head: drawCube(0.8, 0.8, 0.8, 1.4, 3.2, -0.15, 5.0). -/
def torchHeadModel (m : ScalarMath α) : Mat4 α :=
  drawCubeModel m 0.8 0.8 0.8 1.4 3.2 (-0.15) 5.0

/-- The model matrix drawCube gives the light marker:
glm::translate(torchLightPosition) * glm::scale(gLightScale). -/
def lightMarkerModel : Mat4 α := glmTranslate torchLightPosition * glmScale gLightScale

/-- The model matrix of the bottle's body: drawCylinder(0.6, 2.8, 0.6, 0.0, 0.0, -2.0, 0.0). -/
def bottleBodyModel (m : ScalarMath α) : Mat4 α :=
  drawCylinderModel m 0.6 2.8 0.6 0.0 0.0 (-2.0) 0.0

/-- The model matrix of the bottle's neck: drawCylinder(0.55, 0.3, 0.55, 0.0, 2.8, -2.0, 0.0). -/
def bottleNeckModel (m : ScalarMath α) : Mat4 α :=
  drawCylinderModel m 0.55 0.3 0.55 0.0 2.8 (-2.0) 0.0

/-- The model matrix of the bottle's cap: drawCylinder(0.2, 0.2, 0.2, 0.0, 3.1, -2.0, 0.0). -/
def bottleCapModel (m : ScalarMath α) : Mat4 α :=
  drawCylinderModel m 0.2 0.2 0.2 0.0 3.1 (-2.0) 0.0

end SceneModels



/-! ## Start-up, shader programs, shutdown and main -/

/-- What the window system, the GL driver and the image decoder decide during a run: whether
glfwCreateWindow returns a window, whether glewInit returns GLEW_OK, the GL version string,
which source texts compile, which lists of attached sources link, the info logs of a shader
and of a program, and the images the decoder returns. -/
structure Driver where
  windowCreated : Bool
  glewOk : Bool
  glVersion : String
  compiles : ShaderSource → Bool
  links : List ShaderSource → Bool
  shaderInfoLog : ShaderSource → String
  programInfoLog : List ShaderSource → String
  stbi_load : String → Option StbImage

/-- The value of EXIT_SUCCESS. -/
def EXIT_SUCCESS : Int := 0

/-- The value of EXIT_FAILURE. -/
def EXIT_FAILURE : Int := 1

/-- The local filenameTorchHandle of main. -/
def filenameTorchHandle : String := "../../resources/textures/Torch_Stick.png"

/-- The local filenameTorchLight of main. -/
def filenameTorchLight : String := "../../resources/textures/Torch_Light.png"

/-- The local filenameShinyBlue of main. -/
def filenameShinyBlue : String := "../../resources/textures/Dark_Blue.jpg"

/-- The local filenameBirch of main. -/
def filenameBirch : String := "../../resources/textures/Birch.jpg"

/-- The local filenamePlastic of main. -/
def filenamePlastic : String := "../../resources/textures/White_Plastic.jpg"

section Shaders

variable {α κ : Type}

/-- The call glShaderSource(shader, 1, &source, NULL). -/
def glShaderSource (shader : Nat) (source : ShaderSource) (w : World α κ) : World α κ :=
  { w with shaderSource := fun s => if s = shader then some source else w.shaderSource s }

/-- The call glCompileShader(shader): the driver compiles the shader's source and records the
compile status. -/
def glCompileShader (drv : Driver) (shader : Nat) (w : World α κ) : World α κ :=
  { w with compileStatus := fun s =>
      if s = shader then (w.shaderSource shader).map drv.compiles else w.compileStatus s }

/-- The call glGetShaderiv(shader, GL_COMPILE_STATUS, &success), as the truth value of
success afterwards; the status of a shader that was never compiled is GL_FALSE. -/
def glGetShaderiv (shader : Nat) (w : World α κ) : Bool :=
  (w.compileStatus shader).getD false

/-- The call glGetShaderInfoLog(shader, ...), as the text it stores in infoLog. -/
def glGetShaderInfoLog (drv : Driver) (shader : Nat) (w : World α κ) : String :=
  match w.shaderSource shader with
  | some source => drv.shaderInfoLog source
  | none => ""

/-- The call glAttachShader(program, shader). -/
def glAttachShader (program shader : Nat) (w : World α κ) : World α κ :=
  { w with attached := fun p => if p = program then w.attached p ++ [shader] else w.attached p }

/-- The sources of the shaders attached to a program, in the order of attachment. -/
def attachedSources (program : Nat) (w : World α κ) : List ShaderSource :=
  (w.attached program).filterMap w.shaderSource

/-- The call glLinkProgram(program): the driver links the attached shaders and records the
link status. -/
def glLinkProgram (drv : Driver) (program : Nat) (w : World α κ) : World α κ :=
  { w with linkStatus := fun p =>
      if p = program then some (drv.links (attachedSources program w)) else w.linkStatus p }

/-- The call glGetProgramiv(program, GL_LINK_STATUS, &success), as the truth value of success
afterwards; the status of a program that was never linked is GL_FALSE. -/
def glGetProgramiv (program : Nat) (w : World α κ) : Bool :=
  (w.linkStatus program).getD false

/-- The call glGetProgramInfoLog(program, ...), as the text it stores in infoLog. -/
def glGetProgramInfoLog (drv : Driver) (program : Nat) (w : World α κ) : String :=
  drv.programInfoLog (attachedSources program w)

/-- The function UCreateShaderProgram. The result is the returned bool, the value of the
reference argument programId afterwards (it is assigned first thing) and the state
afterwards. An error message and the info log are two lines on cout. -/
def UCreateShaderProgram (drv : Driver) (vtxShaderSource fragShaderSource : ShaderSource)
    (w : World α κ) : Bool × Nat × World α κ :=
  let (programId, w) := glCreateProgram w
  let (vertexShaderId, w) := glCreateShader w
  let (fragmentShaderId, w) := glCreateShader w
  let w := glShaderSource vertexShaderId vtxShaderSource w
  let w := glShaderSource fragmentShaderId fragShaderSource w
  let w := glCompileShader drv vertexShaderId w
  if !glGetShaderiv vertexShaderId w then
    let infoLog := glGetShaderInfoLog drv vertexShaderId w
    (false, programId,
      { w with cout := w.cout ++ ["ERROR::SHADER::VERTEX::COMPILATION_FAILED", infoLog] })
  else
    let w := glCompileShader drv fragmentShaderId w
    if !glGetShaderiv fragmentShaderId w then
      let infoLog := glGetShaderInfoLog drv fragmentShaderId w
      (false, programId,
        { w with cout := w.cout ++ ["ERROR::SHADER::FRAGMENT::COMPILATION_FAILED", infoLog] })
    else
      let w := glAttachShader programId vertexShaderId w
      let w := glAttachShader programId fragmentShaderId w
      let w := glLinkProgram drv programId w
      if !glGetProgramiv programId w then
        let infoLog := glGetProgramInfoLog drv programId w
        (false, programId,
          { w with cout := w.cout ++ ["ERROR::SHADER::PROGRAM::LINKING_FAILED", infoLog] })
      else
        let w := glUseProgram programId w
        (true, programId, w)

/-- The function UDestroyShaderProgram. -/
def UDestroyShaderProgram (programId : Nat) (w : World α κ) : World α κ :=
  glDeleteProgram programId w

/-- The function UDestroyMesh. -/
def UDestroyMesh (mesh : GLMesh) (w : World α κ) : World α κ :=
  let w := glDeleteVertexArrays mesh.vao w
  glDeleteBuffers mesh.vbo w

/-- The function UDestroyTexture: it calls glGenTextures(1, &textureId) on its by-value
argument; the generated name is lost when the function returns. -/
def UDestroyTexture (_textureId : Nat) (w : World α κ) : World α κ :=
  let (_textureId, w) := glGenTextures w
  w

/-- The function UInitialize: the result is the returned bool and the state afterwards. The
message of a failed glewInit goes to cerr, which the state does not record. -/
def UInitialize (drv : Driver) (w : World α κ) : Bool × World α κ :=
  if !drv.windowCreated then
    (false, { w with cout := w.cout ++ ["Failed to create GLFW window"] })
  else if !drv.glewOk then
    (false, w)
  else
    (true, { w with cout := w.cout ++ ["INFO: OpenGL Version: " ++ drv.glVersion] })

end Shaders

/-- How a run of main stands after the given inputs: it has ended with an exit code in a final
state, or it is still in the render loop, or it has no defined behaviour. -/
inductive Outcome (α κ : Type)
  | exited (code : Int) (w : World α κ)
  | running
  | undefined

section Main

variable {α κ : Type} [Field α]

/-- The part of main from the load of the plastic texture to the render loop: a failed load
writes its message and ends the run with EXIT_FAILURE; after a successful one the program is
selected and the sampler's texture unit set, and the render loop can start. -/
def mainLoadPlastic (drv : Driver) (w : World α κ) : Except (Outcome α κ) (World α κ) :=
  match UCreateTexture drv.stbi_load filenamePlastic w.texPlasticId w with
  | none => Except.error Outcome.undefined
  | some (false, textureId, w) =>
    Except.error (Outcome.exited EXIT_FAILURE
      { w with texPlasticId := textureId,
               cout := w.cout ++ ["Failed to load texture: " ++ filenamePlastic] })
  | some (true, textureId, w) =>
    let w := { w with texPlasticId := textureId }
    let w := glUseProgram w.gProgramId w
    let w := glUniform Uniform.uTexture (UniformValue.int 0) w
    Except.ok w

/-- The part of main from the load of the birch texture on. -/
def mainLoadBirch (drv : Driver) (w : World α κ) : Except (Outcome α κ) (World α κ) :=
  match UCreateTexture drv.stbi_load filenameBirch w.texBirchId w with
  | none => Except.error Outcome.undefined
  | some (false, textureId, w) =>
    Except.error (Outcome.exited EXIT_FAILURE
      { w with texBirchId := textureId,
               cout := w.cout ++ ["Failed to load texture: " ++ filenameBirch] })
  | some (true, textureId, w) => mainLoadPlastic drv { w with texBirchId := textureId }

/-- The part of main from the load of the blue texture on. -/
def mainLoadShinyBlue (drv : Driver) (w : World α κ) : Except (Outcome α κ) (World α κ) :=
  match UCreateTexture drv.stbi_load filenameShinyBlue w.texShinyBlueId w with
  | none => Except.error Outcome.undefined
  | some (false, textureId, w) =>
    Except.error (Outcome.exited EXIT_FAILURE
      { w with texShinyBlueId := textureId,
               cout := w.cout ++ ["Failed to load texture: " ++ filenameShinyBlue] })
  | some (true, textureId, w) => mainLoadBirch drv { w with texShinyBlueId := textureId }

/-- The part of main from the load of the torch light texture on. -/
def mainLoadTorchLight (drv : Driver) (w : World α κ) : Except (Outcome α κ) (World α κ) :=
  match UCreateTexture drv.stbi_load filenameTorchLight w.texTorchLightId w with
  | none => Except.error Outcome.undefined
  | some (false, textureId, w) =>
    Except.error (Outcome.exited EXIT_FAILURE
      { w with texTorchLightId := textureId,
               cout := w.cout ++ ["Failed to load texture: " ++ filenameTorchLight] })
  | some (true, textureId, w) => mainLoadShinyBlue drv { w with texTorchLightId := textureId }

/-- The part of main under the comment "Load textures", up to the render loop: the five
texture loads in the order torch handle, torch light, blue, birch, plastic; each of them,
failing, writes its message and ends the run with EXIT_FAILURE. The result is otherwise the
state the render loop starts from; there is none when flipImageVertically has none. -/
def mainLoadTextures (drv : Driver) (w : World α κ) : Except (Outcome α κ) (World α κ) :=
  match UCreateTexture drv.stbi_load filenameTorchHandle w.texTorchHandleId w with
  | none => Except.error Outcome.undefined
  | some (false, textureId, w) =>
    Except.error (Outcome.exited EXIT_FAILURE
      { w with texTorchHandleId := textureId,
               cout := w.cout ++ ["Failed to load texture: " ++ filenameTorchHandle] })
  | some (true, textureId, w) => mainLoadTorchLight drv { w with texTorchHandleId := textureId }

/-- The part of main from the creation of the light program on: a failure ends the run with
EXIT_FAILURE; then the textures. -/
def mainCreateLightProgram (drv : Driver) (w : World α κ) : Except (Outcome α κ) (World α κ) :=
  match UCreateShaderProgram drv ShaderSource.lightVertexShaderSource
      ShaderSource.lightFragmentShaderSource w with
  | (false, programId, w) =>
    Except.error (Outcome.exited EXIT_FAILURE { w with gLightProgramId := programId })
  | (true, programId, w) => mainLoadTextures drv { w with gLightProgramId := programId }

/-- The part of main under the comment "Create the shader programs": the object program and
the light program, each of which, failing, ends the run with EXIT_FAILURE; then the textures. -/
def mainCreatePrograms (drv : Driver) (w : World α κ) : Except (Outcome α κ) (World α κ) :=
  match UCreateShaderProgram drv ShaderSource.vertexShaderSource
      ShaderSource.fragmentShaderSource w with
  | (false, programId, w) =>
    Except.error (Outcome.exited EXIT_FAILURE { w with gProgramId := programId })
  | (true, programId, w) => mainCreateLightProgram drv { w with gProgramId := programId }

/-- The part of main before the render loop: UInitialize, which, failing, ends the run with
EXIT_FAILURE, the five mesh builders, the two shader programs and the five textures. -/
def mainStartup (drv : Driver) (w : World α κ) : Except (Outcome α κ) (World α κ) :=
  match UInitialize drv w with
  | (false, w) => Except.error (Outcome.exited EXIT_FAILURE w)
  | (true, w) =>
  let w := createMeshes w
  mainCreatePrograms drv w

/-- The render loop of main, while (!glfwWindowShouldClose(gWindow)), over the inputs of the
frames to come: the state the loop ends in, or nothing when the window is still open after the
last of the given frames. -/
def renderLoop (env : Env α κ) : List (FrameInput α) → World α κ → Option (World α κ)
  | [], w => if w.windowShouldClose then some w else none
  | input :: rest, w =>
    if w.windowShouldClose then some w else renderLoop env rest (renderFrame env input w)

/-- The part of main after the render loop: the calls that release mesh data, textures and
shader programs. -/
def mainShutdown (w : World α κ) : World α κ :=
  let w := UDestroyMesh w.planeMesh w
  let w := UDestroyMesh w.pyramidMesh w
  let w := UDestroyMesh w.cubeMesh w
  let w := UDestroyMesh w.rectPrismMesh w
  let w := UDestroyTexture w.texTorchHandleId w
  let w := UDestroyTexture w.texTorchLightId w
  let w := UDestroyTexture w.texShinyBlueId w
  let w := UDestroyTexture w.texBirchId w
  let w := UDestroyShaderProgram w.gProgramId w
  UDestroyShaderProgram w.gLightProgramId w

/-- The function main, for the camera it constructs and the inputs of the frames to come: the
start-up, the render loop, the shutdown and exit(EXIT_SUCCESS). -/
def main (env : Env α κ) (drv : Driver) (frames : List (FrameInput α)) (camera : κ) :
    Outcome α κ :=
  match mainStartup drv (initialWorld camera) with
  | Except.error outcome => outcome
  | Except.ok w =>
    match renderLoop env frames w with
    | none => Outcome.running
    | some w => Outcome.exited EXIT_SUCCESS (mainShutdown w)

end Main

/-- A driver with which every start-up step succeeds: the window and the GL context are
created, every shader compiles and links, and every texture file decodes to a 1 x 1 image with
3 channels. -/
def workingDriver : Driver where
  windowCreated := true
  glewOk := true
  glVersion := "4.4"
  compiles := fun _ => true
  links := fun _ => true
  shaderInfoLog := fun _ => ""
  programInfoLog := fun _ => ""
  stbi_load := decodesTo ⟨[1, 2, 3], 1, 1, 3⟩

/-- A driver that rejects the object program's vertex shader and accepts everything else. -/
def brokenVertexDriver : Driver :=
  { workingDriver with
    compiles := fun s => decide (s ≠ ShaderSource.vertexShaderSource)
    shaderInfoLog := fun _ => "0(12) : error C0000: syntax error" }

/-! ## Which runs initialize, and which frames ask to close -/

/-- Whether the driver builds a program from the two sources: both compile, and they link. -/
def Driver.builds (drv : Driver) (vtx frag : ShaderSource) : Bool :=
  drv.compiles vtx && drv.compiles frag && drv.links [vtx, frag]

/-- Whether the file decodes to an image UCreateTexture uploads: one with 3 or 4 channels. -/
def Driver.loads (drv : Driver) (filename : String) : Bool :=
  match drv.stbi_load filename with
  | some img => decide (img.channels = 3 ∨ img.channels = 4)
  | none => false

/-- Whether the driver builds both shader programs of main. -/
def Driver.buildsPrograms (drv : Driver) : Bool :=
  drv.builds ShaderSource.vertexShaderSource ShaderSource.fragmentShaderSource &&
  drv.builds ShaderSource.lightVertexShaderSource ShaderSource.lightFragmentShaderSource

/-- Whether all five texture files of main load. -/
def Driver.loadsTextures (drv : Driver) : Bool :=
  drv.loads filenameTorchHandle && drv.loads filenameTorchLight &&
  drv.loads filenameShinyBlue && drv.loads filenameBirch && drv.loads filenamePlastic

/-- Whether every initialization step of main succeeds with the driver: the window and the GL
context, the two shader programs, and the five texture loads. -/
def Driver.initializes (drv : Driver) : Bool :=
  drv.windowCreated && drv.glewOk && drv.buildsPrograms && drv.loadsTextures

/-- Whether the event is the user's request to close the window. -/
def Event.isWindowClose {α : Type} : Event α → Bool
  | Event.windowClose => true
  | _ => false

/-- Whether the window's close flag is raised during the frame: ESCAPE is held when
UProcessInput polls it, or a request to close the window waits at glfwPollEvents. -/
def FrameInput.closeRequested {α : Type} (input : FrameInput α) : Bool :=
  input.keys Key.ESCAPE || input.events.any Event.isWindowClose

/-- The state a run has ended in, when it has ended. -/
def Outcome.final {α κ : Type} : Outcome α κ → Option (World α κ)
  | Outcome.exited _ w => some w
  | _ => none

/-- The exit code of a run, when it has ended. -/
def Outcome.code {α κ : Type} : Outcome α κ → Option Int
  | Outcome.exited code _ => some code
  | _ => none

/-- A frame at time 0 in which ESCAPE is held and no event waits. -/
def escapeFrame : FrameInput ℚ := ⟨0, pressed [Key.ESCAPE], []⟩

/-! ## The uniform calls of updateCamera, and the texture lookup of the shaders -/

/-- The last call in a list of glUniform* calls that writes the given slot of the given
program: its position in the list, counted from 0, and its value. A uniform holds the value
of the last call that wrote it. -/
def lastWrite {α : Type} (writes : List (Nat × Uniform × UniformValue α)) (program : Nat)
    (slot : Uniform) : Option (Nat × UniformValue α) :=
  ((writes.enum.filter fun e => decide (e.2.1 = program ∧ e.2.2.1 = slot)).getLast?).map
    fun e => (e.1, e.2.2.2)

/-- The ten glUniform* calls of updateCamera in source order, all on the object program: the
three matrices; under "Pass data to sun light" the object colour, the sun's colour, the sun's
position and the camera position (positions 3 to 6); under "Pass data to torch light" the
object colour, the torch's colour and the torch's position (positions 7 to 9). -/
def updateCameraWrites {α κ : Type} [Field α] (env : Env α κ) (model : Mat4 α)
    (w : World α κ) : List (Nat × Uniform × UniformValue α) :=
  [(w.gProgramId, Uniform.model, UniformValue.mat4 model),
   (w.gProgramId, Uniform.view, UniformValue.mat4 (env.camera.GetViewMatrix w.gCamera)),
   (w.gProgramId, Uniform.projection, UniformValue.mat4 (updateCameraProjection env w)),
   (w.gProgramId, Uniform.objectColor, UniformValue.vec3 gObjectColor),
   (w.gProgramId, Uniform.lightColor, UniformValue.vec3 sunColor),
   (w.gProgramId, Uniform.lightPos, UniformValue.vec3 sunPosition),
   (w.gProgramId, Uniform.viewPosition, UniformValue.vec3 (env.camera.Position w.gCamera)),
   (w.gProgramId, Uniform.objectColor, UniformValue.vec3 gObjectColor),
   (w.gProgramId, Uniform.lightColor, UniformValue.vec3 torchLightColor),
   (w.gProgramId, Uniform.lightPos, UniformValue.vec3 torchLightPosition)]

end Scene

namespace Scene

/-! ## Theorems -/

/-- The dot product is linear in a scaled first argument. -/
theorem Vec3.dot_smul_left (a b : Vec3 ℚ) (t : ℚ) : (a.smul t).dot b = t * a.dot b := by
  simp only [Vec3.dot, Vec3.smul]
  ring

/-- C1: in the rectangular-prism table every group of six vertices shares one normal, that
normal has positive dot product with the vector from the box centre to each vertex of the face,
and the six face normals are the six signed unit axis vectors, each exactly once. -/
theorem rectPrism_faces_outward_axis_normals :
    (∀ f < 6, ∀ k < 6, normal rectPrismVerts (6 * f + k) = normal rectPrismVerts (6 * f)) ∧
    (∀ f < 6, ∀ k < 6,
      0 < (normal rectPrismVerts (6 * f)).dot
            ((position rectPrismVerts (6 * f + k)).sub boxCentre)) ∧
    (faceNormals rectPrismVerts).length = 6 ∧
    (∀ a ∈ signedAxes, (faceNormals rectPrismVerts).count a = 1) ∧
    (faceNormals rectPrismVerts).Perm signedAxes := by
  refine ⟨by decide!, by decide!, by decide!, by decide!, by decide!⟩

/-- C2 (as stated, refuted): the normal stored on the first face of the cube table points
towards the box centre, not away from it: its dot product with the vector from the centre to
the face's first vertex is negative. -/
theorem cube_base_normal_points_inward :
    normal cubeVerts 0 = ⟨0, 1, 0⟩ ∧ position cubeVerts 0 = ⟨-0.5, 0, -0.5⟩ ∧
    ¬ 0 < (normal cubeVerts 0).dot ((position cubeVerts 0).sub boxCentre) := by
  refine ⟨by decide!, by decide!, by decide!⟩

/-- C2 (amended): in the cube table every group of six vertices shares one normal, that normal
points inward (negative dot product with the vector from the box centre to each vertex of the
face), and the six face normals are the six signed unit axis vectors, each exactly once. -/
theorem cube_faces_inward_axis_normals :
    (∀ f < 6, ∀ k < 6, normal cubeVerts (6 * f + k) = normal cubeVerts (6 * f)) ∧
    (∀ f < 6, ∀ k < 6,
      (normal cubeVerts (6 * f)).dot ((position cubeVerts (6 * f + k)).sub boxCentre) < 0) ∧
    (faceNormals cubeVerts).length = 6 ∧
    (∀ a ∈ signedAxes, (faceNormals cubeVerts).count a = 1) ∧
    (faceNormals cubeVerts).Perm signedAxes := by
  refine ⟨by decide!, by decide!, by decide!, by decide!, by decide!⟩

/-- C3 (as stated, refuted): side walls 1 and 2 of the cylinder carry the same normal, and the
normal of side wall 0 is not a positive multiple of the direction to the midpoint of its
bottom edge. -/
theorem cylinder_side_normals_not_distinct_radial :
    sideNormal 1 = sideNormal 2 ∧
    ¬ ∃ t : ℚ, 0 < t ∧ sideNormal 0 = (wallMidDirection 0).smul t := by
  refine ⟨by decide!, ?_⟩
  rintro ⟨t, ht, h⟩
  have hn : sideNormal 0 = ⟨-1, 0, 0⟩ := by decide!
  have hd : wallMidDirection 0 = ⟨-17 / 20, 0, -7 / 20⟩ := by decide!
  rw [hn, hd] at h
  have hz := congrArg Vec3.z h
  simp only [Vec3.smul] at hz
  linarith

/-- C3 (amended): every side wall of the cylinder carries one normal on its six vertices; the
eight wall normals are, in wall order, -X, -Z, -Z, +X, +X, +Z, +Z, -X, so only four distinct
normals occur; each is a signed unit axis vector with positive dot product with the
horizontal direction from the axis to the midpoint of that wall's bottom edge. -/
theorem cylinder_side_normals_axis_aligned_outward :
    (∀ i < 8, ∀ k < 6, wallNormal i k = sideNormal i) ∧
    (List.range 8).map sideNormal =
      [⟨-1, 0, 0⟩, ⟨0, 0, -1⟩, ⟨0, 0, -1⟩, ⟨1, 0, 0⟩, ⟨1, 0, 0⟩, ⟨0, 0, 1⟩, ⟨0, 0, 1⟩,
       ⟨-1, 0, 0⟩] ∧
    (((List.range 8).map sideNormal).dedup).length = 4 ∧
    (∀ i < 8, sideNormal i ∈ signedAxes) ∧
    (∀ i < 8, 0 < (sideNormal i).dot (wallMidDirection i)) := by
  refine ⟨by decide!, by decide!, by decide!, by decide!, by decide!⟩

/-- C4: the side section of the cylinder table is 8 walls of 6 vertices (2 triangles) each;
wall i is the pair of triangles (bottom i, top i, top i+1) and (bottom i, bottom i+1,
top i+1) over the ring vertices i and i+1 mod 8 at heights 0 and 1, and its six vertices carry
one normal. The ring is the octagon A..H, with pairwise distinct vertices. -/
theorem cylinder_side_walls_quads :
    sideStart + 8 * 6 = topCapStart ∧
    (List.range 8).map ringVertex =
      [⟨-1, 0, 0⟩, ⟨-0.7, 0, -0.7⟩, ⟨0, 0, -1⟩, ⟨0.7, 0, -0.7⟩, ⟨1, 0, 0⟩, ⟨0.7, 0, 0.7⟩,
       ⟨0, 0, 1⟩, ⟨-0.7, 0, 0.7⟩] ∧
    ((List.range 8).map ringVertex).Nodup ∧
    (∀ i < 8,
      wallPosition i 0 = ringAt i 0 ∧ wallPosition i 1 = ringAt i 1 ∧
      wallPosition i 2 = ringAt ((i + 1) % 8) 1 ∧
      wallPosition i 3 = ringAt i 0 ∧ wallPosition i 4 = ringAt ((i + 1) % 8) 0 ∧
      wallPosition i 5 = ringAt ((i + 1) % 8) 1) ∧
    (∀ i < 8, ∀ k < 6, wallNormal i k = wallNormal i 0) := by
  refine ⟨by decide, by decide!, by decide!, by decide!, by decide!⟩

/-- C5: the first 24 and the last 24 vertices of the cylinder table are each 8 triangles
(ring i, ring i+1, cap centre), at height 0 and height 1; vertex k of the top cap has the
x, z and texture coordinate of vertex k of the bottom cap, height 1 instead of 0, and the
normal (0, 1, 0). -/
theorem cylinder_caps_fans_mirror :
    bottomCapStart + 8 * 3 = sideStart ∧ topCapStart + 8 * 3 = vertexCount cylinderVerts ∧
    (∀ i < 8,
      position cylinderVerts (bottomCapStart + 3 * i) = ringAt i 0 ∧
      position cylinderVerts (bottomCapStart + 3 * i + 1) = ringAt ((i + 1) % 8) 0 ∧
      position cylinderVerts (bottomCapStart + 3 * i + 2) = ⟨0, 0, 0⟩) ∧
    (∀ i < 8,
      position cylinderVerts (topCapStart + 3 * i) = ringAt i 1 ∧
      position cylinderVerts (topCapStart + 3 * i + 1) = ringAt ((i + 1) % 8) 1 ∧
      position cylinderVerts (topCapStart + 3 * i + 2) = ⟨0, 1, 0⟩) ∧
    (∀ k < 24,
      (position cylinderVerts (bottomCapStart + k)).y = 0 ∧
      position cylinderVerts (topCapStart + k) =
        ⟨(position cylinderVerts (bottomCapStart + k)).x, 1,
         (position cylinderVerts (bottomCapStart + k)).z⟩ ∧
      uv cylinderVerts (topCapStart + k) = uv cylinderVerts (bottomCapStart + k) ∧
      normal cylinderVerts (topCapStart + k) = ⟨0, 1, 0⟩) := by
  refine ⟨by decide, by decide!, by decide!, by decide!, by decide!⟩

/-- C6 (as stated, refuted): the normal (0, -1, 1) stored on the first side of the pyramid is
not orthogonal to that side's slanted edge (0.5, 0.5, 1), their dot product being 1/2, and it
is no multiple of the cross product (0, -1, 0.5) of the side's edges. -/
theorem pyramid_side_normal_not_face_normal :
    sideCornerNormal 0 0 = ⟨0, -1, 1⟩ ∧ sideSlantEdge 0 = ⟨0.5, 0.5, 1⟩ ∧
    (sideCornerNormal 0 0).dot (sideSlantEdge 0) = 1 / 2 ∧
    ¬ ∃ t : ℚ, sideCornerNormal 0 0 = (sideCross 0).smul t := by
  refine ⟨by decide!, by decide!, by decide!, ?_⟩
  rintro ⟨t, h⟩
  have hn : sideCornerNormal 0 0 = ⟨0, -1, 1⟩ := by decide!
  have hc : sideCross 0 = ⟨0, -1, 1 / 2⟩ := by decide!
  rw [hn, hc] at h
  have hy := congrArg Vec3.y h
  have hz := congrArg Vec3.z h
  simp only [Vec3.smul] at hy hz
  linarith

/-- C6 (amended): each of the 4 side triangles of the pyramid stores one vector on its three
corners; the four vectors are (0,-1,1), (1,0,1), (0,1,1), (-1,0,1); each is orthogonal to the
base edge of its triangle and lies on the outer side of the triangle (positive dot product
with the outward cross product of the triangle's edges and with the vector from the centroid
to each corner), but is not orthogonal to either slanted edge and so is no multiple of
that cross product. -/
theorem pyramid_side_normals_outward_flat :
    (∀ s < 4, ∀ k < 3, sideCornerNormal s k = sideCornerNormal s 0) ∧
    (List.range 4).map (fun s => sideCornerNormal s 0) =
      [⟨0, -1, 1⟩, ⟨1, 0, 1⟩, ⟨0, 1, 1⟩, ⟨-1, 0, 1⟩] ∧
    (∀ s < 4, (sideCornerNormal s 0).dot (sideBaseEdge s) = 0) ∧
    (∀ s < 4, 0 < (sideCross s).dot ((sidePosition s 0).sub pyramidCentroid)) ∧
    (∀ s < 4, 0 < (sideCornerNormal s 0).dot (sideCross s)) ∧
    (∀ s < 4, ∀ k < 3, 0 < (sideCornerNormal s 0).dot ((sidePosition s k).sub pyramidCentroid)) ∧
    (∀ s < 4, (sideCornerNormal s 0).dot (sideSlantEdge s) ≠ 0 ∧
      (sideCornerNormal s 0).dot (sideSlantEdge2 s) ≠ 0) ∧
    (∀ s < 4, ¬ ∃ t : ℚ, sideCornerNormal s 0 = (sideCross s).smul t) := by
  have hslant : ∀ s < 4, (sideCornerNormal s 0).dot (sideSlantEdge s) ≠ 0 ∧
      (sideCornerNormal s 0).dot (sideSlantEdge2 s) ≠ 0 := by decide!
  have hcross : ∀ s < 4, (sideCross s).dot (sideSlantEdge s) = 0 := by decide!
  refine ⟨by decide!, by decide!, by decide!, by decide!, by decide!, by decide!, hslant, ?_⟩
  rintro s hs ⟨t, h⟩
  apply (hslant s hs).1
  rw [h, Vec3.dot_smul_left, hcross s hs, mul_zero]

/-- C7 (the code at the claim): the plane table has 6 vertices (2 triangles), all at height
y = 0, but every one of them stores the normal (0, 0, 1), not the upward normal (0, 1, 0). -/
theorem plane_normals_are_z_not_up :
    vertexCount planeVerts = 6 ∧
    (∀ i < 6, (position planeVerts i).y = 0) ∧
    (∀ i < 6, normal planeVerts i = ⟨0, 0, 1⟩) ∧
    (∀ i < 6, normal planeVerts i ≠ ⟨0, 1, 0⟩) := by
  refine ⟨by decide!, by decide!, by decide!, by decide!⟩

/-- C8: for each of the five meshes the float table has a length that is a multiple of 8, the
stored vertex count is that length divided by 8 (6, 18, 36, 36 and 96), and the vertex count
is divisible by 3. -/
theorem mesh_vertex_counts (vao vbo : Nat) :
    (planeVerts.length % 8 = 0 ∧ (createPlaneMesh vao vbo).nVertices = planeVerts.length / 8 ∧
      (createPlaneMesh vao vbo).nVertices = 6 ∧ (createPlaneMesh vao vbo).nVertices % 3 = 0) ∧
    (pyramidVerts.length % 8 = 0 ∧
      (createPyramidMesh vao vbo).nVertices = pyramidVerts.length / 8 ∧
      (createPyramidMesh vao vbo).nVertices = 18 ∧
      (createPyramidMesh vao vbo).nVertices % 3 = 0) ∧
    (cubeVerts.length % 8 = 0 ∧ (createCubeMesh vao vbo).nVertices = cubeVerts.length / 8 ∧
      (createCubeMesh vao vbo).nVertices = 36 ∧ (createCubeMesh vao vbo).nVertices % 3 = 0) ∧
    (rectPrismVerts.length % 8 = 0 ∧
      (createRectPrismMesh vao vbo).nVertices = rectPrismVerts.length / 8 ∧
      (createRectPrismMesh vao vbo).nVertices = 36 ∧
      (createRectPrismMesh vao vbo).nVertices % 3 = 0) ∧
    (cylinderVerts.length % 8 = 0 ∧
      (createCylinderMesh vao vbo).nVertices = cylinderVerts.length / 8 ∧
      (createCylinderMesh vao vbo).nVertices = 96 ∧
      (createCylinderMesh vao vbo).nVertices % 3 = 0) := by
  have l1 : planeVerts.length = 48 := by decide!
  have l2 : pyramidVerts.length = 144 := by decide!
  have l3 : cubeVerts.length = 288 := by decide!
  have l4 : rectPrismVerts.length = 288 := by decide!
  have l5 : cylinderVerts.length = 768 := by decide!
  have c1 : vertexCount planeVerts = 6 := by decide!
  have c2 : vertexCount pyramidVerts = 18 := by decide!
  have c3 : vertexCount cubeVerts = 36 := by decide!
  have c4 : vertexCount rectPrismVerts = 36 := by decide!
  have c5 : vertexCount cylinderVerts = 96 := by decide!
  simp only [createPlaneMesh, createPyramidMesh, createCubeMesh, createRectPrismMesh,
    createCylinderMesh, l1, l2, l3, l4, l5, c1, c2, c3, c4, c5]
  all_goals decide

/-- C9 (as stated, refuted): the cube and rectangular-prism tables differ: at vertex 0 the
cube stores the normal (0, 1, 0) and the prism (0, -1, 0), and at vertex 19 the cube stores
the texture coordinate (1, 0) and the prism (0, 1). -/
theorem cube_rectPrism_data_differ :
    normal cubeVerts 0 = ⟨0, 1, 0⟩ ∧ normal rectPrismVerts 0 = ⟨0, -1, 0⟩ ∧
    normal cubeVerts 0 ≠ normal rectPrismVerts 0 ∧
    uv cubeVerts 19 = ⟨1, 0⟩ ∧ uv rectPrismVerts 19 = ⟨0, 1⟩ ∧
    uv cubeVerts 19 ≠ uv rectPrismVerts 19 := by
  refine ⟨by decide!, by decide!, by decide!, by decide!, by decide!, by decide!⟩

/-- C9 (amended): the cube and rectangular-prism tables have the same vertex count and,
vertex by vertex in order, the same position; the normal of every cube vertex is the negation
of the prism's normal at that vertex; the texture coordinates agree at every vertex other than
vertices 19 and 22. -/
theorem cube_rectPrism_same_positions_negated_normals (vao vbo vao2 vbo2 : Nat) :
    (createCubeMesh vao vbo).nVertices = (createRectPrismMesh vao2 vbo2).nVertices ∧
    (createCubeMesh vao vbo).nVertices = 36 ∧
    (∀ i < 36, position cubeVerts i = position rectPrismVerts i) ∧
    (∀ i < 36, normal cubeVerts i = (normal rectPrismVerts i).neg) ∧
    (∀ i < 36, i ≠ 19 → i ≠ 22 → uv cubeVerts i = uv rectPrismVerts i) := by
  have c3 : vertexCount cubeVerts = 36 := by decide!
  have c4 : vertexCount rectPrismVerts = 36 := by decide!
  refine ⟨?_, ?_, by decide!, by decide!, by decide!⟩
  · simp only [createCubeMesh, createRectPrismMesh, c3, c4]
  · simp only [createCubeMesh, c3]

/-- The point map of translate * rotate * scale over the reals, in closed form. -/
theorem drawPlaneModel_apply (sx sy sz x y z a px py pz : ℝ) :
    vertexFragmentPos
        (drawPlaneModel ⟨Real.cos, Real.sin, fun t => (Real.sqrt t)⁻¹⟩ sx sy sz x y z a)
        ⟨px, py, pz⟩ =
      ⟨x + Real.cos a * sx * px + Real.sin a * sz * pz, y + sy * py,
       z - Real.sin a * sx * px + Real.cos a * sz * pz⟩ := by
  simp only [vertexFragmentPos, drawPlaneModel, glmScale, glmRotate, glmTranslate, glmNormalize,
    Vec3.dot, Vec3.smul]
  simp [Matrix.mul_apply, Matrix.mulVec, Matrix.dotProduct, Fin.sum_univ_four]
  exact ⟨by ring, by ring, by ring⟩

/-- The point map of translate * rotate * scale is scaling, then rotating, then translating. -/
theorem drawPlaneModel_order (sx sy sz x y z a px py pz : ℝ) :
    vertexFragmentPos
        (drawPlaneModel ⟨Real.cos, Real.sin, fun t => (Real.sqrt t)⁻¹⟩ sx sy sz x y z a)
        ⟨px, py, pz⟩ =
      vertexFragmentPos (glmTranslate ⟨x, y, z⟩)
        (vertexFragmentPos (glmRotate ⟨Real.cos, Real.sin, fun t => (Real.sqrt t)⁻¹⟩ a ⟨0, 1, 0⟩)
          (vertexFragmentPos (glmScale ⟨sx, sy, sz⟩) ⟨px, py, pz⟩)) := by
  simp only [vertexFragmentPos, drawPlaneModel, glmScale, glmRotate, glmTranslate, glmNormalize,
    Vec3.dot, Vec3.smul]
  simp [Matrix.mul_apply, Matrix.mulVec, Matrix.dotProduct, Fin.sum_univ_four]
  exact ⟨by ring, by ring⟩

/-- C10: over the reals, with the library cosine, sine and reciprocal square root, the model
matrix translate * rotate * scale built by drawPlane, drawCube, drawRectPrism and drawCylinder
maps every local point (px, py, pz) to
(x + cos a * sx * px + sin a * sz * pz, y + sy * py, z - sin a * sx * px + cos a * sz * pz),
which is the point scaled first, then rotated about the Y axis by a, then translated. -/
theorem draw_model_point_map (sx sy sz x y z a px py pz : ℝ) :
    (vertexFragmentPos
        (drawPlaneModel ⟨Real.cos, Real.sin, fun t => (Real.sqrt t)⁻¹⟩ sx sy sz x y z a)
        ⟨px, py, pz⟩ =
      ⟨x + Real.cos a * sx * px + Real.sin a * sz * pz, y + sy * py,
       z - Real.sin a * sx * px + Real.cos a * sz * pz⟩) ∧
    (vertexFragmentPos
        (drawCubeModel ⟨Real.cos, Real.sin, fun t => (Real.sqrt t)⁻¹⟩ sx sy sz x y z a)
        ⟨px, py, pz⟩ =
      ⟨x + Real.cos a * sx * px + Real.sin a * sz * pz, y + sy * py,
       z - Real.sin a * sx * px + Real.cos a * sz * pz⟩) ∧
    (vertexFragmentPos
        (drawRectPrismModel ⟨Real.cos, Real.sin, fun t => (Real.sqrt t)⁻¹⟩ sx sy sz x y z a)
        ⟨px, py, pz⟩ =
      ⟨x + Real.cos a * sx * px + Real.sin a * sz * pz, y + sy * py,
       z - Real.sin a * sx * px + Real.cos a * sz * pz⟩) ∧
    (vertexFragmentPos
        (drawCylinderModel ⟨Real.cos, Real.sin, fun t => (Real.sqrt t)⁻¹⟩ sx sy sz x y z a)
        ⟨px, py, pz⟩ =
      ⟨x + Real.cos a * sx * px + Real.sin a * sz * pz, y + sy * py,
       z - Real.sin a * sx * px + Real.cos a * sz * pz⟩) ∧
    (⟨x + Real.cos a * sx * px + Real.sin a * sz * pz, y + sy * py,
       z - Real.sin a * sx * px + Real.cos a * sz * pz⟩ : Vec3 ℝ) =
      vertexFragmentPos (glmTranslate ⟨x, y, z⟩)
        (vertexFragmentPos (glmRotate ⟨Real.cos, Real.sin, fun t => (Real.sqrt t)⁻¹⟩ a ⟨0, 1, 0⟩)
          (vertexFragmentPos (glmScale ⟨sx, sy, sz⟩) ⟨px, py, pz⟩)) := by
  have h := drawPlaneModel_apply sx sy sz x y z a px py pz
  refine ⟨h, ?_, ?_, ?_, ?_⟩
  · exact h
  · exact h
  · exact h
  · rw [← h]
    exact drawPlaneModel_order sx sy sz x y z a px py pz

/-- The sine of the pyramid's tilt angle is positive: 0 < 1.58 < pi. -/
theorem sin_tilt_pos : 0 < Real.sin 1.58 := by
  apply Real.sin_pos_of_pos_of_lt_pi
  · norm_num
  · have := Real.pi_gt_three
    linarith

/-- Over the reals glm::scale of (1, 1, 1) is the identity. -/
theorem glmScale_one : glmScale (⟨1, 1, 1⟩ : Vec3 ℝ) = 1 := by
  ext i j
  simp only [glmScale]
  fin_cases i <;> fin_cases j <;>
    simp [Matrix.vecHead, Matrix.vecTail, Matrix.one_apply]

/-- Over the reals glm::translate of (0, 0, 0) is the identity. -/
theorem glmTranslate_zero : glmTranslate (⟨0, 0, 0⟩ : Vec3 ℝ) = 1 := by
  ext i j
  simp only [glmTranslate]
  fin_cases i <;> fin_cases j <;>
    simp [Matrix.vecHead, Matrix.vecTail, Matrix.one_apply]

/-- Over the reals glm::rotate by the angle 0 about the Y axis is the identity. -/
theorem glmRotate_zero_y :
    glmRotate ⟨Real.cos, Real.sin, fun t => (Real.sqrt t)⁻¹⟩ (0 : ℝ) ⟨0, 1, 0⟩ = 1 := by
  ext i j
  simp only [glmRotate, glmNormalize, Vec3.dot, Vec3.smul]
  fin_cases i <;> fin_cases j <;>
    simp [Matrix.vecHead, Matrix.vecTail, Matrix.one_apply]

/-- Over the reals the pyramid's adjustment, glm::rotate by 1.58 about (-1, 0, 0), written
out. -/
theorem glmRotate_tilt :
    glmRotate ⟨Real.cos, Real.sin, fun t => (Real.sqrt t)⁻¹⟩ (1.58 : ℝ) ⟨-1, 0, 0⟩ =
      !![1, 0, 0, 0; 0, Real.cos 1.58, Real.sin 1.58, 0;
         0, -Real.sin 1.58, Real.cos 1.58, 0; 0, 0, 0, 1] := by
  ext i j
  simp only [glmRotate, glmNormalize, Vec3.dot, Vec3.smul]
  fin_cases i <;> fin_cases j <;>
    simp [Matrix.vecHead, Matrix.vecTail]

/-- With unit scale, zero angle and zero translation the pyramid's model matrix is its
adjustment. -/
theorem drawPyramidModel_unit :
    drawPyramidModel ⟨Real.cos, Real.sin, fun t => (Real.sqrt t)⁻¹⟩ (1 : ℝ) 1 1 0 0 0 0 =
      glmRotate ⟨Real.cos, Real.sin, fun t => (Real.sqrt t)⁻¹⟩ 1.58 ⟨-1, 0, 0⟩ := by
  simp only [drawPyramidModel, glmScale_one, glmTranslate_zero, glmRotate_zero_y, one_mul,
    mul_one]

/-- With unit scale, zero angle and zero translation the pyramid's model matrix has the
positive entry sin 1.58 in row 1, column 2, so it is not the identity. -/
theorem drawPyramidModel_unit_entry :
    drawPyramidModel ⟨Real.cos, Real.sin, fun t => (Real.sqrt t)⁻¹⟩ (1 : ℝ) 1 1 0 0 0 0 1 2 =
      Real.sin 1.58 ∧
    drawPyramidModel ⟨Real.cos, Real.sin, fun t => (Real.sqrt t)⁻¹⟩ (1 : ℝ) 1 1 0 0 0 0 ≠ 1 := by
  have h : drawPyramidModel ⟨Real.cos, Real.sin, fun t => (Real.sqrt t)⁻¹⟩ (1 : ℝ) 1 1 0 0 0 0
      1 2 = Real.sin 1.58 := by
    rw [drawPyramidModel_unit, glmRotate_tilt]
    simp
  refine ⟨h, ?_⟩
  intro hI
  have h0 : drawPyramidModel ⟨Real.cos, Real.sin, fun t => (Real.sqrt t)⁻¹⟩ (1 : ℝ) 1 1 0 0 0 0
      1 2 = 0 := by
    rw [hI]
    simp
  have := sin_tilt_pos
  linarith

/-- C11 (as stated, refuted): the model matrix drawPyramid builds from scale (1, 1, 1), angle 0
and translation (0, 0, 0), the parameters drawScene passes, is not the identity: its row 1,
column 2 entry is sin 1.58, which is positive. -/
theorem drawPyramidModel_unit_not_identity :
    drawPyramidModel ⟨Real.cos, Real.sin, fun t => (Real.sqrt t)⁻¹⟩ (1 : ℝ) 1 1 0 0 0 0 1 2 =
      Real.sin 1.58 ∧
    0 < Real.sin 1.58 ∧
    drawPyramidModel ⟨Real.cos, Real.sin, fun t => (Real.sqrt t)⁻¹⟩ (1 : ℝ) 1 1 0 0 0 0 ≠ 1 :=
  ⟨drawPyramidModel_unit_entry.1, sin_tilt_pos, drawPyramidModel_unit_entry.2⟩

/-- C11 (amended): over the reals, with scale (1, 1, 1), angle 0 and translation (0, 0, 0) the
model matrix translate * rotate * scale of drawPlane, drawCube, drawRectPrism and drawCylinder
is the identity, while the model matrix of drawPyramid is its fixed adjustment, the rotation
by 1.58 rad about (-1, 0, 0), which is not the identity. -/
theorem draw_model_unit_identity :
    drawPlaneModel ⟨Real.cos, Real.sin, fun t => (Real.sqrt t)⁻¹⟩ (1 : ℝ) 1 1 0 0 0 0 = 1 ∧
    drawCubeModel ⟨Real.cos, Real.sin, fun t => (Real.sqrt t)⁻¹⟩ (1 : ℝ) 1 1 0 0 0 0 = 1 ∧
    drawRectPrismModel ⟨Real.cos, Real.sin, fun t => (Real.sqrt t)⁻¹⟩ (1 : ℝ) 1 1 0 0 0 0 = 1 ∧
    drawCylinderModel ⟨Real.cos, Real.sin, fun t => (Real.sqrt t)⁻¹⟩ (1 : ℝ) 1 1 0 0 0 0 = 1 ∧
    drawPyramidModel ⟨Real.cos, Real.sin, fun t => (Real.sqrt t)⁻¹⟩ (1 : ℝ) 1 1 0 0 0 0 =
      glmRotate ⟨Real.cos, Real.sin, fun t => (Real.sqrt t)⁻¹⟩ 1.58 ⟨-1, 0, 0⟩ ∧
    glmRotate ⟨Real.cos, Real.sin, fun t => (Real.sqrt t)⁻¹⟩ (1.58 : ℝ) ⟨-1, 0, 0⟩ ≠ 1 := by
  have h : drawPlaneModel ⟨Real.cos, Real.sin, fun t => (Real.sqrt t)⁻¹⟩ (1 : ℝ) 1 1 0 0 0 0
      = 1 := by
    simp only [drawPlaneModel, glmScale_one, glmTranslate_zero, glmRotate_zero_y, one_mul]
  refine ⟨h, h, h, h, drawPyramidModel_unit, ?_⟩
  rw [← drawPyramidModel_unit]
  exact drawPyramidModel_unit_entry.2

/-- The closed form of the pyramid's model matrix on a point, over the reals. -/
theorem drawPyramidModel_apply (sx sy sz x y z a px py pz : ℝ) :
    vertexFragmentPos
        (drawPyramidModel ⟨Real.cos, Real.sin, fun t => (Real.sqrt t)⁻¹⟩ sx sy sz x y z a)
        ⟨px, py, pz⟩ =
      ⟨x + Real.cos a * (sx * px) +
          Real.sin a * (-Real.sin 1.58 * (sy * py) + Real.cos 1.58 * (sz * pz)),
       y + (Real.cos 1.58 * (sy * py) + Real.sin 1.58 * (sz * pz)),
       z - Real.sin a * (sx * px) +
          Real.cos a * (-Real.sin 1.58 * (sy * py) + Real.cos 1.58 * (sz * pz))⟩ := by
  simp only [vertexFragmentPos, drawPyramidModel, glmScale, glmRotate, glmTranslate,
    glmNormalize, Vec3.dot, Vec3.smul]
  simp [Matrix.mul_apply, Matrix.mulVec, Matrix.dotProduct, Fin.sum_univ_four]
  exact ⟨by ring, by ring, by ring⟩

/-- The pyramid's model matrix acts as scale, then the adjustment, then the Y rotation, then the
translation. -/
theorem drawPyramidModel_order (sx sy sz x y z a px py pz : ℝ) :
    vertexFragmentPos
        (drawPyramidModel ⟨Real.cos, Real.sin, fun t => (Real.sqrt t)⁻¹⟩ sx sy sz x y z a)
        ⟨px, py, pz⟩ =
      vertexFragmentPos (glmTranslate ⟨x, y, z⟩)
        (vertexFragmentPos (glmRotate ⟨Real.cos, Real.sin, fun t => (Real.sqrt t)⁻¹⟩ a ⟨0, 1, 0⟩)
          (vertexFragmentPos
            (glmRotate ⟨Real.cos, Real.sin, fun t => (Real.sqrt t)⁻¹⟩ 1.58 ⟨-1, 0, 0⟩)
            (vertexFragmentPos (glmScale ⟨sx, sy, sz⟩) ⟨px, py, pz⟩))) := by
  simp only [vertexFragmentPos, drawPyramidModel, glmScale, glmRotate, glmTranslate,
    glmNormalize, Vec3.dot, Vec3.smul]
  simp [Matrix.mul_apply, Matrix.mulVec, Matrix.dotProduct, Fin.sum_univ_four]
  exact ⟨by ring, by ring, by ring⟩

/-- The pyramid's adjustment on a point: the rotation by 1.58 rad about the -X axis. -/
theorem tilt_apply (px py pz : ℝ) :
    vertexFragmentPos (glmRotate ⟨Real.cos, Real.sin, fun t => (Real.sqrt t)⁻¹⟩ 1.58 ⟨-1, 0, 0⟩)
        ⟨px, py, pz⟩ =
      ⟨px, Real.cos 1.58 * py + Real.sin 1.58 * pz,
       -Real.sin 1.58 * py + Real.cos 1.58 * pz⟩ := by
  simp only [vertexFragmentPos, glmRotate, glmNormalize, Vec3.dot, Vec3.smul]
  simp [Matrix.mulVec, Matrix.dotProduct, Fin.sum_univ_four]

/-- C12: over the reals the model matrix of drawPyramid, translate * (rotate * adjustment) *
scale, sends every local point p to t + R_y(a)(R_-x(1.58)(S p)), the adjustment being the
rotation by 1.58 rad about -X applied between the scale and the Y rotation; with the scene's
parameters (scale 1, angle 0, translation 0) the apex (0, 0, 1) of the pyramid table goes to
(0, sin 1.58, cos 1.58), whose height sin 1.58 is positive, and the local origin always goes to
the translation. -/
theorem pyramid_model_tilt (sx sy sz x y z a px py pz : ℝ) :
    (vertexFragmentPos
        (drawPyramidModel ⟨Real.cos, Real.sin, fun t => (Real.sqrt t)⁻¹⟩ sx sy sz x y z a)
        ⟨px, py, pz⟩ =
      vertexFragmentPos (glmTranslate ⟨x, y, z⟩)
        (vertexFragmentPos (glmRotate ⟨Real.cos, Real.sin, fun t => (Real.sqrt t)⁻¹⟩ a ⟨0, 1, 0⟩)
          (vertexFragmentPos
            (glmRotate ⟨Real.cos, Real.sin, fun t => (Real.sqrt t)⁻¹⟩ 1.58 ⟨-1, 0, 0⟩)
            (vertexFragmentPos (glmScale ⟨sx, sy, sz⟩) ⟨px, py, pz⟩)))) ∧
    (vertexFragmentPos
        (drawPyramidModel ⟨Real.cos, Real.sin, fun t => (Real.sqrt t)⁻¹⟩ sx sy sz x y z a)
        ⟨px, py, pz⟩ =
      ⟨x + Real.cos a * (sx * px) +
          Real.sin a * (-Real.sin 1.58 * (sy * py) + Real.cos 1.58 * (sz * pz)),
       y + (Real.cos 1.58 * (sy * py) + Real.sin 1.58 * (sz * pz)),
       z - Real.sin a * (sx * px) +
          Real.cos a * (-Real.sin 1.58 * (sy * py) + Real.cos 1.58 * (sz * pz))⟩) ∧
    (vertexFragmentPos (glmRotate ⟨Real.cos, Real.sin, fun t => (Real.sqrt t)⁻¹⟩ 1.58 ⟨-1, 0, 0⟩)
        ⟨px, py, pz⟩ =
      ⟨px, Real.cos 1.58 * py + Real.sin 1.58 * pz,
       -Real.sin 1.58 * py + Real.cos 1.58 * pz⟩) ∧
    (∀ s < 4, sidePosition s 2 = ⟨0, 0, 1⟩) ∧
    (vertexFragmentPos
        (drawPyramidModel ⟨Real.cos, Real.sin, fun t => (Real.sqrt t)⁻¹⟩ (1 : ℝ) 1 1 0 0 0 0)
        ⟨0, 0, 1⟩ = ⟨0, Real.sin 1.58, Real.cos 1.58⟩) ∧
    0 < (vertexFragmentPos
        (drawPyramidModel ⟨Real.cos, Real.sin, fun t => (Real.sqrt t)⁻¹⟩ (1 : ℝ) 1 1 0 0 0 0)
        ⟨0, 0, 1⟩).y ∧
    (vertexFragmentPos
        (drawPyramidModel ⟨Real.cos, Real.sin, fun t => (Real.sqrt t)⁻¹⟩ sx sy sz x y z a)
        ⟨0, 0, 0⟩ = ⟨x, y, z⟩) := by
  have hapex : vertexFragmentPos
      (drawPyramidModel ⟨Real.cos, Real.sin, fun t => (Real.sqrt t)⁻¹⟩ (1 : ℝ) 1 1 0 0 0 0)
      ⟨0, 0, 1⟩ = ⟨0, Real.sin 1.58, Real.cos 1.58⟩ := by
    rw [drawPyramidModel_apply]
    simp
  refine ⟨drawPyramidModel_order sx sy sz x y z a px py pz,
    drawPyramidModel_apply sx sy sz x y z a px py pz, tilt_apply px py pz, by decide!, hapex,
    ?_, ?_⟩
  · rw [hapex]
    exact sin_tilt_pos
  · rw [drawPyramidModel_apply]
    simp

/-- The view flag after processView, as a function of the two keys and the prior flag. -/
theorem processView_gPerspectiveView {α κ : Type} [Field α] (keys : Key → Bool)
    (w : World α κ) :
    (processView keys w).gPerspectiveView =
      if keys Key.O then true else if keys Key.P then false else w.gPerspectiveView := by
  unfold processView
  cases keys Key.P <;> cases keys Key.O <;> rfl

/-- The function processView leaves the camera alone. -/
theorem processView_gCamera {α κ : Type} [Field α] (keys : Key → Bool) (w : World α κ) :
    (processView keys w).gCamera = w.gCamera := by
  unfold processView
  cases keys Key.P <;> cases keys Key.O <;> rfl

/-- C13: from any state, after processView runs with P pressed and O not pressed the
projection updateCamera builds and uploads is ortho(-2, 2, -2, 2, 0.1, 100), whatever the
camera (so whatever its zoom); after processView runs with O pressed, from any state, it is
perspective(radians(zoom), 800/600, 0.1, 100) for the zoom the camera has at that call. -/
theorem processView_projection {α κ : Type} [Field α] (env : Env α κ) (w : World α κ)
    (keysP keysO : Key → Bool) (hP : keysP Key.P = true) (hPO : keysP Key.O = false)
    (hO : keysO Key.O = true) :
    updateCameraProjection env (processView keysP w) = glmOrtho (-2.0) 2.0 (-2.0) 2.0 0.1 100.0 ∧
    (∀ camera : κ, ∀ model : Mat4 α,
      updateCameraProjection env { processView keysP w with gCamera := camera } =
        glmOrtho (-2.0) 2.0 (-2.0) 2.0 0.1 100.0 ∧
      (updateCamera env model { processView keysP w with gCamera := camera }).uniforms
          w.gProgramId Uniform.projection =
        some (UniformValue.mat4 (glmOrtho (-2.0) 2.0 (-2.0) 2.0 0.1 100.0))) ∧
    (∀ camera : κ, ∀ model : Mat4 α,
      updateCameraProjection env (processView keysO { processView keysP w with gCamera := camera }) =
        glmPerspective env.tan (glmRadians (env.camera.Zoom camera)) (800 / 600) 0.1 100.0 ∧
      (updateCamera env model
          (processView keysO { processView keysP w with gCamera := camera })).uniforms
          w.gProgramId Uniform.projection =
        some (UniformValue.mat4
          (glmPerspective env.tan (glmRadians (env.camera.Zoom camera)) (800 / 600) 0.1 100.0))) ∧
    (∀ w2 : World α κ,
      updateCameraProjection env (processView keysO w2) =
        glmPerspective env.tan (glmRadians (env.camera.Zoom w2.gCamera)) (800 / 600) 0.1 100.0) := by
  have hw : (WINDOW_WIDTH : α) / (WINDOW_HEIGHT : α) = 800 / 600 := by
    simp [WINDOW_WIDTH, WINDOW_HEIGHT]
  refine ⟨?_, ?_, ?_, ?_⟩
  · simp [updateCameraProjection, processView, hP, hPO]
  · intro camera model
    constructor
    · simp [updateCameraProjection, processView, hP, hPO]
    · simp [updateCamera, updateCameraProjection, processView, hP, hPO, glUniform, glUseProgram]
  · intro camera model
    constructor
    · simp [updateCameraProjection, processView, hP, hPO, hO, hw]
    · simp [updateCamera, updateCameraProjection, processView, hP, hPO, hO, hw, glUniform,
        glUseProgram]
  · intro w2
    simp [updateCameraProjection, processView_gPerspectiveView, processView_gCamera, hO, hw]

/-- C13 (witness): from the start-up state with the camera at (0, 1.5, 7) and zoom 45, pressing
P gives the orthographic projection and then pressing O the perspective one for zoom 45. -/
theorem processView_projection_witness :
    pressed [Key.P] Key.P = true ∧ pressed [Key.P] Key.O = false ∧
    pressed [Key.O] Key.O = true ∧
    updateCameraProjection fixedEnv
        (processView (pressed [Key.P]) (initialWorld (⟨0, 1.5, 7⟩, 45))) =
      glmOrtho (-2.0) 2.0 (-2.0) 2.0 0.1 100.0 ∧
    updateCameraProjection fixedEnv
        (processView (pressed [Key.O])
          (processView (pressed [Key.P]) (initialWorld (⟨0, 1.5, 7⟩, 45)))) =
      glmPerspective fixedEnv.tan (glmRadians 45) (800 / 600) 0.1 100.0 :=
  ⟨by decide, by decide, by decide,
   (processView_projection fixedEnv (initialWorld (⟨0, 1.5, 7⟩, 45)) (pressed [Key.P])
      (pressed [Key.O]) (by decide) (by decide) (by decide)).1,
   (processView_projection fixedEnv (initialWorld (⟨0, 1.5, 7⟩, 45)) (pressed [Key.P])
      (pressed [Key.O]) (by decide) (by decide) (by decide)).2.2.2
      (processView (pressed [Key.P]) (initialWorld (⟨0, 1.5, 7⟩, 45)))⟩

/-- A key test of UProcessInput leaves the view flag alone. -/
theorem keyMove_gPerspectiveView {α κ : Type} [Field α] (env : Env α κ) (b : Bool)
    (d : Camera_Movement) (w : World α κ) :
    (keyMove env b d w).gPerspectiveView = w.gPerspectiveView := by
  unfold keyMove
  cases b <;> rfl

/-- The function UProcessInput leaves the view flag alone. -/
theorem UProcessInput_gPerspectiveView {α κ : Type} [Field α] (env : Env α κ)
    (keys : Key → Bool) (w : World α κ) :
    (UProcessInput env keys w).gPerspectiveView = w.gPerspectiveView := by
  simp only [UProcessInput, glBindTexture, glTexParameteri, keyMove_gPerspectiveView]
  cases keys Key.ESCAPE <;> rfl

/-- C14: processView sets the view flag and does not toggle it: whatever the prior value, the
flag afterwards is perspective when O is pressed (alone or with P), orthographic when only P
is pressed, and the prior value when neither is pressed; the flag starts as perspective, and
UProcessInput and the mouse position, scroll and button callbacks leave it unchanged. -/
theorem processView_sets_view_flag {α κ : Type} [Field α] (env : Env α κ) (w : World α κ)
    (keys : Key → Bool) (camera : κ) (xpos ypos xoffset yoffset : α)
    (button action mods : Int) :
    (processView keys w).gPerspectiveView =
      (if keys Key.O then true else if keys Key.P then false else w.gPerspectiveView) ∧
    (processView (pressed [Key.P]) w).gPerspectiveView = false ∧
    (processView (pressed [Key.O]) w).gPerspectiveView = true ∧
    (processView (pressed []) w).gPerspectiveView = w.gPerspectiveView ∧
    (processView (pressed [Key.P, Key.O]) w).gPerspectiveView = true ∧
    (initialWorld camera : World α κ).gPerspectiveView = true ∧
    (UProcessInput env keys w).gPerspectiveView = w.gPerspectiveView ∧
    (UMousePositionCallback env xpos ypos w).gPerspectiveView = w.gPerspectiveView ∧
    (UMouseScrollCallback env xoffset yoffset w).gPerspectiveView = w.gPerspectiveView ∧
    (UMouseButtonCallback button action mods w).gPerspectiveView = w.gPerspectiveView := by
  refine ⟨processView_gPerspectiveView keys w, ?_, ?_, ?_, ?_, rfl,
    UProcessInput_gPerspectiveView env keys w, ?_, rfl, ?_⟩
  · rw [processView_gPerspectiveView]; rfl
  · rw [processView_gPerspectiveView]; rfl
  · rw [processView_gPerspectiveView]; rfl
  · rw [processView_gPerspectiveView]; rfl
  · unfold UMousePositionCallback
    cases w.gFirstMouse <;> rfl
  · unfold UMouseButtonCallback
    split_ifs <;> rfl

/-! ### What each draw function does to the state -/

/-- Clearing leaves the program's variables alone. -/
theorem glClear_toGlobals {α κ : Type} (w : World α κ) : (glClear w).toGlobals = w.toGlobals :=
  rfl

/-- Clearing leaves the vertex-array binding alone. -/
theorem glClear_vertexArray {α κ : Type} (w : World α κ) :
    (glClear w).vertexArray = w.vertexArray := rfl

/-- Clearing empties the list of draws. -/
theorem glClear_draws {α κ : Type} (w : World α κ) : (glClear w).draws = [] := rfl

section DrawLemmas

variable {α κ : Type} [Field α] (env : Env α κ) (w : World α κ)


/-- The function drawPlane leaves the program's variables alone. -/
theorem drawPlane_toGlobals (a b c d e f g : α) :
    (drawPlane env a b c d e f g w).toGlobals = w.toGlobals := by
  simp only [drawPlane, updateCamera, glUniform, glUseProgram, glBindTexture, glBindVertexArray,
    glDrawArrays]

/-- The vertex array bound when drawPlane returns. -/
theorem drawPlane_vertexArray (a b c d e f g : α) :
    (drawPlane env a b c d e f g w).vertexArray = w.vertexArray := by
  simp only [drawPlane, updateCamera, glUniform, glUseProgram, glBindTexture, glBindVertexArray,
    glDrawArrays]

/-- The draw drawPlane adds: program, vertex array, texture and count. -/
theorem drawPlane_binding (a b c d e f g : α) :
    (drawPlane env a b c d e f g w).draws.map DrawCall.binding =
      w.draws.map DrawCall.binding ++ [(w.gProgramId, w.vertexArray, w.texBirchId, w.planeMesh.nVertices)] := by
  simp [drawPlane, updateCamera, glUniform, glUseProgram, glBindTexture, glBindVertexArray,
    glDrawArrays, DrawCall.binding]

/-- The light and camera uniforms the draw of drawPlane sees: the torch's colour and position and
the camera's position. -/
theorem drawPlane_lighting (a b c d e f g : α) :
    (drawPlane env a b c d e f g w).draws.map DrawCall.lighting =
      w.draws.map DrawCall.lighting ++
        [(some (UniformValue.vec3 torchLightColor), some (UniformValue.vec3 torchLightPosition),
          some (UniformValue.vec3 (env.camera.Position w.gCamera)))] := by
  simp [drawPlane, updateCamera, glUniform, glUseProgram, glBindTexture, glBindVertexArray,
    glDrawArrays, DrawCall.lighting]


/-- The function drawPyramid leaves the program's variables alone. -/
theorem drawPyramid_toGlobals (a b c d e f g : α) :
    (drawPyramid env a b c d e f g w).toGlobals = w.toGlobals := by
  simp only [drawPyramid, updateCamera, glUniform, glUseProgram, glBindTexture, glBindVertexArray,
    glDrawArrays]

/-- The vertex array bound when drawPyramid returns. -/
theorem drawPyramid_vertexArray (a b c d e f g : α) :
    (drawPyramid env a b c d e f g w).vertexArray = w.pyramidMesh.vao := by
  simp only [drawPyramid, updateCamera, glUniform, glUseProgram, glBindTexture, glBindVertexArray,
    glDrawArrays]

/-- The draw drawPyramid adds: program, vertex array, texture and count. -/
theorem drawPyramid_binding (a b c d e f g : α) :
    (drawPyramid env a b c d e f g w).draws.map DrawCall.binding =
      w.draws.map DrawCall.binding ++ [(w.gProgramId, w.pyramidMesh.vao, w.texShinyBlueId, w.pyramidMesh.nVertices)] := by
  simp [drawPyramid, updateCamera, glUniform, glUseProgram, glBindTexture, glBindVertexArray,
    glDrawArrays, DrawCall.binding]

/-- The light and camera uniforms the draw of drawPyramid sees: the torch's colour and position and
the camera's position. -/
theorem drawPyramid_lighting (a b c d e f g : α) :
    (drawPyramid env a b c d e f g w).draws.map DrawCall.lighting =
      w.draws.map DrawCall.lighting ++
        [(some (UniformValue.vec3 torchLightColor), some (UniformValue.vec3 torchLightPosition),
          some (UniformValue.vec3 (env.camera.Position w.gCamera)))] := by
  simp [drawPyramid, updateCamera, glUniform, glUseProgram, glBindTexture, glBindVertexArray,
    glDrawArrays, DrawCall.lighting]


/-- The function drawRectPrism leaves the program's variables alone. -/
theorem drawRectPrism_toGlobals (a b c d e f g : α) :
    (drawRectPrism env a b c d e f g w).toGlobals = w.toGlobals := by
  simp only [drawRectPrism, updateCamera, glUniform, glUseProgram, glBindTexture, glBindVertexArray,
    glDrawArrays]

/-- The vertex array bound when drawRectPrism returns. -/
theorem drawRectPrism_vertexArray (a b c d e f g : α) :
    (drawRectPrism env a b c d e f g w).vertexArray = w.rectPrismMesh.vao := by
  simp only [drawRectPrism, updateCamera, glUniform, glUseProgram, glBindTexture, glBindVertexArray,
    glDrawArrays]

/-- The draw drawRectPrism adds: program, vertex array, texture and count. -/
theorem drawRectPrism_binding (a b c d e f g : α) :
    (drawRectPrism env a b c d e f g w).draws.map DrawCall.binding =
      w.draws.map DrawCall.binding ++ [(w.gProgramId, w.rectPrismMesh.vao, w.texTorchHandleId, w.rectPrismMesh.nVertices)] := by
  simp [drawRectPrism, updateCamera, glUniform, glUseProgram, glBindTexture, glBindVertexArray,
    glDrawArrays, DrawCall.binding]

/-- The light and camera uniforms the draw of drawRectPrism sees: the torch's colour and position and
the camera's position. -/
theorem drawRectPrism_lighting (a b c d e f g : α) :
    (drawRectPrism env a b c d e f g w).draws.map DrawCall.lighting =
      w.draws.map DrawCall.lighting ++
        [(some (UniformValue.vec3 torchLightColor), some (UniformValue.vec3 torchLightPosition),
          some (UniformValue.vec3 (env.camera.Position w.gCamera)))] := by
  simp [drawRectPrism, updateCamera, glUniform, glUseProgram, glBindTexture, glBindVertexArray,
    glDrawArrays, DrawCall.lighting]


/-- The function drawCylinder leaves the program's variables alone. -/
theorem drawCylinder_toGlobals (a b c d e f g : α) :
    (drawCylinder env a b c d e f g w).toGlobals = w.toGlobals := by
  simp only [drawCylinder, updateCamera, glUniform, glUseProgram, glBindTexture, glBindVertexArray,
    glDrawArrays]

/-- The vertex array bound when drawCylinder returns. -/
theorem drawCylinder_vertexArray (a b c d e f g : α) :
    (drawCylinder env a b c d e f g w).vertexArray = w.cylinderMesh.vao := by
  simp only [drawCylinder, updateCamera, glUniform, glUseProgram, glBindTexture, glBindVertexArray,
    glDrawArrays]

/-- The draw drawCylinder adds: program, vertex array, texture and count. -/
theorem drawCylinder_binding (a b c d e f g : α) :
    (drawCylinder env a b c d e f g w).draws.map DrawCall.binding =
      w.draws.map DrawCall.binding ++ [(w.gProgramId, w.cylinderMesh.vao, w.texPlasticId, w.cylinderMesh.nVertices)] := by
  simp [drawCylinder, updateCamera, glUniform, glUseProgram, glBindTexture, glBindVertexArray,
    glDrawArrays, DrawCall.binding]

/-- The light and camera uniforms the draw of drawCylinder sees: the torch's colour and position and
the camera's position. -/
theorem drawCylinder_lighting (a b c d e f g : α) :
    (drawCylinder env a b c d e f g w).draws.map DrawCall.lighting =
      w.draws.map DrawCall.lighting ++
        [(some (UniformValue.vec3 torchLightColor), some (UniformValue.vec3 torchLightPosition),
          some (UniformValue.vec3 (env.camera.Position w.gCamera)))] := by
  simp [drawCylinder, updateCamera, glUniform, glUseProgram, glBindTexture, glBindVertexArray,
    glDrawArrays, DrawCall.lighting]


/-- The function drawCube leaves the program's variables alone. -/
theorem drawCube_toGlobals (a b c d e f g : α) :
    (drawCube env a b c d e f g w).toGlobals = w.toGlobals := by
  simp only [drawCube, updateCamera, glUniform, glUseProgram, glBindTexture, glBindVertexArray,
    glDrawArrays]

/-- The vertex array bound when drawCube returns. -/
theorem drawCube_vertexArray (a b c d e f g : α) :
    (drawCube env a b c d e f g w).vertexArray = w.cubeMesh.vao := by
  simp only [drawCube, updateCamera, glUniform, glUseProgram, glBindTexture, glBindVertexArray,
    glDrawArrays]

/-- The two draws drawCube adds, the lit cube and the light marker: program, vertex array,
texture and count. -/
theorem drawCube_binding (a b c d e f g : α) :
    (drawCube env a b c d e f g w).draws.map DrawCall.binding =
      w.draws.map DrawCall.binding ++
        [(w.gProgramId, w.cubeMesh.vao, w.texTorchLightId, w.cubeMesh.nVertices),
         (w.gLightProgramId, w.cubeMesh.vao, w.texTorchLightId, w.cubeMesh.nVertices)] := by
  simp [drawCube, updateCamera, glUniform, glUseProgram, glBindTexture, glBindVertexArray,
    glDrawArrays, DrawCall.binding]

/-- The light and camera uniforms the two draws of drawCube see: the lit draw sees the torch's
colour and position and the camera's position, the marker draw what the light program holds. -/
theorem drawCube_lighting (a b c d e f g : α) :
    (drawCube env a b c d e f g w).draws.map DrawCall.lighting =
      w.draws.map DrawCall.lighting ++
        [(some (UniformValue.vec3 torchLightColor), some (UniformValue.vec3 torchLightPosition),
          some (UniformValue.vec3 (env.camera.Position w.gCamera))),
         currentLighting (drawCube env a b c d e f g w)] := by
  simp [drawCube, updateCamera, glUniform, glUseProgram, glBindTexture, glBindVertexArray,
    glDrawArrays, DrawCall.lighting, currentLighting]

/-- The draws of one drawScene call, in order: program, vertex array, texture and count. -/
theorem drawScene_binding :
    (drawScene env w).draws.map DrawCall.binding =
      [(w.gProgramId, w.vertexArray, w.texBirchId, w.planeMesh.nVertices),
       (w.gProgramId, w.pyramidMesh.vao, w.texShinyBlueId, w.pyramidMesh.nVertices),
       (w.gProgramId, w.rectPrismMesh.vao, w.texTorchHandleId, w.rectPrismMesh.nVertices),
       (w.gProgramId, w.cubeMesh.vao, w.texTorchLightId, w.cubeMesh.nVertices),
       (w.gLightProgramId, w.cubeMesh.vao, w.texTorchLightId, w.cubeMesh.nVertices),
       (w.gProgramId, w.cylinderMesh.vao, w.texPlasticId, w.cylinderMesh.nVertices),
       (w.gProgramId, w.cylinderMesh.vao, w.texPlasticId, w.cylinderMesh.nVertices),
       (w.gProgramId, w.cylinderMesh.vao, w.texPlasticId, w.cylinderMesh.nVertices)] := by
  simp only [drawScene, glUseProgram, glBindVertexArray, drawPlane_toGlobals,
    drawPyramid_toGlobals, drawRectPrism_toGlobals, drawCube_toGlobals, drawCylinder_toGlobals,
    glClear_toGlobals, glClear_vertexArray, glClear_draws, drawPlane_binding,
    drawPyramid_binding, drawRectPrism_binding, drawCube_binding, drawCylinder_binding,
    List.map_nil, List.nil_append, List.append_assoc, List.cons_append]

/-- The function drawScene leaves the program's variables alone. -/
theorem drawScene_toGlobals : (drawScene env w).toGlobals = w.toGlobals := by
  simp only [drawScene, glUseProgram, glBindVertexArray, drawPlane_toGlobals,
    drawPyramid_toGlobals, drawRectPrism_toGlobals, drawCube_toGlobals, drawCylinder_toGlobals,
    glClear_toGlobals]

/-- When drawScene returns no vertex array is bound. -/
theorem drawScene_vertexArray : (drawScene env w).vertexArray = 0 := by
  simp only [drawScene, glUseProgram, glBindVertexArray]

end DrawLemmas

/-! ### What the input functions and callbacks leave alone -/

section StateLemmas

variable {α κ : Type} (env : Env α κ) (w : World α κ)

/-- A key test of UProcessInput leaves the resources alone. -/
theorem keyMove_toResources (b : Bool) (d : Camera_Movement) :
    (keyMove env b d w).toResources = w.toResources := by
  unfold keyMove
  cases b <;> rfl

/-- A key test of UProcessInput leaves the GL context alone. -/
theorem keyMove_toGLContext (b : Bool) (d : Camera_Movement) :
    (keyMove env b d w).toGLContext = w.toGLContext := by
  unfold keyMove
  cases b <;> rfl

/-- Binding a texture leaves the program's variables alone. -/
theorem glBindTexture_toGlobals (t : Nat) : (glBindTexture t w).toGlobals = w.toGlobals := rfl

/-- Binding a texture leaves the vertex-array binding alone. -/
theorem glBindTexture_vertexArray (t : Nat) :
    (glBindTexture t w).vertexArray = w.vertexArray := rfl

/-- Setting a texture parameter leaves the program's variables alone. -/
theorem glTexParameteri_toGlobals (p : TexPname) (v : TexParam) :
    (glTexParameteri p v w).toGlobals = w.toGlobals := rfl

/-- Setting a texture parameter leaves the vertex-array binding alone. -/
theorem glTexParameteri_vertexArray (p : TexPname) (v : TexParam) :
    (glTexParameteri p v w).vertexArray = w.vertexArray := rfl

/-- Requesting the window to close leaves the resources alone. -/
theorem close_toResources (b : Bool) :
    (if b = true then { w with windowShouldClose := true } else w).toResources =
      w.toResources := by
  cases b <;> rfl

/-- Requesting the window to close leaves the GL context alone. -/
theorem close_toGLContext (b : Bool) :
    (if b = true then { w with windowShouldClose := true } else w).toGLContext =
      w.toGLContext := by
  cases b <;> rfl

/-- The function processView leaves the resources alone. -/
theorem processView_toResources (keys : Key → Bool) :
    (processView keys w).toResources = w.toResources := by
  unfold processView
  cases keys Key.P <;> cases keys Key.O <;> rfl

/-- The function processView leaves the GL context alone. -/
theorem processView_toGLContext (keys : Key → Bool) :
    (processView keys w).toGLContext = w.toGLContext := by
  unfold processView
  cases keys Key.P <;> cases keys Key.O <;> rfl

/-- The function UProcessInput leaves the resources alone. -/
theorem UProcessInput_toResources (keys : Key → Bool) :
    (UProcessInput env keys w).toResources = w.toResources := by
  simp only [UProcessInput, glBindTexture_toGlobals, glTexParameteri_toGlobals,
    keyMove_toResources, close_toResources]

/-- The function UProcessInput leaves the vertex-array binding alone. -/
theorem UProcessInput_vertexArray (keys : Key → Bool) :
    (UProcessInput env keys w).vertexArray = w.vertexArray := by
  simp only [UProcessInput, glBindTexture_vertexArray, glTexParameteri_vertexArray,
    keyMove_toGLContext, close_toGLContext]

end StateLemmas

section InputLemmas

variable {α κ : Type} [Field α] (env : Env α κ) (w : World α κ)

/-- An event leaves the resources alone. -/
theorem dispatch_toResources (e : Event α) :
    (dispatch env e w).toResources = w.toResources := by
  cases e with
  | cursorPos xpos ypos =>
    simp only [dispatch, UMousePositionCallback]
    cases w.gFirstMouse <;> rfl
  | scroll xoffset yoffset => rfl
  | mouseButton button action mods =>
    simp only [dispatch, UMouseButtonCallback]
    split_ifs <;> rfl
  | framebufferSize width height => rfl
  | windowClose => rfl

/-- An event leaves the GL context alone. -/
theorem dispatch_toGLContext (e : Event α) :
    (dispatch env e w).toGLContext = w.toGLContext := by
  cases e with
  | cursorPos xpos ypos =>
    simp only [dispatch, UMousePositionCallback]
    cases w.gFirstMouse <;> rfl
  | scroll xoffset yoffset => rfl
  | mouseButton button action mods =>
    simp only [dispatch, UMouseButtonCallback]
    split_ifs <;> rfl
  | framebufferSize width height => rfl
  | windowClose => rfl

/-- The call glfwPollEvents leaves the resources alone. -/
theorem glfwPollEvents_toResources (events : List (Event α)) :
    (glfwPollEvents env events w).toResources = w.toResources := by
  unfold glfwPollEvents
  induction events generalizing w with
  | nil => rfl
  | cons e es ih => rw [List.foldl_cons, ih, dispatch_toResources]

/-- The call glfwPollEvents leaves the GL context alone. -/
theorem glfwPollEvents_toGLContext (events : List (Event α)) :
    (glfwPollEvents env events w).toGLContext = w.toGLContext := by
  unfold glfwPollEvents
  induction events generalizing w with
  | nil => rfl
  | cons e es ih => rw [List.foldl_cons, ih, dispatch_toGLContext]

/-- The draws of one iteration of the render loop, in terms of the state it starts in. -/
theorem renderFrame_binding (input : FrameInput α) :
    (renderFrame env input w).draws.map DrawCall.binding =
      [(w.gProgramId, w.vertexArray, w.texBirchId, w.planeMesh.nVertices),
       (w.gProgramId, w.pyramidMesh.vao, w.texShinyBlueId, w.pyramidMesh.nVertices),
       (w.gProgramId, w.rectPrismMesh.vao, w.texTorchHandleId, w.rectPrismMesh.nVertices),
       (w.gProgramId, w.cubeMesh.vao, w.texTorchLightId, w.cubeMesh.nVertices),
       (w.gLightProgramId, w.cubeMesh.vao, w.texTorchLightId, w.cubeMesh.nVertices),
       (w.gProgramId, w.cylinderMesh.vao, w.texPlasticId, w.cylinderMesh.nVertices),
       (w.gProgramId, w.cylinderMesh.vao, w.texPlasticId, w.cylinderMesh.nVertices),
       (w.gProgramId, w.cylinderMesh.vao, w.texPlasticId, w.cylinderMesh.nVertices)] := by
  simp only [renderFrame, glfwPollEvents_toGLContext, drawScene_binding,
    processView_toResources, processView_toGLContext, UProcessInput_toResources,
    UProcessInput_vertexArray]

/-- After an iteration of the render loop no vertex array is bound. -/
theorem renderFrame_vertexArray (input : FrameInput α) :
    (renderFrame env input w).vertexArray = 0 := by
  simp only [renderFrame, glfwPollEvents_toGLContext, drawScene_vertexArray]

/-- An iteration of the render loop leaves the resources alone. -/
theorem renderFrame_toResources (input : FrameInput α) :
    (renderFrame env input w).toResources = w.toResources := by
  simp only [renderFrame, glfwPollEvents_toResources, drawScene_toGlobals,
    processView_toResources, UProcessInput_toResources]

end InputLemmas

/-! ### The draws of a frame -/

/-- The light and camera uniforms seen by the eight draws of drawScene: the seven lit draws see
the torch's colour and position and the camera's position; the fifth draw is the light marker,
drawn with the light program. -/
theorem drawScene_lighting {α κ : Type} [Field α] (env : Env α κ) (w : World α κ) :
    ∃ marker, (drawScene env w).draws.map DrawCall.lighting =
      [(some (UniformValue.vec3 torchLightColor), some (UniformValue.vec3 torchLightPosition),
          some (UniformValue.vec3 (env.camera.Position w.gCamera))),
       (some (UniformValue.vec3 torchLightColor), some (UniformValue.vec3 torchLightPosition),
          some (UniformValue.vec3 (env.camera.Position w.gCamera))),
       (some (UniformValue.vec3 torchLightColor), some (UniformValue.vec3 torchLightPosition),
          some (UniformValue.vec3 (env.camera.Position w.gCamera))),
       (some (UniformValue.vec3 torchLightColor), some (UniformValue.vec3 torchLightPosition),
          some (UniformValue.vec3 (env.camera.Position w.gCamera))),
       marker,
       (some (UniformValue.vec3 torchLightColor), some (UniformValue.vec3 torchLightPosition),
          some (UniformValue.vec3 (env.camera.Position w.gCamera))),
       (some (UniformValue.vec3 torchLightColor), some (UniformValue.vec3 torchLightPosition),
          some (UniformValue.vec3 (env.camera.Position w.gCamera))),
       (some (UniformValue.vec3 torchLightColor), some (UniformValue.vec3 torchLightPosition),
          some (UniformValue.vec3 (env.camera.Position w.gCamera)))] := by
  refine ⟨currentLighting (drawCube env 0.8 0.8 0.8 1.4 3.2 (-0.15) 5.0
    (drawRectPrism env 0.8 3.2 0.8 1.4 0.0 (-0.15) 5.0
      (drawPyramid env 1.0 1.0 1.0 0.0 0.0 0.0 0.0
        (drawPlane env 12.5 1.0 10.0 0.0 0.0 0.0 0.0 (glClear w))))), ?_⟩
  simp only [drawScene, glUseProgram, glBindVertexArray, drawPlane_toGlobals,
    drawPyramid_toGlobals, drawRectPrism_toGlobals, drawCube_toGlobals, drawCylinder_toGlobals,
    glClear_toGlobals, glClear_draws, drawPlane_lighting, drawPyramid_lighting,
    drawRectPrism_lighting, drawCube_lighting, drawCylinder_lighting, List.map_nil,
    List.nil_append, List.append_assoc, List.cons_append]

/-- The vertex arrays and counts main's five mesh-builder calls leave behind: the names are
handed out in order, the cylinder's vertex array stays bound. -/
theorem createMeshes_vertexArray {α κ : Type} [Field α] (w : World α κ) :
    (createMeshes w).vertexArray = (createMeshes w).cylinderMesh.vao ∧
    (createMeshes w).planeMesh = ⟨w.names + 1, w.names + 2, 6⟩ ∧
    (createMeshes w).pyramidMesh = ⟨w.names + 3, w.names + 4, 18⟩ ∧
    (createMeshes w).cubeMesh = ⟨w.names + 5, w.names + 6, 36⟩ ∧
    (createMeshes w).rectPrismMesh = ⟨w.names + 7, w.names + 8, 36⟩ ∧
    (createMeshes w).cylinderMesh = ⟨w.names + 9, w.names + 10, 96⟩ := by
  have c1 : vertexCount planeVerts = 6 := by decide!
  have c2 : vertexCount pyramidVerts = 18 := by decide!
  have c3 : vertexCount cubeVerts = 36 := by decide!
  have c4 : vertexCount rectPrismVerts = 36 := by decide!
  have c5 : vertexCount cylinderVerts = 96 := by decide!
  simp [createMeshes, genMesh, glGen, glGenVertexArrays, glGenBuffers, glBindVertexArray,
    glBindBuffer, createPlaneMesh, createPyramidMesh, createCubeMesh, createRectPrismMesh,
    createCylinderMesh, c1, c2, c3, c4, c5]

/-- Over the reals the torch's colour and position differ from the sun's. -/
theorem torch_ne_sun :
    (torchLightColor : Vec3 ℝ) ≠ sunColor ∧ (torchLightPosition : Vec3 ℝ) ≠ sunPosition := by
  constructor
  · intro h
    have hy := congrArg Vec3.y h
    norm_num [torchLightColor, sunColor] at hy
  · intro h
    have hy := congrArg Vec3.y h
    norm_num [torchLightPosition, sunPosition] at hy

/-- C15 (the code at the claim): the eight draws of an iteration of the render loop use the
counts of the designated meshes, and seven of them the designated vertex arrays, but the desk's
draw uses whatever vertex array was bound when the iteration started, because drawPlane binds
none. After main's mesh-builder calls that is the cylinder's vertex array, which is not the
plane's; after any iteration it is 0, so from the second iteration on the desk is drawn with
vertex array 0, which is not the plane's either. -/
theorem desk_draw_uses_stale_vertex_array {α κ : Type} [Field α] (env : Env α κ)
    (w : World α κ) (input input2 : FrameInput α) :
    (renderFrame env input w).draws.map DrawCall.binding =
      [(w.gProgramId, w.vertexArray, w.texBirchId, w.planeMesh.nVertices),
       (w.gProgramId, w.pyramidMesh.vao, w.texShinyBlueId, w.pyramidMesh.nVertices),
       (w.gProgramId, w.rectPrismMesh.vao, w.texTorchHandleId, w.rectPrismMesh.nVertices),
       (w.gProgramId, w.cubeMesh.vao, w.texTorchLightId, w.cubeMesh.nVertices),
       (w.gLightProgramId, w.cubeMesh.vao, w.texTorchLightId, w.cubeMesh.nVertices),
       (w.gProgramId, w.cylinderMesh.vao, w.texPlasticId, w.cylinderMesh.nVertices),
       (w.gProgramId, w.cylinderMesh.vao, w.texPlasticId, w.cylinderMesh.nVertices),
       (w.gProgramId, w.cylinderMesh.vao, w.texPlasticId, w.cylinderMesh.nVertices)] ∧
    (renderFrame env input w).vertexArray = 0 ∧
    ((renderFrame env input2 (renderFrame env input w)).draws.map DrawCall.binding).head? =
      some (w.gProgramId, 0, w.texBirchId, w.planeMesh.nVertices) ∧
    (createMeshes w).vertexArray = (createMeshes w).cylinderMesh.vao ∧
    (createMeshes w).planeMesh.vao ≠ (createMeshes w).cylinderMesh.vao ∧
    (createMeshes w).planeMesh.vao ≠ 0 ∧
    ((renderFrame env input (createMeshes w)).draws.map DrawCall.binding).head? =
      some ((createMeshes w).gProgramId, (createMeshes w).cylinderMesh.vao,
        (createMeshes w).texBirchId, 6) := by
  have hm := createMeshes_vertexArray w
  refine ⟨renderFrame_binding env w input, renderFrame_vertexArray env w input, ?_, hm.1, ?_, ?_,
    ?_⟩
  · rw [renderFrame_binding, renderFrame_vertexArray]
    simp only [List.head?_cons, renderFrame_toResources]
  · rw [hm.2.1, hm.2.2.2.2.2]
    simp
  · rw [hm.2.1]
    simp
  · rw [renderFrame_binding, hm.1, hm.2.1]
    simp

/-- C16 (the code at the claim): over the reals, at each of the seven lit draws of drawScene
the lightColor and lightPos uniforms hold the torch's colour (1, 0.7, 0.3) and position
(1.4, 3.3, -0.15), which are not the sun's (1, 1, 1) and (0, 8, 0); viewPosition holds the
camera's position. The fifth of the eight draws is the light marker. -/
theorem lit_draws_see_torch_not_sun {κ : Type} (env : Env ℝ κ) (w : World ℝ κ) :
    (∃ marker, (drawScene env w).draws.map DrawCall.lighting =
      [(some (UniformValue.vec3 ⟨1.0, 0.7, 0.3⟩), some (UniformValue.vec3 ⟨1.4, 3.3, -0.15⟩),
          some (UniformValue.vec3 (env.camera.Position w.gCamera))),
       (some (UniformValue.vec3 ⟨1.0, 0.7, 0.3⟩), some (UniformValue.vec3 ⟨1.4, 3.3, -0.15⟩),
          some (UniformValue.vec3 (env.camera.Position w.gCamera))),
       (some (UniformValue.vec3 ⟨1.0, 0.7, 0.3⟩), some (UniformValue.vec3 ⟨1.4, 3.3, -0.15⟩),
          some (UniformValue.vec3 (env.camera.Position w.gCamera))),
       (some (UniformValue.vec3 ⟨1.0, 0.7, 0.3⟩), some (UniformValue.vec3 ⟨1.4, 3.3, -0.15⟩),
          some (UniformValue.vec3 (env.camera.Position w.gCamera))),
       marker,
       (some (UniformValue.vec3 ⟨1.0, 0.7, 0.3⟩), some (UniformValue.vec3 ⟨1.4, 3.3, -0.15⟩),
          some (UniformValue.vec3 (env.camera.Position w.gCamera))),
       (some (UniformValue.vec3 ⟨1.0, 0.7, 0.3⟩), some (UniformValue.vec3 ⟨1.4, 3.3, -0.15⟩),
          some (UniformValue.vec3 (env.camera.Position w.gCamera))),
       (some (UniformValue.vec3 ⟨1.0, 0.7, 0.3⟩), some (UniformValue.vec3 ⟨1.4, 3.3, -0.15⟩),
          some (UniformValue.vec3 (env.camera.Position w.gCamera)))]) ∧
    (drawScene env w).draws.map DrawCall.program =
      [w.gProgramId, w.gProgramId, w.gProgramId, w.gProgramId, w.gLightProgramId, w.gProgramId,
       w.gProgramId, w.gProgramId] ∧
    (sunColor : Vec3 ℝ) = ⟨1, 1, 1⟩ ∧ (sunPosition : Vec3 ℝ) = ⟨0, 8, 0⟩ ∧
    (⟨1.0, 0.7, 0.3⟩ : Vec3 ℝ) ≠ sunColor ∧ (⟨1.4, 3.3, -0.15⟩ : Vec3 ℝ) ≠ sunPosition := by
  refine ⟨drawScene_lighting env w, ?_, ?_, ?_, torch_ne_sun.1, torch_ne_sun.2⟩
  · have h := congrArg (List.map (fun b : Nat × Nat × Nat × Nat => b.1))
      (drawScene_binding env w)
    simpa [DrawCall.binding, List.map_map, Function.comp_def] using h
  · norm_num [sunColor]
  · norm_num [sunPosition]

/-- The uniform values of the object program after updateCamera, slot by slot: the matrices,
the object colour, the torch's colour and position, and the camera position; the slots
updateCamera does not write keep their values. -/
theorem updateCamera_uniforms {α κ : Type} [Field α] (env : Env α κ) (model : Mat4 α)
    (w : World α κ) (slot : Uniform) :
    (updateCamera env model w).uniforms w.gProgramId slot =
      match slot with
      | Uniform.model => some (UniformValue.mat4 model)
      | Uniform.view => some (UniformValue.mat4 (env.camera.GetViewMatrix w.gCamera))
      | Uniform.projection => some (UniformValue.mat4 (updateCameraProjection env w))
      | Uniform.objectColor => some (UniformValue.vec3 gObjectColor)
      | Uniform.lightColor => some (UniformValue.vec3 torchLightColor)
      | Uniform.lightPos => some (UniformValue.vec3 torchLightPosition)
      | Uniform.viewPosition => some (UniformValue.vec3 (env.camera.Position w.gCamera))
      | Uniform.torchColor => w.uniforms w.gProgramId Uniform.torchColor
      | Uniform.uTexture => w.uniforms w.gProgramId Uniform.uTexture
      | Uniform.uvScale => w.uniforms w.gProgramId Uniform.uvScale := by
  cases slot <;> simp [updateCamera, glUniform, glUseProgram]

section WriteLemmas

variable {α κ : Type} [Field α] (env : Env α κ) (model : Mat4 α) (w : World α κ)

/-- The glUniform* calls updateCamera adds to the record of calls: its ten calls, in order. -/
theorem updateCamera_uniformWrites :
    (updateCamera env model w).uniformWrites =
      w.uniformWrites ++ updateCameraWrites env model w := by
  simp [updateCamera, updateCameraWrites, glUniform, glUseProgram]

/-- The last call of updateCamera to each slot: none for the programs other than the object
program and for the slots it does not write; for the others the position and value listed. -/
theorem updateCamera_lastWrite (p : Nat) (slot : Uniform) :
    lastWrite (updateCameraWrites env model w) p slot =
      if p = w.gProgramId then
        match slot with
        | Uniform.model => some (0, UniformValue.mat4 model)
        | Uniform.view => some (1, UniformValue.mat4 (env.camera.GetViewMatrix w.gCamera))
        | Uniform.projection => some (2, UniformValue.mat4 (updateCameraProjection env w))
        | Uniform.objectColor => some (7, UniformValue.vec3 gObjectColor)
        | Uniform.lightColor => some (8, UniformValue.vec3 torchLightColor)
        | Uniform.lightPos => some (9, UniformValue.vec3 torchLightPosition)
        | Uniform.viewPosition =>
          some (6, UniformValue.vec3 (env.camera.Position w.gCamera))
        | Uniform.torchColor => none
        | Uniform.uTexture => none
        | Uniform.uvScale => none
      else none := by
  by_cases hp : p = w.gProgramId
  · subst hp
    rw [if_pos rfl]
    cases slot <;>
      simp [lastWrite, updateCameraWrites, List.enum, List.enumFrom, List.filter]
  · rw [if_neg hp]
    have hp2 : ¬ w.gProgramId = p := fun h => hp h.symm
    simp [lastWrite, updateCameraWrites, List.enum, List.enumFrom, List.filter, hp2]

/-- The uniform values of every program after updateCamera: the value of updateCamera's last
call to the slot, when it has one, and the value before otherwise. -/
theorem updateCamera_uniforms_lastWrite (p : Nat) (slot : Uniform) :
    (updateCamera env model w).uniforms p slot =
      (lastWrite (updateCameraWrites env model w) p slot).elim (w.uniforms p slot)
        (fun e => some e.2) := by
  rw [updateCamera_lastWrite]
  by_cases hp : p = w.gProgramId
  · subst hp
    rw [if_pos rfl]
    cases slot <;> simp [updateCamera, glUniform, glUseProgram]
  · rw [if_neg hp]
    cases slot <;> simp [updateCamera, glUniform, glUseProgram, hp]

end WriteLemmas

/-- C17: over the reals, updateCamera makes ten glUniform* calls on the object program, in the
order listed by updateCameraWrites: the calls at positions 4 and 5 write the sun's colour and
position to lightColor and lightPos, the later calls at positions 8 and 9 write the torch's
colour and position to the same two slots. Every uniform of every program afterwards holds the
value of updateCamera's last call to it, or its earlier value when updateCamera does not write
it, and the last call to a slot is never one of the two sun calls: it is the call at position 8
for lightColor and at position 9 for lightPos. So after updateCamera returns lightColor holds
the torch's colour (1, 0.7, 0.3) and lightPos the torch's position (1.4, 3.3, -0.15), neither
slot holds the sun's value any more, no slot holds a value written by a sun call, and every lit
draw of drawScene sees the torch's values. (The slot objectColor holds gObjectColor, written
from the object colour; its value (1, 1, 1) is also that of the sun's colour.) -/
theorem updateCamera_torch_overrides_sun {κ : Type} (env : Env ℝ κ) (model : Mat4 ℝ)
    (w : World ℝ κ) :
    (updateCamera env model w).uniformWrites =
      w.uniformWrites ++ updateCameraWrites env model w ∧
    (updateCameraWrites env model w)[4]? =
      some (w.gProgramId, Uniform.lightColor, UniformValue.vec3 sunColor) ∧
    (updateCameraWrites env model w)[5]? =
      some (w.gProgramId, Uniform.lightPos, UniformValue.vec3 sunPosition) ∧
    (updateCameraWrites env model w)[8]? =
      some (w.gProgramId, Uniform.lightColor, UniformValue.vec3 torchLightColor) ∧
    (updateCameraWrites env model w)[9]? =
      some (w.gProgramId, Uniform.lightPos, UniformValue.vec3 torchLightPosition) ∧
    (updateCameraWrites env model w).length = 10 ∧
    (∀ (p : Nat) (slot : Uniform),
      (updateCamera env model w).uniforms p slot =
        (lastWrite (updateCameraWrites env model w) p slot).elim (w.uniforms p slot)
          (fun e => some e.2)) ∧
    (∀ (p : Nat) (slot : Uniform) (i : Nat) (v : UniformValue ℝ),
      lastWrite (updateCameraWrites env model w) p slot = some (i, v) → i ≠ 4 ∧ i ≠ 5) ∧
    lastWrite (updateCameraWrites env model w) w.gProgramId Uniform.lightColor =
      some (8, UniformValue.vec3 torchLightColor) ∧
    lastWrite (updateCameraWrites env model w) w.gProgramId Uniform.lightPos =
      some (9, UniformValue.vec3 torchLightPosition) ∧
    (updateCamera env model w).uniforms w.gProgramId Uniform.lightColor =
      some (UniformValue.vec3 ⟨1.0, 0.7, 0.3⟩) ∧
    (updateCamera env model w).uniforms w.gProgramId Uniform.lightPos =
      some (UniformValue.vec3 ⟨1.4, 3.3, -0.15⟩) ∧
    (⟨1.0, 0.7, 0.3⟩ : Vec3 ℝ) ≠ sunColor ∧ (⟨1.4, 3.3, -0.15⟩ : Vec3 ℝ) ≠ sunPosition ∧
    (updateCamera env model w).uniforms w.gProgramId Uniform.lightColor ≠
      some (UniformValue.vec3 sunColor) ∧
    (updateCamera env model w).uniforms w.gProgramId Uniform.lightPos ≠
      some (UniformValue.vec3 sunPosition) ∧
    (∀ slot : Uniform, (updateCamera env model w).uniforms w.gProgramId slot =
      match slot with
      | Uniform.model => some (UniformValue.mat4 model)
      | Uniform.view => some (UniformValue.mat4 (env.camera.GetViewMatrix w.gCamera))
      | Uniform.projection => some (UniformValue.mat4 (updateCameraProjection env w))
      | Uniform.objectColor => some (UniformValue.vec3 gObjectColor)
      | Uniform.lightColor => some (UniformValue.vec3 torchLightColor)
      | Uniform.lightPos => some (UniformValue.vec3 torchLightPosition)
      | Uniform.viewPosition => some (UniformValue.vec3 (env.camera.Position w.gCamera))
      | Uniform.torchColor => w.uniforms w.gProgramId Uniform.torchColor
      | Uniform.uTexture => w.uniforms w.gProgramId Uniform.uTexture
      | Uniform.uvScale => w.uniforms w.gProgramId Uniform.uvScale) ∧
    (∃ marker, (drawScene env w).draws.map DrawCall.lighting =
      [(some (UniformValue.vec3 torchLightColor), some (UniformValue.vec3 torchLightPosition),
          some (UniformValue.vec3 (env.camera.Position w.gCamera))),
       (some (UniformValue.vec3 torchLightColor), some (UniformValue.vec3 torchLightPosition),
          some (UniformValue.vec3 (env.camera.Position w.gCamera))),
       (some (UniformValue.vec3 torchLightColor), some (UniformValue.vec3 torchLightPosition),
          some (UniformValue.vec3 (env.camera.Position w.gCamera))),
       (some (UniformValue.vec3 torchLightColor), some (UniformValue.vec3 torchLightPosition),
          some (UniformValue.vec3 (env.camera.Position w.gCamera))),
       marker,
       (some (UniformValue.vec3 torchLightColor), some (UniformValue.vec3 torchLightPosition),
          some (UniformValue.vec3 (env.camera.Position w.gCamera))),
       (some (UniformValue.vec3 torchLightColor), some (UniformValue.vec3 torchLightPosition),
          some (UniformValue.vec3 (env.camera.Position w.gCamera))),
       (some (UniformValue.vec3 torchLightColor), some (UniformValue.vec3 torchLightPosition),
          some (UniformValue.vec3 (env.camera.Position w.gCamera)))]) := by
  have hc := updateCamera_uniforms env model w Uniform.lightColor
  have hp := updateCamera_uniforms env model w Uniform.lightPos
  refine ⟨updateCamera_uniformWrites env model w, rfl, rfl, rfl, rfl, rfl,
    updateCamera_uniforms_lastWrite env model w, ?_, ?_, ?_, hc, hp, torch_ne_sun.1,
    torch_ne_sun.2, ?_, ?_, updateCamera_uniforms env model w, drawScene_lighting env w⟩
  · intro p slot i v h
    rw [updateCamera_lastWrite] at h
    split_ifs at h
    cases slot <;> simp at h <;> omega
  · rw [updateCamera_lastWrite, if_pos rfl]
  · rw [updateCamera_lastWrite, if_pos rfl]
  · rw [hc]
    intro h
    simp only [Option.some.injEq, UniformValue.vec3.injEq] at h
    exact torch_ne_sun.1 h
  · rw [hp]
    intro h
    simp only [Option.some.injEq, UniformValue.vec3.injEq] at h
    exact torch_ne_sun.2 h

/-! ### flipImageVertically -/

/-- An int computation with a non-negative exact value within range has that value. -/
theorem checkInt_of_le {x : Int} (h0 : 0 ≤ x) (h1 : x ≤ 2147483647) : checkInt x = some x := by
  unfold checkInt INT_MIN INT_MAX
  rw [if_pos]
  constructor <;> omega

/-- A read inside the buffer. -/
theorem readByte_of_lt (image : List UChar) (p : Nat) (h : p < image.length) :
    readByte image (p : Int) = some image[p] := by
  unfold readByte
  rw [if_pos (by constructor <;> omega), Int.toNat_ofNat, List.getElem?_eq_getElem h]

/-- A write inside the buffer. -/
theorem writeByte_of_lt (image : List UChar) (p : Nat) (v : UChar) (h : p < image.length) :
    writeByte image (p : Int) v = some (image.set p v) := by
  unfold writeByte
  rw [if_pos (by constructor <;> omega), Int.toNat_ofNat]

/-- The inner loop on two disjoint stretches of the buffer, the first before the second: it
returns the buffer with the two stretches exchanged, and nothing else changed. -/
theorem swapLoop_spec (n : Nat) : ∀ (image : List UChar) (a b : Nat), a + n ≤ b →
    b + n ≤ image.length → (image.length : Int) ≤ 2147483647 →
    ∃ out, swapLoop n image (a : Int) (b : Int) = some out ∧ out.length = image.length ∧
      ∀ p, out[p]? =
        if a ≤ p ∧ p < a + n then image[p - a + b]?
        else if b ≤ p ∧ p < b + n then image[p - b + a]? else image[p]? := by
  induction n with
  | zero =>
    intro image a b _ _ _
    refine ⟨image, rfl, rfl, ?_⟩
    intro p
    rw [if_neg (by omega), if_neg (by omega)]
  | succ n ih =>
    intro image a b hab hb hmax
    have ha' : a < image.length := by omega
    have hb' : b < image.length := by omega
    have hb2 : b < (image.set a image[b]).length := by rw [List.length_set]; exact hb'
    obtain ⟨out, h1, h2, h3⟩ := ih ((image.set a image[b]).set b image[a]) (a + 1) (b + 1)
      (by omega) (by rw [List.length_set, List.length_set]; omega)
      (by rw [List.length_set, List.length_set]; exact hmax)
    refine ⟨out, ?_, ?_, ?_⟩
    · have ca : checkInt ((a : Int) + 1) = some ((a + 1 : Nat) : Int) := by
        rw [checkInt_of_le (by omega) (by omega)]
        rfl
      have cb : checkInt ((b : Int) + 1) = some ((b + 1 : Nat) : Int) := by
        rw [checkInt_of_le (by omega) (by omega)]
        rfl
      rw [swapLoop, readByte_of_lt image a ha', readByte_of_lt image b hb']
      simp only [Option.bind_eq_bind]
      rw [Option.some_bind, Option.some_bind, writeByte_of_lt image a _ ha', Option.some_bind,
        writeByte_of_lt _ b _ hb2, Option.some_bind, ca, Option.some_bind, cb, Option.some_bind]
      exact h1
    · rw [h2, List.length_set, List.length_set]
    · intro p
      rw [h3 p]
      simp only [List.getElem?_set, List.length_set]
      by_cases hp1 : a ≤ p ∧ p < a + (n + 1)
      · rw [if_pos hp1]
        by_cases hpa : p = a
        · subst hpa
          rw [if_neg (by omega), if_neg (by omega), if_neg (by omega), if_pos rfl, if_pos ha']
          simp [List.getElem?_eq_getElem hb']
        · rw [if_pos (by omega), if_neg (by omega), if_neg (by omega)]
          congr 1
          omega
      · rw [if_neg hp1]
        by_cases hp2 : b ≤ p ∧ p < b + (n + 1)
        · rw [if_pos hp2, if_neg (by omega)]
          by_cases hpb : p = b
          · subst hpb
            rw [if_neg (by omega), if_pos rfl, if_pos hb']
            simp [List.getElem?_eq_getElem ha']
          · rw [if_pos (by omega), if_neg (by omega), if_neg (by omega)]
            congr 1
            omega
        · rw [if_neg hp2, if_neg (by omega), if_neg (by omega), if_neg (by omega),
            if_neg (by omega)]

/-- An offset inside an earlier row lies before the start of a later row. -/
theorem row_offset_lt {r j R i : Nat} (h : r < j) (hi : i < R) : r * R + i < j * R := by
  have h1 : (r + 1) * R ≤ j * R := Nat.mul_le_mul_right R h
  have h2 : (r + 1) * R = r * R + R := by ring
  omega

/-- The body of the outer loop for a row j of the upper half: when the int computations fit,
it returns the buffer with row j and row height - 1 - j exchanged. -/
theorem flipRow_spec (image : List UChar) (w h c j : Nat) (hj : 2 * j + 2 ≤ h)
    (hlen : image.length = h * (w * c)) (hh : h ≤ 2147483647) (hwh : w * h ≤ 2147483647)
    (hwhc : w * h * c ≤ 2147483647) :
    ∃ out, flipRow image (w : Int) (h : Int) (c : Int) (j : Int) = some out ∧
      out.length = image.length ∧
      ∀ p, out[p]? =
        if j * (w * c) ≤ p ∧ p < j * (w * c) + w * c then
          image[p - j * (w * c) + (h - 1 - j) * (w * c)]?
        else if (h - 1 - j) * (w * c) ≤ p ∧ p < (h - 1 - j) * (w * c) + w * c then
          image[p - (h - 1 - j) * (w * c) + j * (w * c)]?
        else image[p]? := by
  have hjh : j ≤ h := by omega
  have hkh : h - 1 - j ≤ h := by omega
  have e1 : j * w ≤ w * h := by
    rw [Nat.mul_comm w h]
    exact Nat.mul_le_mul_right w hjh
  have e2 : j * w * c ≤ w * h * c := Nat.mul_le_mul_right c e1
  have e3 : (h - 1 - j) * w ≤ w * h := by
    rw [Nat.mul_comm w h]
    exact Nat.mul_le_mul_right w hkh
  have e4 : (h - 1 - j) * w * c ≤ w * h * c := Nat.mul_le_mul_right c e3
  have e5 : w * c ≤ w * h * c := by
    have : w * 1 ≤ w * h := Nat.mul_le_mul_left w (by omega)
    rw [Nat.mul_one] at this
    exact Nat.mul_le_mul_right c this
  have c1 : checkInt ((j : Int) * (w : Int)) = some ((j * w : Nat) : Int) := by
    rw [checkInt_of_le (by positivity) (by exact_mod_cast (by omega : j * w ≤ 2147483647))]
    exact congrArg some (by push_cast; ring)
  have c2 : checkInt (((j * w : Nat) : Int) * (c : Int)) = some ((j * (w * c) : Nat) : Int) := by
    rw [checkInt_of_le (by positivity)
      (by exact_mod_cast (by omega : j * w * c ≤ 2147483647))]
    exact congrArg some (by push_cast; ring)
  have c3 : checkInt ((h : Int) - 1) = some ((h - 1 : Nat) : Int) := by
    rw [checkInt_of_le (by omega) (by omega)]
    exact congrArg some (by omega)
  have c4 : checkInt (((h - 1 : Nat) : Int) - (j : Int)) = some ((h - 1 - j : Nat) : Int) := by
    rw [checkInt_of_le (by omega) (by omega)]
    exact congrArg some (by omega)
  have c5 : checkInt (((h - 1 - j : Nat) : Int) * (w : Int)) =
      some (((h - 1 - j) * w : Nat) : Int) := by
    rw [checkInt_of_le (by positivity)
      (by exact_mod_cast (by omega : (h - 1 - j) * w ≤ 2147483647))]
    exact congrArg some (Nat.cast_mul _ _).symm
  have c6 : checkInt ((((h - 1 - j) * w : Nat) : Int) * (c : Int)) =
      some (((h - 1 - j) * (w * c) : Nat) : Int) := by
    rw [checkInt_of_le (by positivity)
      (by exact_mod_cast (by omega : (h - 1 - j) * w * c ≤ 2147483647))]
    refine congrArg some ?_
    rw [← Nat.cast_mul, Nat.mul_assoc]
  have c7 : checkInt ((w : Int) * (c : Int)) = some ((w * c : Nat) : Int) := by
    rw [checkInt_of_le (by positivity) (by exact_mod_cast (by omega : w * c ≤ 2147483647))]
    exact congrArg some (Nat.cast_mul _ _).symm
  have hab : j * (w * c) + w * c ≤ (h - 1 - j) * (w * c) := by
    have h1 : (j + 1) * (w * c) ≤ (h - 1 - j) * (w * c) :=
      Nat.mul_le_mul_right (w * c) (by omega)
    have h2 : (j + 1) * (w * c) = j * (w * c) + w * c := by ring
    omega
  have hbl : (h - 1 - j) * (w * c) + w * c ≤ image.length := by
    have h1 : (h - 1 - j + 1) * (w * c) ≤ h * (w * c) := Nat.mul_le_mul_right (w * c) (by omega)
    have h2 : (h - 1 - j + 1) * (w * c) = (h - 1 - j) * (w * c) + w * c := by ring
    omega
  have hmax : (image.length : Int) ≤ 2147483647 := by
    have h1 : h * (w * c) = w * h * c := by ring
    exact_mod_cast (by omega : image.length ≤ 2147483647)
  obtain ⟨out, h1, h2, h3⟩ := swapLoop_spec (w * c) image (j * (w * c)) ((h - 1 - j) * (w * c))
    hab hbl hmax
  refine ⟨out, ?_, h2, h3⟩
  rw [flipRow]
  simp only [Option.bind_eq_bind]
  rw [c1, Option.some_bind, c2, Option.some_bind, c3, Option.some_bind, c4, Option.some_bind,
    c5, Option.some_bind, c6, Option.some_bind, c7, Option.some_bind, Int.toNat_ofNat]
  exact h1

/-- A later row starts at or after the end of an earlier one. -/
theorem row_end_le {j r R : Nat} (h : j < r) : j * R + R ≤ r * R := by
  have h1 : (j + 1) * R ≤ r * R := Nat.mul_le_mul_right R h
  have h2 : (j + 1) * R = j * R + R := by ring
  omega

/-- Exchanging row j and row h - 1 - j of a buffer whose rows below j and from h - j on are
already mirrored leaves the rows below j + 1 and from h - (j + 1) on mirrored. -/
theorem swap_rows_invariant (image cur cur2 : List UChar) (h R j : Nat) (hj : 2 * j + 2 ≤ h)
    (hinv : ∀ r i, r < h → i < R → cur[r * R + i]? =
      if r < j ∨ h - j ≤ r then image[(h - 1 - r) * R + i]? else image[r * R + i]?)
    (hswap : ∀ p, cur2[p]? =
      if j * R ≤ p ∧ p < j * R + R then cur[p - j * R + (h - 1 - j) * R]?
      else if (h - 1 - j) * R ≤ p ∧ p < (h - 1 - j) * R + R then
        cur[p - (h - 1 - j) * R + j * R]?
      else cur[p]?) :
    ∀ r i, r < h → i < R → cur2[r * R + i]? =
      if r < j + 1 ∨ h - (j + 1) ≤ r then image[(h - 1 - r) * R + i]?
      else image[r * R + i]? := by
  intro r i hr hi
  rw [hswap]
  have hjk : j < h - 1 - j := by omega
  have hjk2 := row_end_le (R := R) hjk
  by_cases h1 : r = j
  · subst h1
    rw [if_pos (by omega), if_pos (by omega)]
    have e : r * R + i - r * R + (h - 1 - r) * R = (h - 1 - r) * R + i := by omega
    rw [e, hinv (h - 1 - r) i (by omega) hi, if_neg (by omega)]
  · by_cases h2 : r = h - 1 - j
    · subst h2
      rw [if_neg (by omega), if_pos (by omega), if_pos (by omega)]
      have e : (h - 1 - j) * R + i - (h - 1 - j) * R + j * R = j * R + i := by omega
      have e2 : h - 1 - (h - 1 - j) = j := by omega
      rw [e, hinv j i (by omega) hi, if_neg (by omega), e2]
    · have hc1 : ¬ (j * R ≤ r * R + i ∧ r * R + i < j * R + R) := by
        rcases Nat.lt_or_gt_of_ne h1 with hlt | hgt
        · have := row_offset_lt hlt hi
          omega
        · have := row_end_le (R := R) hgt
          omega
      have hc2 : ¬ ((h - 1 - j) * R ≤ r * R + i ∧ r * R + i < (h - 1 - j) * R + R) := by
        rcases Nat.lt_or_gt_of_ne h2 with hlt | hgt
        · have := row_offset_lt hlt hi
          omega
        · have := row_end_le (R := R) hgt
          omega
      rw [if_neg hc1, if_neg hc2, hinv r i hr hi]
      by_cases h3 : r < j ∨ h - j ≤ r
      · rw [if_pos h3, if_pos (by omega)]
      · rw [if_neg h3, if_neg (by omega)]

/-- The outer loop from row j with n rows of the upper half left: when the int computations
fit, it returns the buffer with every row below j + n and from h - (j + n) on mirrored. -/
theorem flipLoop_spec (image : List UChar) (w h c : Nat) (hlen : image.length = h * (w * c))
    (hh : h ≤ 2147483647) (hwh : w * h ≤ 2147483647) (hwhc : w * h * c ≤ 2147483647)
    (n : Nat) : ∀ (j : Nat) (cur : List UChar), j + n = h / 2 → cur.length = image.length →
    (∀ r i, r < h → i < w * c → cur[r * (w * c) + i]? =
      if r < j ∨ h - j ≤ r then image[(h - 1 - r) * (w * c) + i]?
      else image[r * (w * c) + i]?) →
    ∃ out, flipLoop (w : Int) (h : Int) (c : Int) n (j : Int) cur = some out ∧
      out.length = image.length ∧
      ∀ r i, r < h → i < w * c → out[r * (w * c) + i]? =
        if r < j + n ∨ h - (j + n) ≤ r then image[(h - 1 - r) * (w * c) + i]?
        else image[r * (w * c) + i]? := by
  induction n with
  | zero =>
    intro j cur _ hcl hinv
    exact ⟨cur, rfl, hcl, hinv⟩
  | succ n ih =>
    intro j cur hjn hcl hinv
    have hj : 2 * j + 2 ≤ h := by omega
    obtain ⟨cur2, f1, f2, f3⟩ := flipRow_spec cur w h c j hj (by rw [hcl, hlen]) hh hwh hwhc
    have hinv2 := swap_rows_invariant image cur cur2 h (w * c) j hj hinv f3
    obtain ⟨out, g1, g2, g3⟩ := ih (j + 1) cur2 (by omega) (by rw [f2, hcl]) hinv2
    have cj : checkInt ((j : Int) + 1) = some ((j + 1 : Nat) : Int) := by
      rw [checkInt_of_le (by omega) (by omega)]
      rfl
    have e : j + 1 + n = j + (n + 1) := by omega
    rw [e] at g3
    refine ⟨out, ?_, g2, g3⟩
    rw [flipLoop]
    simp only [Option.bind_eq_bind]
    rw [f1, Option.some_bind, cj, Option.some_bind]
    exact g1

/-- C18 (as stated, refuted): for width 65536, height 65536, one channel and a buffer of
65536 * 65536 * 1 bytes the run of flipImageVertically has no result: in the first pass of the
outer loop the int product (height - 1 - j) * width is 65535 * 65536, above the largest int.
The same happens for an empty buffer with zero channels. -/
theorem flipImageVertically_int_overflow :
    (List.replicate 4294967296 (0 : UChar)).length = 65536 * 65536 * 1 ∧
    (65535 * 65536 : Int) > INT_MAX ∧
    flipImageVertically (List.replicate 4294967296 0) 65536 65536 1 = none ∧
    flipImageVertically [] 65536 65536 0 = none := by
  refine ⟨?_, by decide, rfl, rfl⟩
  rw [List.length_replicate]

/-- The function flipImageVertically on a buffer of width * height * channels bytes whose
sizes fit an int: it returns the buffer with the rows in reverse order. -/
theorem flipImageVertically_spec (image : List UChar) (w h c : Nat)
    (hlen : image.length = w * h * c) (hh : h ≤ 2147483647) (hwh : w * h ≤ 2147483647)
    (hwhc : w * h * c ≤ 2147483647) :
    ∃ out, flipImageVertically image (w : Int) (h : Int) (c : Int) = some out ∧
      out.length = image.length ∧
      (∀ j i, j < h → i < w * c →
        (h - 1 - j) * w * c + i < image.length ∧
        out[j * w * c + i]? = image[(h - 1 - j) * w * c + i]?) ∧
      (∀ i, h % 2 = 1 → i < w * c → out[h / 2 * w * c + i]? = image[h / 2 * w * c + i]?) := by
  have hlen2 : image.length = h * (w * c) := by rw [hlen]; ring
  obtain ⟨out, g1, g2, g3⟩ := flipLoop_spec image w h c hlen2 hh hwh hwhc (h / 2) 0 image
    (by omega) rfl (by
      intro r i _ _
      rw [if_neg (by omega)])
  have main : ∀ j i, j < h → i < w * c →
      out[j * (w * c) + i]? = image[(h - 1 - j) * (w * c) + i]? := by
    intro j i hj hi
    rw [g3 j i hj hi]
    by_cases hc : j < 0 + h / 2 ∨ h - (0 + h / 2) ≤ j
    · rw [if_pos hc]
    · rw [if_neg hc]
      have e : h - 1 - j = j := by omega
      rw [e]
  refine ⟨out, ?_, g2, ?_, ?_⟩
  · have e : (Int.tdiv (h : Int) 2).toNat = h / 2 := by
      rw [show Int.tdiv (h : Int) 2 = ((h / 2 : Nat) : Int) from rfl]
      exact Int.toNat_ofNat _
    rw [flipImageVertically, e]
    exact g1
  · intro j i hj hi
    rw [Nat.mul_assoc, Nat.mul_assoc]
    refine ⟨?_, main j i hj hi⟩
    have h1 : (h - 1 - j + 1) * (w * c) ≤ h * (w * c) := Nat.mul_le_mul_right (w * c) (by omega)
    have h2 : (h - 1 - j + 1) * (w * c) = (h - 1 - j) * (w * c) + w * c := by ring
    omega
  · intro i hodd hi
    rw [Nat.mul_assoc]
    have e : h - 1 - h / 2 = h / 2 := by omega
    have := main (h / 2) i (by omega) hi
    rw [e] at this
    exact this

/-- C18 (amended): for all non-negative width w, height h and channel count c for which h,
w * h and w * h * c are at most the largest int, and every buffer of length w * h * c,
flipImageVertically returns a buffer of the same length with the rows in reverse order and
each row's bytes in order: byte i of row j of the output is byte i of row h - 1 - j of the
input; in particular the middle row of an odd-height image is unchanged. -/
theorem flipImageVertically_reverses_rows (image : List UChar) (w h c : Nat)
    (hlen : image.length = w * h * c) (hh : h ≤ 2147483647) (hwh : w * h ≤ 2147483647)
    (hwhc : w * h * c ≤ 2147483647) :
    ∃ out, flipImageVertically image (w : Int) (h : Int) (c : Int) = some out ∧
      out.length = image.length ∧
      (∀ j i, j < h → i < w * c →
        (h - 1 - j) * w * c + i < image.length ∧
        out[j * w * c + i]? = image[(h - 1 - j) * w * c + i]?) ∧
      (∀ i, h % 2 = 1 → i < w * c → out[h / 2 * w * c + i]? = image[h / 2 * w * c + i]?) :=
  flipImageVertically_spec image w h c hlen hh hwh hwhc

/-- C18 (witness): a 1-wide, 3-high, 2-channel image of 6 bytes. -/
theorem flipImageVertically_reverses_rows_witness :
    ([1, 2, 3, 4, 5, 6] : List UChar).length = 1 * 3 * 2 ∧
    ∃ out, flipImageVertically [1, 2, 3, 4, 5, 6] ((1 : Nat) : Int) ((3 : Nat) : Int)
        ((2 : Nat) : Int) = some out ∧
      out.length = ([1, 2, 3, 4, 5, 6] : List UChar).length ∧
      (∀ j i, j < 3 → i < 1 * 2 →
        (3 - 1 - j) * 1 * 2 + i < ([1, 2, 3, 4, 5, 6] : List UChar).length ∧
        out[j * 1 * 2 + i]? = ([1, 2, 3, 4, 5, 6] : List UChar)[(3 - 1 - j) * 1 * 2 + i]?) ∧
      (∀ i, 3 % 2 = 1 → i < 1 * 2 →
        out[3 / 2 * 1 * 2 + i]? = ([1, 2, 3, 4, 5, 6] : List UChar)[3 / 2 * 1 * 2 + i]?) :=
  ⟨rfl, flipImageVertically_reverses_rows [1, 2, 3, 4, 5, 6] 1 3 2 rfl (by decide) (by decide)
    (by decide)⟩

/-- The run of flipImageVertically on the 6-byte image of the witness. -/
theorem flipImageVertically_example :
    flipImageVertically [1, 2, 3, 4, 5, 6] 1 3 2 = some [5, 6, 3, 4, 1, 2] := by
  decide!

/-! ### UCreateTexture -/

/-- On a well-formed decoded image flipImageVertically has a result. -/
theorem flipImageVertically_of_wellFormed (img : StbImage) (hwf : img.WellFormed) :
    ∃ out, flipImageVertically img.data img.width img.height img.channels = some out := by
  obtain ⟨h1, h2, h3, h4, h5, h6, h7⟩ := hwf
  obtain ⟨W, hW⟩ := Int.eq_ofNat_of_zero_le h1
  obtain ⟨H, hH⟩ := Int.eq_ofNat_of_zero_le h2
  obtain ⟨C, hC⟩ := Int.eq_ofNat_of_zero_le h3
  rw [hW, hH, hC] at h4 h7
  rw [hW, hH] at h6
  rw [hH] at h5
  rw [hW, hH, hC]
  unfold INT_MAX at h5 h6 h7
  obtain ⟨out, ho, _⟩ := flipImageVertically_spec img.data W H C (by exact_mod_cast h4)
    (by exact_mod_cast h5) (by exact_mod_cast h6) (by exact_mod_cast h7)
  exact ⟨out, ho⟩

section TextureLemmas

variable {α κ : Type} (stbi_load : String → Option StbImage) (filename : String)
  (textureId : Nat) (w : World α κ)

/-- The run of UCreateTexture when the image does not decode. -/
theorem UCreateTexture_not_decoded (hl : stbi_load filename = none) :
    UCreateTexture stbi_load filename textureId w = some (false, textureId, w) := by
  simp only [UCreateTexture, hl]

/-- The run of UCreateTexture on a decoded 3-channel image. -/
theorem UCreateTexture_rgb (img : StbImage) (flipped : List UChar)
    (hl : stbi_load filename = some img)
    (hf : flipImageVertically img.data img.width img.height img.channels = some flipped)
    (h3 : img.channels = 3) :
    UCreateTexture stbi_load filename textureId w =
      some (true, w.names + 1,
        glBindTexture 0 (glGenerateMipmap
          (glTexImage2D InternalFormat.RGB8 img.width img.height flipped
            (texturePrepared w)))) := by
  simp only [UCreateTexture, hl, Option.bind_eq_bind]
  rw [hf, Option.some_bind]
  simp only [h3, if_true]
  rfl

/-- The run of UCreateTexture on a decoded 4-channel image. -/
theorem UCreateTexture_rgba (img : StbImage) (flipped : List UChar)
    (hl : stbi_load filename = some img)
    (hf : flipImageVertically img.data img.width img.height img.channels = some flipped)
    (h4 : img.channels = 4) :
    UCreateTexture stbi_load filename textureId w =
      some (true, w.names + 1,
        glBindTexture 0 (glGenerateMipmap
          (glTexImage2D InternalFormat.RGBA8 img.width img.height flipped
            (texturePrepared w)))) := by
  have h3 : ¬ img.channels = 3 := by omega
  simp only [UCreateTexture, hl, Option.bind_eq_bind]
  rw [hf, Option.some_bind]
  simp only [h3, h4, if_true, if_false]
  rfl

/-- The run of UCreateTexture on a decoded image with another channel count: a line on cout,
the texture left generated and bound, the result false. -/
theorem UCreateTexture_unsupported (img : StbImage) (flipped : List UChar)
    (hl : stbi_load filename = some img)
    (hf : flipImageVertically img.data img.width img.height img.channels = some flipped)
    (h3 : img.channels ≠ 3) (h4 : img.channels ≠ 4) :
    UCreateTexture stbi_load filename textureId w =
      some (false, w.names + 1,
        { texturePrepared w with cout := w.cout ++
          ["Not implemented to handle image with " ++ toString img.channels ++ " channels"] }) := by
  simp only [UCreateTexture, hl, Option.bind_eq_bind]
  rw [hf, Option.some_bind]
  simp only [h3, h4, if_false]
  rfl

/-- The texture image after an upload and mipmap generation on the prepared state. -/
theorem uploaded_texImage (fmt : InternalFormat) (width height : Int) (pixels : List UChar) :
    (glBindTexture 0 (glGenerateMipmap (glTexImage2D fmt width height pixels
      (texturePrepared w)))).texImages (w.names + 1) =
      some ⟨fmt, width, height, pixels, true⟩ := by
  simp [glBindTexture, glGenerateMipmap, glTexImage2D, glTexParameteri, texturePrepared, glGen,
    glGenTextures]

/-- An upload on the prepared state, or the prepared state with a line on cout, has the
vertex-array binding and the program's variables of the state before. -/
theorem texturePrepared_vertexArray (fmt : InternalFormat) (width height : Int)
    (pixels : List UChar) (line : String) :
    (glBindTexture 0 (glGenerateMipmap (glTexImage2D fmt width height pixels
      (texturePrepared w)))).vertexArray = w.vertexArray ∧
    (glBindTexture 0 (glGenerateMipmap (glTexImage2D fmt width height pixels
      (texturePrepared w)))).toGlobals = w.toGlobals ∧
    ({ texturePrepared w with cout := w.cout ++ [line] } : World α κ).vertexArray =
      w.vertexArray ∧
    ({ texturePrepared w with cout := w.cout ++ [line] } : World α κ).toGlobals =
      w.toGlobals := by
  simp only [glBindTexture, glGenerateMipmap, glTexImage2D, glTexParameteri, texturePrepared,
    glGen, glGenTextures, and_self]

/-- Whatever its result, UCreateTexture leaves the vertex-array binding and the program's
variables alone. -/
theorem UCreateTexture_vertexArray (ok : Bool) (tid : Nat) (w2 : World α κ)
    (h : UCreateTexture stbi_load filename textureId w = some (ok, tid, w2)) :
    w2.vertexArray = w.vertexArray ∧ w2.toGlobals = w.toGlobals := by
  cases hl : stbi_load filename with
  | none =>
    rw [UCreateTexture_not_decoded stbi_load filename textureId w hl] at h
    simp only [Option.some.injEq, Prod.mk.injEq] at h
    rw [← h.2.2]
    exact ⟨rfl, rfl⟩
  | some img =>
    cases hf : flipImageVertically img.data img.width img.height img.channels with
    | none =>
      simp only [UCreateTexture, hl, Option.bind_eq_bind] at h
      rw [hf] at h
      simp at h
    | some flipped =>
      by_cases h3 : img.channels = 3
      · rw [UCreateTexture_rgb stbi_load filename textureId w img flipped hl hf h3] at h
        simp only [Option.some.injEq, Prod.mk.injEq] at h
        rw [← h.2.2]
        exact ⟨(texturePrepared_vertexArray w _ _ _ _ "").1,
          (texturePrepared_vertexArray w _ _ _ _ "").2.1⟩
      · by_cases h4 : img.channels = 4
        · rw [UCreateTexture_rgba stbi_load filename textureId w img flipped hl hf h4] at h
          simp only [Option.some.injEq, Prod.mk.injEq] at h
          rw [← h.2.2]
          exact ⟨(texturePrepared_vertexArray w _ _ _ _ "").1,
            (texturePrepared_vertexArray w _ _ _ _ "").2.1⟩
        · rw [UCreateTexture_unsupported stbi_load filename textureId w img flipped hl hf h3
            h4] at h
          simp only [Option.some.injEq, Prod.mk.injEq] at h
          rw [← h.2.2]
          exact ⟨(texturePrepared_vertexArray w InternalFormat.RGB8 0 0 [] _).2.2.1,
            (texturePrepared_vertexArray w InternalFormat.RGB8 0 0 [] _).2.2.2⟩

end TextureLemmas

/-- C19: when the decoder returns well-formed images, UCreateTexture returns true exactly when
the image decodes and its channel count is 3 or 4: with 3 channels the flipped pixels are
uploaded with internal format RGB8, with 4 channels with RGBA8; with any other channel count
it returns false; when the image does not decode it returns false and changes nothing. -/
theorem UCreateTexture_succeeds_iff {α κ : Type} (stbi_load : String → Option StbImage)
    (filename : String) (textureId : Nat) (w : World α κ)
    (hwf : ∀ img, stbi_load filename = some img → img.WellFormed) :
    ∃ ok tid w2, UCreateTexture stbi_load filename textureId w = some (ok, tid, w2) ∧
      (ok = true ↔
        ∃ img, stbi_load filename = some img ∧ (img.channels = 3 ∨ img.channels = 4)) ∧
      (stbi_load filename = none → ok = false ∧ tid = textureId ∧ w2 = w) ∧
      (∀ img, stbi_load filename = some img → img.channels = 3 →
        ok = true ∧ ∃ flipped,
          flipImageVertically img.data img.width img.height img.channels = some flipped ∧
          w2.texImages tid = some ⟨InternalFormat.RGB8, img.width, img.height, flipped, true⟩) ∧
      (∀ img, stbi_load filename = some img → img.channels = 4 →
        ok = true ∧ ∃ flipped,
          flipImageVertically img.data img.width img.height img.channels = some flipped ∧
          w2.texImages tid = some ⟨InternalFormat.RGBA8, img.width, img.height, flipped, true⟩) ∧
      (∀ img, stbi_load filename = some img → img.channels ≠ 3 → img.channels ≠ 4 →
        ok = false) := by
  cases hl : stbi_load filename with
  | none =>
    refine ⟨false, textureId, w, UCreateTexture_not_decoded stbi_load filename textureId w hl,
      by simp, fun _ => ⟨rfl, rfl, rfl⟩, ?_, ?_, ?_⟩ <;>
    · intro img h
      simp at h
  | some img =>
    obtain ⟨flipped, hf⟩ := flipImageVertically_of_wellFormed img (hwf img hl)
    have inj : ∀ img2, some img = some img2 → img2 = img := by
      intro img2 h
      simp only [Option.some.injEq] at h
      exact h.symm
    by_cases h3 : img.channels = 3
    · refine ⟨true, w.names + 1, _,
        UCreateTexture_rgb stbi_load filename textureId w img flipped hl hf h3, ?_, ?_, ?_, ?_,
        ?_⟩
      · simp [h3]
      · intro h
        simp at h
      · intro img2 h2 _
        rw [inj img2 h2]
        exact ⟨rfl, flipped, hf, uploaded_texImage w _ _ _ _⟩
      · intro img2 h2 h4
        rw [inj img2 h2] at h4
        omega
      · intro img2 h2 hn3 _
        rw [inj img2 h2] at hn3
        exact absurd h3 hn3
    · by_cases h4 : img.channels = 4
      · refine ⟨true, w.names + 1, _,
          UCreateTexture_rgba stbi_load filename textureId w img flipped hl hf h4, ?_, ?_, ?_,
          ?_, ?_⟩
        · simp [h4]
        · intro h
          simp at h
        · intro img2 h2 h3'
          rw [inj img2 h2] at h3'
          exact absurd h3' h3
        · intro img2 h2 _
          rw [inj img2 h2]
          exact ⟨rfl, flipped, hf, uploaded_texImage w _ _ _ _⟩
        · intro img2 h2 _ hn4
          rw [inj img2 h2] at hn4
          exact absurd h4 hn4
      · refine ⟨false, w.names + 1, _,
          UCreateTexture_unsupported stbi_load filename textureId w img flipped hl hf h3 h4, ?_,
          ?_, ?_, ?_, ?_⟩
        · simp [h3, h4]
        · intro h
          simp at h
        · intro img2 h2 h3'
          rw [inj img2 h2] at h3'
          exact absurd h3' h3
        · intro img2 h2 h4'
          rw [inj img2 h2] at h4'
          exact absurd h4' h4
        · intro _ _ _ _
          rfl

/-- C19 (witness): a decoder returning a 1 x 1 image with 3 channels; UCreateTexture returns
true from the start-up state. -/
theorem UCreateTexture_succeeds_iff_witness :
    (∀ img, decodesTo ⟨[1, 2, 3], 1, 1, 3⟩ "Torch_Stick.png" = some img → img.WellFormed) ∧
    ∃ ok tid w2,
      UCreateTexture (decodesTo ⟨[1, 2, 3], 1, 1, 3⟩) "Torch_Stick.png" 0
        (initialWorld (⟨0, 1.5, 7⟩, 45) : World ℚ (Vec3 ℚ × ℚ)) = some (ok, tid, w2) ∧
      ok = true :=
  have hwf : ∀ img, decodesTo ⟨[1, 2, 3], 1, 1, 3⟩ "Torch_Stick.png" = some img →
      img.WellFormed := by
    intro img h
    simp only [decodesTo, Option.some.injEq] at h
    subst h
    unfold StbImage.WellFormed INT_MAX
    decide
  let ⟨ok, tid, w2, h, hiff, _⟩ := UCreateTexture_succeeds_iff
    (decodesTo ⟨[1, 2, 3], 1, 1, 3⟩) "Torch_Stick.png" 0
    (initialWorld (⟨0, 1.5, 7⟩, 45) : World ℚ (Vec3 ℚ × ℚ)) hwf
  ⟨hwf, ok, tid, w2, h, hiff.2 ⟨_, rfl, Or.inl rfl⟩⟩

/-- C20 (as stated, refuted): from the start-up state, a load that fails to decode and a load
of a 1-channel image both return false. -/
theorem UCreateTexture_failures_same_result :
    (UCreateTexture noFile "missing.png" 0
      (initialWorld (⟨0, 1.5, 7⟩, 45) : World ℚ (Vec3 ℚ × ℚ))).map (fun r => r.1) =
      some false ∧
    (UCreateTexture (decodesTo ⟨[7], 1, 1, 1⟩) "gray.png" 0
      (initialWorld (⟨0, 1.5, 7⟩, 45) : World ℚ (Vec3 ℚ × ℚ))).map (fun r => r.1) =
      some false := by
  constructor <;> rfl

/-- C20 (amended): a failed texture load returns false for both failure kinds. A decode
failure leaves textureId and the state as they were; an unsupported channel count differs
only in its side effects: a texture name is generated, stored in textureId and left bound
with its parameters set, and the line naming the channel count is written to cout. -/
theorem UCreateTexture_failure_kinds {α κ : Type} (load1 load2 : String → Option StbImage)
    (file1 file2 : String) (textureId : Nat) (w : World α κ) (img : StbImage)
    (flipped : List UChar) (h1 : load1 file1 = none) (h2 : load2 file2 = some img)
    (hf : flipImageVertically img.data img.width img.height img.channels = some flipped)
    (h3 : img.channels ≠ 3) (h4 : img.channels ≠ 4) :
    UCreateTexture load1 file1 textureId w = some (false, textureId, w) ∧
    UCreateTexture load2 file2 textureId w =
      some (false, w.names + 1,
        { texturePrepared w with cout := w.cout ++
          ["Not implemented to handle image with " ++ toString img.channels ++ " channels"] }) ∧
    (UCreateTexture load1 file1 textureId w).map (fun r => r.1) =
      (UCreateTexture load2 file2 textureId w).map (fun r => r.1) ∧
    (texturePrepared w).texture2D = w.names + 1 := by
  have e1 := UCreateTexture_not_decoded load1 file1 textureId w h1
  have e2 := UCreateTexture_unsupported load2 file2 textureId w img flipped h2 hf h3 h4
  refine ⟨e1, e2, ?_, rfl⟩
  rw [e1, e2]
  rfl

/-- C20 (witness): no file against a 1 x 1 image with 1 channel, from the start-up state. -/
theorem UCreateTexture_failure_kinds_witness :
    noFile "missing.png" = none ∧
    decodesTo ⟨[7], 1, 1, 1⟩ "gray.png" = some ⟨[7], 1, 1, 1⟩ ∧
    flipImageVertically [7] 1 1 1 = some [7] ∧ (1 : Int) ≠ 3 ∧ (1 : Int) ≠ 4 ∧
    (UCreateTexture noFile "missing.png" 0
      (initialWorld (⟨0, 1.5, 7⟩, 45) : World ℚ (Vec3 ℚ × ℚ))).map (fun r => r.1) =
    (UCreateTexture (decodesTo ⟨[7], 1, 1, 1⟩) "gray.png" 0
      (initialWorld (⟨0, 1.5, 7⟩, 45) : World ℚ (Vec3 ℚ × ℚ))).map (fun r => r.1) :=
  ⟨rfl, rfl, rfl, by decide, by decide,
   (UCreateTexture_failure_kinds noFile (decodesTo ⟨[7], 1, 1, 1⟩) "missing.png" "gray.png" 0
      (initialWorld (⟨0, 1.5, 7⟩, 45) : World ℚ (Vec3 ℚ × ℚ)) ⟨[7], 1, 1, 1⟩ [7] rfl rfl rfl
      (by decide) (by decide)).2.2.1⟩

/-! ### The cylinder table: side-wall texture coordinates and bottom-cap normals -/

section ModelLemmas

variable {α κ : Type} [Field α] (env : Env α κ) (w : World α κ)

/-- The model uniform the draw of drawPlane sees. -/
theorem drawPlane_modelMatrix (a b c d e f g : α) :
    (drawPlane env a b c d e f g w).draws.map DrawCall.modelMatrix =
      w.draws.map DrawCall.modelMatrix ++
        [some (UniformValue.mat4 (drawPlaneModel env.math a b c d e f g))] := by
  simp [drawPlane, updateCamera, glUniform, glUseProgram, glBindTexture, glBindVertexArray,
    glDrawArrays, DrawCall.modelMatrix]

/-- The model uniform the draw of drawPyramid sees. -/
theorem drawPyramid_modelMatrix (a b c d e f g : α) :
    (drawPyramid env a b c d e f g w).draws.map DrawCall.modelMatrix =
      w.draws.map DrawCall.modelMatrix ++
        [some (UniformValue.mat4 (drawPyramidModel env.math a b c d e f g))] := by
  simp [drawPyramid, updateCamera, glUniform, glUseProgram, glBindTexture, glBindVertexArray,
    glDrawArrays, DrawCall.modelMatrix]

/-- The model uniform the draw of drawRectPrism sees. -/
theorem drawRectPrism_modelMatrix (a b c d e f g : α) :
    (drawRectPrism env a b c d e f g w).draws.map DrawCall.modelMatrix =
      w.draws.map DrawCall.modelMatrix ++
        [some (UniformValue.mat4 (drawRectPrismModel env.math a b c d e f g))] := by
  simp [drawRectPrism, updateCamera, glUniform, glUseProgram, glBindTexture, glBindVertexArray,
    glDrawArrays, DrawCall.modelMatrix]

/-- The model uniform the draw of drawCylinder sees. -/
theorem drawCylinder_modelMatrix (a b c d e f g : α) :
    (drawCylinder env a b c d e f g w).draws.map DrawCall.modelMatrix =
      w.draws.map DrawCall.modelMatrix ++
        [some (UniformValue.mat4 (drawCylinderModel env.math a b c d e f g))] := by
  simp [drawCylinder, updateCamera, glUniform, glUseProgram, glBindTexture, glBindVertexArray,
    glDrawArrays, DrawCall.modelMatrix]

/-- The model uniforms the two draws of drawCube see: the lit draw the cube's model matrix,
the marker draw glm::translate(torchLightPosition) * glm::scale(gLightScale). -/
theorem drawCube_modelMatrix (a b c d e f g : α) :
    (drawCube env a b c d e f g w).draws.map DrawCall.modelMatrix =
      w.draws.map DrawCall.modelMatrix ++
        [some (UniformValue.mat4 (drawCubeModel env.math a b c d e f g)),
         some (UniformValue.mat4 lightMarkerModel)] := by
  simp [drawCube, updateCamera, glUniform, glUseProgram, glBindTexture, glBindVertexArray,
    glDrawArrays, DrawCall.modelMatrix, lightMarkerModel]

/-- The model uniforms of the eight draws of drawScene, in order. -/
theorem drawScene_modelMatrix :
    (drawScene env w).draws.map DrawCall.modelMatrix =
      [some (UniformValue.mat4 (deskModel env.math)),
       some (UniformValue.mat4 (pyramidModel env.math)),
       some (UniformValue.mat4 (torchHandleModel env.math)),
       some (UniformValue.mat4 (torchHeadModel env.math)),
       some (UniformValue.mat4 lightMarkerModel),
       some (UniformValue.mat4 (bottleBodyModel env.math)),
       some (UniformValue.mat4 (bottleNeckModel env.math)),
       some (UniformValue.mat4 (bottleCapModel env.math))] := by
  simp only [drawScene, glUseProgram, glBindVertexArray, glClear_draws, drawPlane_modelMatrix,
    drawPyramid_modelMatrix, drawRectPrism_modelMatrix, drawCube_modelMatrix,
    drawCylinder_modelMatrix, List.map_nil, List.nil_append, List.append_assoc,
    List.cons_append, deskModel, pyramidModel, torchHandleModel, torchHeadModel,
    bottleBodyModel, bottleNeckModel, bottleCapModel]

end ModelLemmas

/-! ### The stacked parts of the scene -/

section Stacking

variable {α : Type} [CommRing α]

/-- The point map of translate * rotate * scale for any scalar functions whose reciprocal
square root of 1 is 1 (the rotation axis (0, 1, 0) has length 1), in closed form. -/
theorem drawPlaneModel_apply_of_unit (m : ScalarMath α) (hk : m.inversesqrt 1 = 1)
    (sx sy sz x y z a : α) (p : Vec3 α) :
    vertexFragmentPos (drawPlaneModel m sx sy sz x y z a) p =
      ⟨x + m.cos a * sx * p.x + m.sin a * sz * p.z, y + sy * p.y,
       z - m.sin a * sx * p.x + m.cos a * sz * p.z⟩ := by
  simp only [vertexFragmentPos, drawPlaneModel, glmScale, glmRotate, glmTranslate, glmNormalize,
    Vec3.dot, Vec3.smul]
  simp [Matrix.mul_apply, Matrix.mulVec, Matrix.dotProduct, Fin.sum_univ_four, hk]
  exact ⟨by ring, by ring, by ring⟩

/-- The equal definitions of the four model builders. -/
theorem drawModels_eq (m : ScalarMath α) (sx sy sz x y z a : α) :
    drawCubeModel m sx sy sz x y z a = drawPlaneModel m sx sy sz x y z a ∧
    drawRectPrismModel m sx sy sz x y z a = drawPlaneModel m sx sy sz x y z a ∧
    drawCylinderModel m sx sy sz x y z a = drawPlaneModel m sx sy sz x y z a :=
  ⟨rfl, rfl, rfl⟩

end Stacking

/-- The local heights of the box and cylinder tables: every vertex of the rectangular prism,
the cube and the cylinder has its y between 0 and 1, and both bounds are reached; every vertex
of the plane has y = 0. -/
theorem table_heights :
    (∀ i, i < 36 → 0 ≤ (position rectPrismVerts i).y ∧ (position rectPrismVerts i).y ≤ 1) ∧
    (∀ i, i < 36 → 0 ≤ (position cubeVerts i).y ∧ (position cubeVerts i).y ≤ 1) ∧
    (∀ i, i < 96 → 0 ≤ (position cylinderVerts i).y ∧ (position cylinderVerts i).y ≤ 1) ∧
    (∀ i, i < 6 → (position planeVerts i).y = 0) ∧
    (position rectPrismVerts 0).y = 0 ∧ (position rectPrismVerts 6).y = 1 ∧
    (position cubeVerts 0).y = 0 ∧ (position cubeVerts 6).y = 1 ∧
    (position cylinderVerts 0).y = 0 ∧ (position cylinderVerts 72).y = 1 := by
  decide!

/-- The world height of a local point under translate * rotate * scale, for scalar functions
whose reciprocal square root of 1 is 1: the rotation about Y leaves it alone. -/
theorem drawModel_world_y (m : ScalarMath ℚ) (hk : m.inversesqrt 1 = 1)
    (sx sy sz x y z a : ℚ) (p : Vec3 ℚ) :
    (vertexFragmentPos (drawPlaneModel m sx sy sz x y z a) p).y = y + sy * p.y ∧
    (vertexFragmentPos (drawCubeModel m sx sy sz x y z a) p).y = y + sy * p.y ∧
    (vertexFragmentPos (drawRectPrismModel m sx sy sz x y z a) p).y = y + sy * p.y ∧
    (vertexFragmentPos (drawCylinderModel m sx sy sz x y z a) p).y = y + sy * p.y := by
  have h := congrArg Vec3.y (drawPlaneModel_apply_of_unit m hk sx sy sz x y z a p)
  exact ⟨h, h, h, h⟩

/-- The image of a point of the local Y axis under translate * rotate * scale, for scalar
functions whose reciprocal square root of 1 is 1. -/
theorem drawModel_axis (m : ScalarMath ℚ) (hk : m.inversesqrt 1 = 1)
    (sx sy sz x y z a t : ℚ) :
    vertexFragmentPos (drawCubeModel m sx sy sz x y z a) ⟨0, t, 0⟩ = ⟨x, y + sy * t, z⟩ ∧
    vertexFragmentPos (drawRectPrismModel m sx sy sz x y z a) ⟨0, t, 0⟩ = ⟨x, y + sy * t, z⟩ ∧
    vertexFragmentPos (drawCylinderModel m sx sy sz x y z a) ⟨0, t, 0⟩ = ⟨x, y + sy * t, z⟩ := by
  have h : vertexFragmentPos (drawPlaneModel m sx sy sz x y z a) ⟨0, t, 0⟩ =
      ⟨x, y + sy * t, z⟩ := by
    rw [drawPlaneModel_apply_of_unit m hk]
    simp
  exact ⟨h, h, h⟩

/-- C27: over the rationals, for any cosine and sine and a reciprocal square root with
inversesqrt 1 = 1, the stacked parts drawScene draws abut exactly. The torch handle (the
rectangular prism table under its model matrix) spans the world heights 0 to 3.2 and the torch
head (the cube table) the heights 3.2 to 4; the bottle's body, neck and cap (the cylinder
table) span 0 to 2.8, 2.8 to 3.1 and 3.1 to 3.3; each bound is reached by a vertex. The local
Y axis of the handle and of the head map to the same vertical line x = 1.4, z = -0.15, those of
the three cylinders to x = 0, z = -2; the handle and the body start at the height 0, where
every vertex of the desk lies. -/
theorem stacked_parts_abut {κ : Type} (env : Env ℚ κ) (w : World ℚ κ)
    (hk : env.math.inversesqrt 1 = 1) :
    (drawScene env w).draws.map DrawCall.modelMatrix =
      [some (UniformValue.mat4 (deskModel env.math)),
       some (UniformValue.mat4 (pyramidModel env.math)),
       some (UniformValue.mat4 (torchHandleModel env.math)),
       some (UniformValue.mat4 (torchHeadModel env.math)),
       some (UniformValue.mat4 lightMarkerModel),
       some (UniformValue.mat4 (bottleBodyModel env.math)),
       some (UniformValue.mat4 (bottleNeckModel env.math)),
       some (UniformValue.mat4 (bottleCapModel env.math))] ∧
    (∀ i, i < 36 →
      0 ≤ (vertexFragmentPos (torchHandleModel env.math) (position rectPrismVerts i)).y ∧
      (vertexFragmentPos (torchHandleModel env.math) (position rectPrismVerts i)).y ≤ 3.2) ∧
    (vertexFragmentPos (torchHandleModel env.math) (position rectPrismVerts 0)).y = 0 ∧
    (vertexFragmentPos (torchHandleModel env.math) (position rectPrismVerts 6)).y = 3.2 ∧
    (∀ i, i < 36 →
      3.2 ≤ (vertexFragmentPos (torchHeadModel env.math) (position cubeVerts i)).y ∧
      (vertexFragmentPos (torchHeadModel env.math) (position cubeVerts i)).y ≤ 4) ∧
    (vertexFragmentPos (torchHeadModel env.math) (position cubeVerts 0)).y = 3.2 ∧
    (∀ i, i < 96 →
      0 ≤ (vertexFragmentPos (bottleBodyModel env.math) (position cylinderVerts i)).y ∧
      (vertexFragmentPos (bottleBodyModel env.math) (position cylinderVerts i)).y ≤ 2.8) ∧
    (vertexFragmentPos (bottleBodyModel env.math) (position cylinderVerts 0)).y = 0 ∧
    (vertexFragmentPos (bottleBodyModel env.math) (position cylinderVerts 72)).y = 2.8 ∧
    (∀ i, i < 96 →
      2.8 ≤ (vertexFragmentPos (bottleNeckModel env.math) (position cylinderVerts i)).y ∧
      (vertexFragmentPos (bottleNeckModel env.math) (position cylinderVerts i)).y ≤ 3.1) ∧
    (vertexFragmentPos (bottleNeckModel env.math) (position cylinderVerts 0)).y = 2.8 ∧
    (vertexFragmentPos (bottleNeckModel env.math) (position cylinderVerts 72)).y = 3.1 ∧
    (∀ i, i < 96 →
      3.1 ≤ (vertexFragmentPos (bottleCapModel env.math) (position cylinderVerts i)).y ∧
      (vertexFragmentPos (bottleCapModel env.math) (position cylinderVerts i)).y ≤ 3.3) ∧
    (vertexFragmentPos (bottleCapModel env.math) (position cylinderVerts 0)).y = 3.1 ∧
    (∀ t : ℚ,
      vertexFragmentPos (torchHandleModel env.math) ⟨0, t, 0⟩ = ⟨1.4, 0 + 3.2 * t, -0.15⟩ ∧
      vertexFragmentPos (torchHeadModel env.math) ⟨0, t, 0⟩ = ⟨1.4, 3.2 + 0.8 * t, -0.15⟩ ∧
      vertexFragmentPos (bottleBodyModel env.math) ⟨0, t, 0⟩ = ⟨0, 0 + 2.8 * t, -2⟩ ∧
      vertexFragmentPos (bottleNeckModel env.math) ⟨0, t, 0⟩ = ⟨0, 2.8 + 0.3 * t, -2⟩ ∧
      vertexFragmentPos (bottleCapModel env.math) ⟨0, t, 0⟩ = ⟨0, 3.1 + 0.2 * t, -2⟩) ∧
    (∀ i, i < 6 → (vertexFragmentPos (deskModel env.math) (position planeVerts i)).y = 0) := by
  obtain ⟨hp, hc, hcy, hpl, p0, p6, c0, _, y0, y72⟩ := table_heights
  have hy := drawModel_world_y env.math hk
  have hax := drawModel_axis env.math hk
  refine ⟨drawScene_modelMatrix env w, ?_, ?_, ?_, ?_, ?_, ?_, ?_, ?_, ?_, ?_, ?_, ?_, ?_, ?_,
    ?_⟩
  · intro i hi
    have := hp i hi
    simp only [torchHandleModel, (hy _ _ _ _ _ _ _ _).2.2.1]
    constructor <;> linarith
  · simp only [torchHandleModel, (hy _ _ _ _ _ _ _ _).2.2.1, p0]; norm_num
  · simp only [torchHandleModel, (hy _ _ _ _ _ _ _ _).2.2.1, p6]; norm_num
  · intro i hi
    have := hc i hi
    simp only [torchHeadModel, (hy _ _ _ _ _ _ _ _).2.1]
    constructor <;> linarith
  · simp only [torchHeadModel, (hy _ _ _ _ _ _ _ _).2.1, c0]; norm_num
  · intro i hi
    have := hcy i hi
    simp only [bottleBodyModel, (hy _ _ _ _ _ _ _ _).2.2.2]
    constructor <;> linarith
  · simp only [bottleBodyModel, (hy _ _ _ _ _ _ _ _).2.2.2, y0]; norm_num
  · simp only [bottleBodyModel, (hy _ _ _ _ _ _ _ _).2.2.2, y72]; norm_num
  · intro i hi
    have := hcy i hi
    simp only [bottleNeckModel, (hy _ _ _ _ _ _ _ _).2.2.2]
    constructor <;> linarith
  · simp only [bottleNeckModel, (hy _ _ _ _ _ _ _ _).2.2.2, y0]; norm_num
  · simp only [bottleNeckModel, (hy _ _ _ _ _ _ _ _).2.2.2, y72]; norm_num
  · intro i hi
    have := hcy i hi
    simp only [bottleCapModel, (hy _ _ _ _ _ _ _ _).2.2.2]
    constructor <;> linarith
  · simp only [bottleCapModel, (hy _ _ _ _ _ _ _ _).2.2.2, y0]; norm_num
  · intro t
    simp only [torchHandleModel, torchHeadModel, bottleBodyModel, bottleNeckModel,
      bottleCapModel, (hax _ _ _ _ _ _ _ _).1, (hax _ _ _ _ _ _ _ _).2.1,
      (hax _ _ _ _ _ _ _ _).2.2]
    norm_num
  · intro i hi
    simp only [deskModel, (hy _ _ _ _ _ _ _ _).1, hpl i hi]; norm_num

/-- C27 at the concrete environment, whose reciprocal square root is constantly 1: the torch
handle's highest vertex and the torch head's lowest vertex are both at the height 3.2. -/
theorem stacked_parts_abut_witness :
    fixedEnv.math.inversesqrt 1 = 1 ∧
    (vertexFragmentPos (torchHandleModel fixedEnv.math) (position rectPrismVerts 6)).y = 3.2 ∧
    (vertexFragmentPos (torchHeadModel fixedEnv.math) (position cubeVerts 0)).y = 3.2 :=
  ⟨rfl,
   (stacked_parts_abut fixedEnv (initialWorld (⟨0, 1.5, 7⟩, 45)) rfl).2.2.2.1,
   (stacked_parts_abut fixedEnv (initialWorld (⟨0, 1.5, 7⟩, 45)) rfl).2.2.2.2.2.1⟩

/-! ### The light marker and the torch head -/

/-- The corners of the cube table: every vertex has x and z equal to 0.5 or -0.5 and y equal
to 0 or 1, so its x and z lie between -0.5 and 0.5 and its y between 0 and 1. -/
theorem cubeVerts_corners :
    ∀ i, i < 36 →
      ((position cubeVerts i).x = 1 / 2 ∨ (position cubeVerts i).x = -(1 / 2)) ∧
      ((position cubeVerts i).y = 0 ∨ (position cubeVerts i).y = 1) ∧
      ((position cubeVerts i).z = 1 / 2 ∨ (position cubeVerts i).z = -(1 / 2)) := by
  decide!

/-- The point map of the light marker's model matrix: scale by 0.2, then move to the torch
light's position. -/
theorem lightMarkerModel_apply (p : Vec3 ℝ) :
    vertexFragmentPos (lightMarkerModel : Mat4 ℝ) p =
      ⟨1.4 + 0.2 * p.x, 3.3 + 0.2 * p.y, -0.15 + 0.2 * p.z⟩ := by
  simp only [vertexFragmentPos, lightMarkerModel, glmScale, glmTranslate, torchLightPosition,
    gLightScale]
  simp [Matrix.mul_apply, Matrix.mulVec, Matrix.dotProduct, Fin.sum_univ_four]
  exact ⟨by ring, by ring, by ring⟩

/-- A product of a factor of absolute value at most 1 and one of absolute value at most r. -/
theorem abs_mul_le_of_abs_le_one (c a r : ℝ) (hc : |c| ≤ 1) (ha : |a| ≤ r) : |c * a| ≤ r := by
  rw [abs_mul]
  calc |c| * |a| ≤ 1 * r := mul_le_mul hc ha (abs_nonneg a) (by norm_num)
    _ = r := one_mul r

/-- Every point of the unit box of the cube table, taken to world space by the light marker's
model matrix, is the image under the torch head's model matrix of a point of the same box. -/
theorem marker_point_in_head (p : Vec3 ℝ) (hx : |p.x| ≤ 1 / 2) (hy0 : 0 ≤ p.y) (hy1 : p.y ≤ 1)
    (hz : |p.z| ≤ 1 / 2) :
    ∃ q : Vec3 ℝ, |q.x| ≤ 1 / 2 ∧ 0 ≤ q.y ∧ q.y ≤ 1 ∧ |q.z| ≤ 1 / 2 ∧
      vertexFragmentPos (torchHeadModel ⟨Real.cos, Real.sin, fun t => (Real.sqrt t)⁻¹⟩) q =
        vertexFragmentPos (lightMarkerModel : Mat4 ℝ) p := by
  have hcs := Real.cos_sq_add_sin_sq (5.0 : ℝ)
  have hc := Real.abs_cos_le_one (5.0 : ℝ)
  have hs := Real.abs_sin_le_one (5.0 : ℝ)
  have hxc := abs_mul_le_of_abs_le_one _ _ _ hc hx
  have hzs := abs_mul_le_of_abs_le_one _ _ _ hs hz
  have hxs := abs_mul_le_of_abs_le_one _ _ _ hs hx
  have hzc := abs_mul_le_of_abs_le_one _ _ _ hc hz
  rw [abs_le] at hxc hzs hxs hzc
  refine ⟨⟨(Real.cos 5.0 * p.x - Real.sin 5.0 * p.z) / 4, (1 + 2 * p.y) / 8,
    (Real.sin 5.0 * p.x + Real.cos 5.0 * p.z) / 4⟩, ?_, ?_, ?_, ?_, ?_⟩
  · rw [abs_le]; constructor <;> linarith
  · show 0 ≤ (1 + 2 * p.y) / 8
    linarith
  · show (1 + 2 * p.y) / 8 ≤ 1
    linarith
  · rw [abs_le]; constructor <;> linarith
  · have h := drawPlaneModel_apply 0.8 0.8 0.8 1.4 3.2 (-0.15) 5.0
      ((Real.cos 5.0 * p.x - Real.sin 5.0 * p.z) / 4) ((1 + 2 * p.y) / 8)
      ((Real.sin 5.0 * p.x + Real.cos 5.0 * p.z) / 4)
    rw [lightMarkerModel_apply]
    refine h.trans ?_
    congr 1
    · linear_combination (0.2 * p.x) * hcs
    · ring
    · linear_combination (0.2 * p.z) * hcs

/-- C26: over the reals, with the library cosine, sine and reciprocal square root, the light
marker lies inside the torch head. The fourth and fifth draws of drawScene are the torch head
and the light marker, both of the cube's vertex array, with the model matrices torchHeadModel
(scale 0.8, rotation by 5.0 rad about Y, translation (1.4, 3.2, -0.15)) and lightMarkerModel
(translate(torchLightPosition) * scale(0.2)). The torch head's local Y axis maps to the
vertical line x = 1.4, z = -0.15 from the height 3.2 to 4, and the torch light's position
(1.4, 3.3, -0.15) is the image of the axis point at local height 1/8. Every vertex of the cube
table is a corner of the box with x and z in [-0.5, 0.5] and y in [0, 1], and each of the 36
marker vertices in world space is the image under the torch head's model matrix of a point of
that box. -/
theorem light_marker_inside_torch_head {κ : Type} (camera : CameraApi ℝ κ) (tan : ℝ → ℝ)
    (w : World ℝ κ) :
    ((drawScene ⟨camera, ⟨Real.cos, Real.sin, fun t => (Real.sqrt t)⁻¹⟩, tan⟩ w).draws.map
        DrawCall.modelMatrix).drop 3 =
      [some (UniformValue.mat4 (torchHeadModel ⟨Real.cos, Real.sin, fun t => (Real.sqrt t)⁻¹⟩)),
       some (UniformValue.mat4 lightMarkerModel),
       some (UniformValue.mat4 (bottleBodyModel ⟨Real.cos, Real.sin, fun t => (Real.sqrt t)⁻¹⟩)),
       some (UniformValue.mat4 (bottleNeckModel ⟨Real.cos, Real.sin, fun t => (Real.sqrt t)⁻¹⟩)),
       some (UniformValue.mat4 (bottleCapModel ⟨Real.cos, Real.sin, fun t => (Real.sqrt t)⁻¹⟩))] ∧
    (((drawScene ⟨camera, ⟨Real.cos, Real.sin, fun t => (Real.sqrt t)⁻¹⟩, tan⟩ w).draws.map
        DrawCall.binding).drop 3).take 2 =
      [(w.gProgramId, w.cubeMesh.vao, w.texTorchLightId, w.cubeMesh.nVertices),
       (w.gLightProgramId, w.cubeMesh.vao, w.texTorchLightId, w.cubeMesh.nVertices)] ∧
    (∀ t : ℝ,
      vertexFragmentPos (torchHeadModel ⟨Real.cos, Real.sin, fun t => (Real.sqrt t)⁻¹⟩)
        ⟨0, t, 0⟩ = ⟨1.4, 3.2 + 0.8 * t, -0.15⟩) ∧
    (torchLightPosition : Vec3 ℝ) = ⟨1.4, 3.3, -0.15⟩ ∧
    vertexFragmentPos (torchHeadModel ⟨Real.cos, Real.sin, fun t => (Real.sqrt t)⁻¹⟩)
      ⟨0, 1 / 8, 0⟩ = (torchLightPosition : Vec3 ℝ) ∧
    (3.2 : ℝ) ≤ (torchLightPosition : Vec3 ℝ).y ∧ (torchLightPosition : Vec3 ℝ).y ≤ 4.0 ∧
    (∀ i, i < 36 →
      ((position cubeVerts i).x = 1 / 2 ∨ (position cubeVerts i).x = -(1 / 2)) ∧
      ((position cubeVerts i).y = 0 ∨ (position cubeVerts i).y = 1) ∧
      ((position cubeVerts i).z = 1 / 2 ∨ (position cubeVerts i).z = -(1 / 2))) ∧
    (∀ i, i < 36 →
      ∃ q : Vec3 ℝ, |q.x| ≤ 1 / 2 ∧ 0 ≤ q.y ∧ q.y ≤ 1 ∧ |q.z| ≤ 1 / 2 ∧
        vertexFragmentPos (torchHeadModel ⟨Real.cos, Real.sin, fun t => (Real.sqrt t)⁻¹⟩) q =
          vertexFragmentPos (lightMarkerModel : Mat4 ℝ)
            ⟨((position cubeVerts i).x : ℝ), ((position cubeVerts i).y : ℝ),
             ((position cubeVerts i).z : ℝ)⟩) := by
  have hax : ∀ t : ℝ,
      vertexFragmentPos (torchHeadModel ⟨Real.cos, Real.sin, fun t => (Real.sqrt t)⁻¹⟩)
        ⟨0, t, 0⟩ = ⟨1.4, 3.2 + 0.8 * t, -0.15⟩ := by
    intro t
    refine (drawPlaneModel_apply 0.8 0.8 0.8 1.4 3.2 (-0.15) 5.0 0 t 0).trans ?_
    simp
  refine ⟨?_, ?_, hax, rfl, ?_, ?_, ?_, cubeVerts_corners, ?_⟩
  · rw [drawScene_modelMatrix]
    rfl
  · rw [drawScene_binding]
    rfl
  · rw [hax]
    simp only [torchLightPosition]
    congr 1
    norm_num
  · simp only [torchLightPosition]; norm_num
  · simp only [torchLightPosition]; norm_num
  · intro i hi
    obtain ⟨hx, hy, hz⟩ := cubeVerts_corners i hi
    apply marker_point_in_head
    · show |((position cubeVerts i).x : ℝ)| ≤ 1 / 2
      rcases hx with h | h <;> rw [h] <;> norm_num [abs_le]
    · show (0 : ℝ) ≤ ((position cubeVerts i).y : ℝ)
      rcases hy with h | h <;> rw [h] <;> norm_num
    · show ((position cubeVerts i).y : ℝ) ≤ 1
      rcases hy with h | h <;> rw [h] <;> norm_num
    · show |((position cubeVerts i).z : ℝ)| ≤ 1 / 2
      rcases hz with h | h <;> rw [h] <;> norm_num [abs_le]

/-! ### flipImageVertically: permutation, involution and accesses -/

/-- A read that has a result is inside the buffer and gives the byte stored there. -/
theorem readByte_eq_some {image : List UChar} {k : Int} {v : UChar}
    (h : readByte image k = some v) :
    0 ≤ k ∧ k < image.length ∧ image[k.toNat]? = some v := by
  unfold readByte at h
  split at h
  · rename_i hk
    exact ⟨hk.1, hk.2, h⟩
  · exact absurd h (by simp)

/-- A write that has a result is inside the buffer and stores the byte there. -/
theorem writeByte_eq_some {image out : List UChar} {k : Int} {v : UChar}
    (h : writeByte image k v = some out) :
    0 ≤ k ∧ k < image.length ∧ out = image.set k.toNat v := by
  unfold writeByte at h
  split at h
  · rename_i hk
    exact ⟨hk.1, hk.2, (Option.some.inj h).symm⟩
  · exact absurd h (by simp)

/-- Exchanging two bytes of a buffer permutes it. -/
theorem set_set_perm (l : List UChar) (a b : Nat) (x y : UChar) (ha : l[a]? = some x)
    (hb : l[b]? = some y) : ((l.set a y).set b x).Perm l := by
  obtain ⟨ha1, ha2⟩ := List.getElem?_eq_some.mp ha
  obtain ⟨hb1, hb2⟩ := List.getElem?_eq_some.mp hb
  have hb3 : b < (l.set a y).length := by rw [List.length_set]; exact hb1
  have e : (l.set a y)[b] = y := by
    by_cases hab : a = b
    · subst hab
      exact List.getElem_set_self _
    · rw [List.getElem_set_ne hab]
      exact hb2
  rw [List.perm_iff_count]
  intro z
  rw [List.count_set _ _ _ _ hb3, List.count_set _ _ _ _ ha1, e, ha2]
  have h1 : (if (x == z) = true then 1 else 0) ≤ l.count z := by
    split
    · rename_i hxz
      have hxz2 : x = z := by simpa using hxz
      subst hxz2
      exact List.count_pos_iff.mpr (ha2 ▸ List.getElem_mem ha1)
    · exact Nat.zero_le _
  omega

/-- The inner loop permutes the buffer, whenever it has a result. -/
theorem swapLoop_perm (n : Nat) : ∀ (image : List UChar) (i1 i2 : Int) (out : List UChar),
    swapLoop n image i1 i2 = some out → out.Perm image := by
  induction n with
  | zero =>
    intro image i1 i2 out h
    rw [show swapLoop 0 image i1 i2 = some image from rfl] at h
    rw [← Option.some.inj h]
  | succ n ih =>
    intro image i1 i2 out h
    rw [show swapLoop (n + 1) image i1 i2 =
      (readByte image i1).bind (fun tmp => (readByte image i2).bind (fun v =>
        (writeByte image i1 v).bind (fun image1 => (writeByte image1 i2 tmp).bind (fun image2 =>
          (checkInt (i1 + 1)).bind (fun j1 => (checkInt (i2 + 1)).bind (fun j2 =>
            swapLoop n image2 j1 j2)))))) from rfl] at h
    obtain ⟨tmp, h1, h⟩ := Option.bind_eq_some.mp h
    obtain ⟨v, h2, h⟩ := Option.bind_eq_some.mp h
    obtain ⟨image1, h3, h⟩ := Option.bind_eq_some.mp h
    obtain ⟨image2, h4, h⟩ := Option.bind_eq_some.mp h
    obtain ⟨j1, _, h⟩ := Option.bind_eq_some.mp h
    obtain ⟨j2, _, h⟩ := Option.bind_eq_some.mp h
    obtain ⟨_, _, r1⟩ := readByte_eq_some h1
    obtain ⟨_, _, r2⟩ := readByte_eq_some h2
    obtain ⟨_, _, w1⟩ := writeByte_eq_some h3
    obtain ⟨_, _, w2⟩ := writeByte_eq_some h4
    have hp := set_set_perm image i1.toNat i2.toNat tmp v r1 r2
    rw [← w1, ← w2] at hp
    exact (ih image2 j1 j2 out h).trans hp

/-- The body of the outer loop permutes the buffer, whenever it has a result. -/
theorem flipRow_perm (image out : List UChar) (width height channels j : Int)
    (h : flipRow image width height channels j = some out) : out.Perm image := by
  rw [show flipRow image width height channels j =
    (checkInt (j * width)).bind (fun jw => (checkInt (jw * channels)).bind (fun index1 =>
      (checkInt (height - 1)).bind (fun h1 => (checkInt (h1 - j)).bind (fun h1j =>
        (checkInt (h1j * width)).bind (fun h1jw => (checkInt (h1jw * channels)).bind
          (fun index2 => (checkInt (width * channels)).bind (fun i =>
            swapLoop i.toNat image index1 index2))))))) from rfl] at h
  obtain ⟨jw, _, h⟩ := Option.bind_eq_some.mp h
  obtain ⟨index1, _, h⟩ := Option.bind_eq_some.mp h
  obtain ⟨h1, _, h⟩ := Option.bind_eq_some.mp h
  obtain ⟨h1j, _, h⟩ := Option.bind_eq_some.mp h
  obtain ⟨h1jw, _, h⟩ := Option.bind_eq_some.mp h
  obtain ⟨index2, _, h⟩ := Option.bind_eq_some.mp h
  obtain ⟨i, _, h⟩ := Option.bind_eq_some.mp h
  exact swapLoop_perm _ _ _ _ _ h

/-- The outer loop permutes the buffer, whenever it has a result. -/
theorem flipLoop_perm (width height channels : Int) (n : Nat) :
    ∀ (j : Int) (image out : List UChar),
      flipLoop width height channels n j image = some out → out.Perm image := by
  induction n with
  | zero =>
    intro j image out h
    rw [show flipLoop width height channels 0 j image = some image from rfl] at h
    rw [← Option.some.inj h]
  | succ n ih =>
    intro j image out h
    rw [show flipLoop width height channels (n + 1) j image =
      (flipRow image width height channels j).bind (fun image1 =>
        (checkInt (j + 1)).bind (fun j1 => flipLoop width height channels n j1 image1))
      from rfl] at h
    obtain ⟨image1, h1, h⟩ := Option.bind_eq_some.mp h
    obtain ⟨j1, _, h⟩ := Option.bind_eq_some.mp h
    exact (ih j1 image1 out h).trans (flipRow_perm _ _ _ _ _ _ h1)

/-- The function flipImageVertically permutes the buffer, whenever it has a result. -/
theorem flipImageVertically_perm (image out : List UChar) (width height channels : Int)
    (h : flipImageVertically image width height channels = some out) : out.Perm image :=
  flipLoop_perm width height channels _ _ _ _ h

/-- The body of the outer loop on rows of no bytes (width * channels = 0): when the int
computations fit, the inner loop does not run and the buffer, of whatever length, is returned
as it is. -/
theorem flipRow_of_empty_rows (buf : List UChar) (w h c j : Nat) (hj : 2 * j + 2 ≤ h)
    (hwc : w * c = 0) (hh : h ≤ 2147483647) (hwh : w * h ≤ 2147483647) :
    flipRow buf (w : Int) (h : Int) (c : Int) (j : Int) = some buf := by
  have e1 : j * w ≤ w * h := by
    rw [Nat.mul_comm w h]
    exact Nat.mul_le_mul_right w (by omega)
  have e2 : j * (w * c) = 0 := by rw [hwc, Nat.mul_zero]
  have e3 : (h - 1 - j) * w ≤ w * h := by
    rw [Nat.mul_comm w h]
    exact Nat.mul_le_mul_right w (by omega)
  have e4 : (h - 1 - j) * (w * c) = 0 := by rw [hwc, Nat.mul_zero]
  have c1 : checkInt ((j : Int) * (w : Int)) = some ((j * w : Nat) : Int) := by
    rw [checkInt_of_le (by positivity) (by exact_mod_cast (by omega : j * w ≤ 2147483647))]
    exact congrArg some (by push_cast; ring)
  have c2 : checkInt (((j * w : Nat) : Int) * (c : Int)) = some ((j * (w * c) : Nat) : Int) := by
    rw [checkInt_of_le (by positivity)
      (by rw [← Nat.cast_mul, Nat.mul_assoc, e2]; decide)]
    exact congrArg some (by push_cast; ring)
  have c5 : checkInt (((h - 1 - j : Nat) : Int) * (w : Int)) =
      some (((h - 1 - j) * w : Nat) : Int) := by
    rw [checkInt_of_le (by positivity)
      (by exact_mod_cast (by omega : (h - 1 - j) * w ≤ 2147483647))]
    exact congrArg some (Nat.cast_mul _ _).symm
  have c6 : checkInt ((((h - 1 - j) * w : Nat) : Int) * (c : Int)) =
      some (((h - 1 - j) * (w * c) : Nat) : Int) := by
    rw [checkInt_of_le (by positivity)
      (by rw [← Nat.cast_mul, Nat.mul_assoc, e4]; decide)]
    refine congrArg some ?_
    rw [← Nat.cast_mul, Nat.mul_assoc]
  have c7 : checkInt ((w : Int) * (c : Int)) = some ((w * c : Nat) : Int) := by
    rw [checkInt_of_le (by positivity) (by rw [← Nat.cast_mul, hwc]; decide)]
    exact congrArg some (Nat.cast_mul _ _).symm
  have c3 : checkInt ((h : Int) - 1) = some ((h - 1 : Nat) : Int) := by
    rw [checkInt_of_le (by omega) (by omega)]
    exact congrArg some (by omega)
  have c4 : checkInt (((h - 1 : Nat) : Int) - (j : Int)) = some ((h - 1 - j : Nat) : Int) := by
    rw [checkInt_of_le (by omega) (by omega)]
    exact congrArg some (by omega)
  rw [flipRow]
  simp only [Option.bind_eq_bind]
  rw [c1, Option.some_bind, c2, Option.some_bind, c3, Option.some_bind, c4, Option.some_bind,
    c5, Option.some_bind, c6, Option.some_bind, c7, Option.some_bind, Int.toNat_ofNat, hwc]
  rfl

/-- The outer loop on rows of no bytes: the buffer, of whatever length, is returned as it is. -/
theorem flipLoop_of_empty_rows (w h c : Nat) (hwc : w * c = 0) (hh : h ≤ 2147483647)
    (hwh : w * h ≤ 2147483647) (n : Nat) : ∀ (j : Nat) (buf : List UChar), j + n = h / 2 →
    flipLoop (w : Int) (h : Int) (c : Int) n (j : Int) buf = some buf := by
  induction n with
  | zero =>
    intro j buf _
    rfl
  | succ n ih =>
    intro j buf hjn
    have cj : checkInt ((j : Int) + 1) = some ((j + 1 : Nat) : Int) := by
      rw [checkInt_of_le (by omega) (by omega)]
      rfl
    rw [flipLoop]
    simp only [Option.bind_eq_bind]
    rw [flipRow_of_empty_rows buf w h c j (by omega) hwc hh hwh, Option.some_bind, cj,
      Option.some_bind]
    exact ih (j + 1) buf (by omega)

/-- Half of a height, as the int division height / 2 computes it. -/
theorem tdiv_two_toNat (h : Nat) : (Int.tdiv (h : Int) 2).toNat = h / 2 := by
  have e : Int.tdiv (h : Int) 2 = ((h / 2 : Nat) : Int) := by
    rfl
  rw [e, Int.toNat_ofNat]

/-- Applying flipImageVertically twice to a buffer of width * height * channels bytes whose
sizes fit an int gives the buffer back. -/
theorem flipImageVertically_twice (image : List UChar) (w h c : Nat)
    (hlen : image.length = w * h * c) (hh : h ≤ 2147483647) (hwh : w * h ≤ 2147483647)
    (hwhc : w * h * c ≤ 2147483647) :
    ∃ out, flipImageVertically image (w : Int) (h : Int) (c : Int) = some out ∧
      flipImageVertically out (w : Int) (h : Int) (c : Int) = some image := by
  obtain ⟨out, f1, f2, f3, _⟩ := flipImageVertically_spec image w h c hlen hh hwh hwhc
  obtain ⟨out2, g1, g2, g3, _⟩ := flipImageVertically_spec out w h c (f2.trans hlen) hh hwh hwhc
  have key : ∀ j i, j < h → i < w * c → out2[j * w * c + i]? = image[j * w * c + i]? := by
    intro j i hj hi
    have hk : h - 1 - (h - 1 - j) = j := by omega
    have s1 := (g3 j i hj hi).2
    have s2 := (f3 (h - 1 - j) i (by omega) hi).2
    rw [hk] at s2
    exact s1.trans s2
  refine ⟨out, f1, ?_⟩
  rw [g1]
  refine congrArg some (List.ext_getElem? ?_)
  intro n
  by_cases hn : n < image.length
  · have hL : image.length = h * (w * c) := by rw [hlen]; ring
    have hR : 0 < w * c := by
      rcases Nat.eq_zero_or_pos (w * c) with h0 | h0
      · rw [hL, h0, Nat.mul_zero] at hn
        exact absurd hn (Nat.not_lt_zero n)
      · exact h0
    have hj : n / (w * c) < h := by
      rw [Nat.div_lt_iff_lt_mul hR, ← hL]
      exact hn
    have hi : n % (w * c) < w * c := Nat.mod_lt n hR
    have hn2 : n = n / (w * c) * w * c + n % (w * c) := by
      rw [Nat.mul_assoc, Nat.mul_comm (n / (w * c)) (w * c), Nat.div_add_mod]
    have s := key (n / (w * c)) (n % (w * c)) hj hi
    rw [← hn2] at s
    exact s
  · rw [List.getElem?_eq_none (by omega), List.getElem?_eq_none (by omega)]

/-- C24 (as stated, refuted): for width 50000, height 50000, one channel and a buffer of
50000 * 50000 * 1 bytes the run of flipImageVertically has no result, so neither one nor two
applications return a buffer: in the first pass of the outer loop the int product
(height - 1 - j) * width is 49999 * 50000, above the largest int. -/
theorem flipImageVertically_no_second_run :
    (List.replicate 2500000000 (0 : UChar)).length = 50000 * 50000 * 1 ∧
    (49999 * 50000 : Int) > INT_MAX ∧
    flipImageVertically (List.replicate 2500000000 0) 50000 50000 1 = none := by
  refine ⟨?_, by decide, rfl⟩
  rw [List.length_replicate]

/-- C24 (amended): for all non-negative width w, height h and channel count c for which h,
w * h and w * h * c are at most the largest int, and every buffer of length w * h * c,
flipImageVertically returns a buffer, applying it to that buffer with the same sizes returns
the original one, and the returned buffer is a permutation of the original: it has the same
length and the same bytes with the same multiplicities. -/
theorem flipImageVertically_involution_perm (image : List UChar) (w h c : Nat)
    (hlen : image.length = w * h * c) (hh : h ≤ 2147483647) (hwh : w * h ≤ 2147483647)
    (hwhc : w * h * c ≤ 2147483647) :
    ∃ out, flipImageVertically image (w : Int) (h : Int) (c : Int) = some out ∧
      flipImageVertically out (w : Int) (h : Int) (c : Int) = some image ∧
      out.length = image.length ∧ out.Perm image ∧ ∀ b, out.count b = image.count b := by
  obtain ⟨out, f1, f2⟩ := flipImageVertically_twice image w h c hlen hh hwh hwhc
  have hp := flipImageVertically_perm image out _ _ _ f1
  exact ⟨out, f1, f2, hp.length_eq, hp, fun b => hp.count_eq b⟩

/-- C24 (witness): a 1-wide, 3-high, 2-channel image of 6 bytes. -/
theorem flipImageVertically_involution_perm_witness :
    ([1, 2, 3, 4, 5, 6] : List UChar).length = 1 * 3 * 2 ∧
    ∃ out, flipImageVertically [1, 2, 3, 4, 5, 6] ((1 : Nat) : Int) ((3 : Nat) : Int)
        ((2 : Nat) : Int) = some out ∧
      flipImageVertically out ((1 : Nat) : Int) ((3 : Nat) : Int) ((2 : Nat) : Int) =
        some [1, 2, 3, 4, 5, 6] ∧
      out.length = ([1, 2, 3, 4, 5, 6] : List UChar).length ∧
      out.Perm [1, 2, 3, 4, 5, 6] ∧
      ∀ b, out.count b = ([1, 2, 3, 4, 5, 6] : List UChar).count b :=
  ⟨rfl, flipImageVertically_involution_perm [1, 2, 3, 4, 5, 6] 1 3 2 rfl (by decide)
    (by decide) (by decide)⟩

/-- C25 (as stated, refuted): for width 2, height 2, 1073741824 channels and a buffer of
2 * 2 * 1073741824 bytes the run of flipImageVertically has no result: in the first pass of
the outer loop the int product (height - 1 - j) * width * channels is 2 * 1073741824, above
the largest int, so the index of the second row is not a valid int, let alone one inside the
buffer. -/
theorem flipImageVertically_index_overflow :
    (List.replicate 4294967296 (0 : UChar)).length = 2 * 2 * 1073741824 ∧
    (2 * 1073741824 : Int) > INT_MAX ∧
    flipImageVertically (List.replicate 4294967296 0) 2 2 1073741824 = none := by
  refine ⟨?_, by decide, rfl⟩
  rw [List.length_replicate]

/-- C25 (amended): for all non-negative width w, height h and channel count c for which h,
w * h and w * h * c are at most the largest int, and a buffer of length exactly w * h * c, the
run of flipImageVertically has a result. Having a result means that no read or write left the
buffer: a read or write of this development has a result only at an index from 0 up to, and not
including, the buffer's length, here w * h * c. When h <= 1 the run returns any buffer of
any length unchanged, and so does it when w * c = 0: no byte is read or written, for a read or
write of the empty buffer has no result. -/
theorem flipImageVertically_in_bounds (image : List UChar) (w h c : Nat)
    (hlen : image.length = w * h * c) (hh : h ≤ 2147483647) (hwh : w * h ≤ 2147483647)
    (hwhc : w * h * c ≤ 2147483647) :
    (∃ out, flipImageVertically image (w : Int) (h : Int) (c : Int) = some out) ∧
    (∀ (buf : List UChar) (k : Int) (v : UChar), readByte buf k = some v →
      0 ≤ k ∧ k < buf.length) ∧
    (∀ (buf out : List UChar) (k : Int) (v : UChar), writeByte buf k v = some out →
      0 ≤ k ∧ k < buf.length) ∧
    (∀ (k : Int) (v : UChar), readByte [] k = none ∧ writeByte [] k v = none) ∧
    (h ≤ 1 → ∀ buf : List UChar,
      flipImageVertically buf (w : Int) (h : Int) (c : Int) = some buf) ∧
    (w * c = 0 → ∀ buf : List UChar,
      flipImageVertically buf (w : Int) (h : Int) (c : Int) = some buf) := by
  obtain ⟨out, f1, _⟩ := flipImageVertically_spec image w h c hlen hh hwh hwhc
  refine ⟨⟨out, f1⟩, ?_, ?_, ?_, ?_, ?_⟩
  · intro buf k v hr
    obtain ⟨h0, h1, _⟩ := readByte_eq_some hr
    exact ⟨h0, h1⟩
  · intro buf out2 k v hw
    obtain ⟨h0, h1, _⟩ := writeByte_eq_some hw
    exact ⟨h0, h1⟩
  · intro k v
    constructor
    · unfold readByte
      rw [if_neg]
      rw [List.length_nil]
      omega
    · unfold writeByte
      rw [if_neg]
      rw [List.length_nil]
      omega
  · intro h1 buf
    have e : h / 2 = 0 := by omega
    rw [flipImageVertically, tdiv_two_toNat, e]
    rfl
  · intro hwc buf
    rw [flipImageVertically, tdiv_two_toNat]
    exact flipLoop_of_empty_rows w h c hwc hh hwh (h / 2) 0 buf (by omega)

/-- C25 (witness): a 1-wide, 3-high, 2-channel image of 6 bytes has a result, and a 1-high
image of any size is returned unchanged. -/
theorem flipImageVertically_in_bounds_witness :
    ([1, 2, 3, 4, 5, 6] : List UChar).length = 1 * 3 * 2 ∧
    (∃ out, flipImageVertically [1, 2, 3, 4, 5, 6] ((1 : Nat) : Int) ((3 : Nat) : Int)
        ((2 : Nat) : Int) = some out) ∧
    (([7, 8] : List UChar).length = 2 * 1 * 1 ∧
      ∀ buf : List UChar,
        flipImageVertically buf ((2 : Nat) : Int) ((1 : Nat) : Int) ((1 : Nat) : Int) =
          some buf) :=
  ⟨rfl,
   (flipImageVertically_in_bounds [1, 2, 3, 4, 5, 6] 1 3 2 rfl (by decide) (by decide)
    (by decide)).1,
   rfl,
   (flipImageVertically_in_bounds [7, 8] 2 1 1 rfl (by decide) (by decide)
    (by decide)).2.2.2.2.1 (by decide)⟩

/-! ### UCreateShaderProgram -/

section ShaderLemmas

variable {α κ : Type} (drv : Driver) (vtx frag : ShaderSource) (w : World α κ)

/-- The run of UCreateShaderProgram when the vertex shader does not compile: the fragment
shader is not compiled and the program is not linked. -/
theorem UCreateShaderProgram_vertex_fails (hv : drv.compiles vtx = false) :
    (UCreateShaderProgram drv vtx frag w).1 = false ∧
    (UCreateShaderProgram drv vtx frag w).2.2.compileStatus (w.names + 2) = some false ∧
    (∀ s, s ≠ w.names + 2 →
      (UCreateShaderProgram drv vtx frag w).2.2.compileStatus s = w.compileStatus s) ∧
    (UCreateShaderProgram drv vtx frag w).2.2.linkStatus = w.linkStatus ∧
    (UCreateShaderProgram drv vtx frag w).2.2.attached = w.attached ∧
    (UCreateShaderProgram drv vtx frag w).2.2.cout =
      w.cout ++ ["ERROR::SHADER::VERTEX::COMPILATION_FAILED", drv.shaderInfoLog vtx] := by
  simp [UCreateShaderProgram, glCreateProgram, glCreateShader, glGen, glShaderSource,
    glCompileShader, glGetShaderiv, glGetShaderInfoLog, hv]
  intro s hs h
  exact absurd h hs

/-- The run of UCreateShaderProgram when the vertex shader compiles and the fragment shader
does not: the program is not linked. -/
theorem UCreateShaderProgram_fragment_fails (hv : drv.compiles vtx = true)
    (hf : drv.compiles frag = false) :
    (UCreateShaderProgram drv vtx frag w).1 = false ∧
    (UCreateShaderProgram drv vtx frag w).2.2.compileStatus (w.names + 2) = some true ∧
    (UCreateShaderProgram drv vtx frag w).2.2.compileStatus (w.names + 3) = some false ∧
    (UCreateShaderProgram drv vtx frag w).2.2.linkStatus = w.linkStatus ∧
    (UCreateShaderProgram drv vtx frag w).2.2.attached = w.attached ∧
    (UCreateShaderProgram drv vtx frag w).2.2.cout =
      w.cout ++ ["ERROR::SHADER::FRAGMENT::COMPILATION_FAILED", drv.shaderInfoLog frag] := by
  simp [UCreateShaderProgram, glCreateProgram, glCreateShader, glGen, glShaderSource,
    glCompileShader, glGetShaderiv, glGetShaderInfoLog, hv, hf]

/-- The run of UCreateShaderProgram when both shaders compile, for a program name that has no
shader attached yet: both are attached, the program is linked, and the result is the link
status. -/
theorem UCreateShaderProgram_linked (hv : drv.compiles vtx = true)
    (hf : drv.compiles frag = true) (hfresh : w.attached (w.names + 1) = []) :
    (UCreateShaderProgram drv vtx frag w).1 = drv.links [vtx, frag] ∧
    (UCreateShaderProgram drv vtx frag w).2.2.compileStatus (w.names + 2) = some true ∧
    (UCreateShaderProgram drv vtx frag w).2.2.compileStatus (w.names + 3) = some true ∧
    (UCreateShaderProgram drv vtx frag w).2.2.attached (w.names + 1) =
      [w.names + 2, w.names + 3] ∧
    (UCreateShaderProgram drv vtx frag w).2.2.linkStatus (w.names + 1) =
      some (drv.links [vtx, frag]) := by
  cases hl : drv.links [vtx, frag] <;>
    simp [UCreateShaderProgram, glCreateProgram, glCreateShader, glGen, glShaderSource,
      glCompileShader, glGetShaderiv, glGetShaderInfoLog, glAttachShader, glLinkProgram,
      glGetProgramiv, glGetProgramInfoLog, attachedSources, glUseProgram, hv, hf, hfresh, hl]

/-- The end of the run of UCreateShaderProgram when both shaders compile, for a program name
that has no shader attached yet: a failed link writes its message and the program's info log,
a successful one is followed by glUseProgram(programId). -/
theorem UCreateShaderProgram_link_result (hv : drv.compiles vtx = true)
    (hf : drv.compiles frag = true) (hfresh : w.attached (w.names + 1) = []) :
    (drv.links [vtx, frag] = false →
      (UCreateShaderProgram drv vtx frag w).2.2.cout =
        w.cout ++ ["ERROR::SHADER::PROGRAM::LINKING_FAILED", drv.programInfoLog [vtx, frag]]) ∧
    (drv.links [vtx, frag] = true →
      (UCreateShaderProgram drv vtx frag w).2.2.currentProgram = w.names + 1 ∧
      (UCreateShaderProgram drv vtx frag w).2.2.cout = w.cout) := by
  constructor <;> intro hl <;>
    simp [UCreateShaderProgram, glCreateProgram, glCreateShader, glGen, glShaderSource,
      glCompileShader, glGetShaderiv, glGetShaderInfoLog, glAttachShader, glLinkProgram,
      glGetProgramiv, glGetProgramInfoLog, attachedSources, glUseProgram, hv, hf, hfresh, hl]

/-- The name UCreateShaderProgram stores in programId, and the names it uses up. -/
theorem UCreateShaderProgram_names :
    (UCreateShaderProgram drv vtx frag w).2.1 = w.names + 1 ∧
    (UCreateShaderProgram drv vtx frag w).2.2.names = w.names + 3 := by
  simp only [UCreateShaderProgram]
  split_ifs <;> exact ⟨rfl, rfl⟩

end ShaderLemmas

/-- C21: for a program name that has no shader attached yet, UCreateShaderProgram returns
true exactly when the vertex shader compiles, the fragment shader compiles and the program
links. The vertex shader (the name after the program's) is always compiled. When it does not
compile, the function returns false after writing the vertex message and the shader's info
log: no other shader's compile status and no program's link status has changed, so neither
the fragment compile nor the link was attempted. When it compiles, the fragment shader is
compiled; when that fails, the function returns false after writing the fragment message and
info log, and no program's link status has changed. When both compile they are attached and
the program is linked: the result is the link status, a failed link writes the linking
message and the program's info log, and a successful one leaves the program in use. -/
theorem UCreateShaderProgram_succeeds_iff_stages {α κ : Type} (drv : Driver)
    (vtx frag : ShaderSource) (w : World α κ) (hfresh : w.attached (w.names + 1) = []) :
    ((UCreateShaderProgram drv vtx frag w).1 = true ↔
      drv.compiles vtx = true ∧ drv.compiles frag = true ∧ drv.links [vtx, frag] = true) ∧
    (UCreateShaderProgram drv vtx frag w).2.1 = w.names + 1 ∧
    (UCreateShaderProgram drv vtx frag w).2.2.compileStatus (w.names + 2) =
      some (drv.compiles vtx) ∧
    (drv.compiles vtx = false →
      (UCreateShaderProgram drv vtx frag w).1 = false ∧
      (∀ s, s ≠ w.names + 2 →
        (UCreateShaderProgram drv vtx frag w).2.2.compileStatus s = w.compileStatus s) ∧
      (UCreateShaderProgram drv vtx frag w).2.2.linkStatus = w.linkStatus ∧
      (UCreateShaderProgram drv vtx frag w).2.2.cout =
        w.cout ++ ["ERROR::SHADER::VERTEX::COMPILATION_FAILED", drv.shaderInfoLog vtx]) ∧
    (drv.compiles vtx = true →
      (UCreateShaderProgram drv vtx frag w).2.2.compileStatus (w.names + 3) =
        some (drv.compiles frag)) ∧
    (drv.compiles vtx = true → drv.compiles frag = false →
      (UCreateShaderProgram drv vtx frag w).1 = false ∧
      (UCreateShaderProgram drv vtx frag w).2.2.linkStatus = w.linkStatus ∧
      (UCreateShaderProgram drv vtx frag w).2.2.cout =
        w.cout ++ ["ERROR::SHADER::FRAGMENT::COMPILATION_FAILED", drv.shaderInfoLog frag]) ∧
    (drv.compiles vtx = true → drv.compiles frag = true →
      (UCreateShaderProgram drv vtx frag w).1 = drv.links [vtx, frag] ∧
      (UCreateShaderProgram drv vtx frag w).2.2.attached (w.names + 1) =
        [w.names + 2, w.names + 3] ∧
      (UCreateShaderProgram drv vtx frag w).2.2.linkStatus (w.names + 1) =
        some (drv.links [vtx, frag]) ∧
      (drv.links [vtx, frag] = false →
        (UCreateShaderProgram drv vtx frag w).2.2.cout =
          w.cout ++
            ["ERROR::SHADER::PROGRAM::LINKING_FAILED", drv.programInfoLog [vtx, frag]]) ∧
      (drv.links [vtx, frag] = true →
        (UCreateShaderProgram drv vtx frag w).2.2.currentProgram = w.names + 1)) := by
  have hn := (UCreateShaderProgram_names drv vtx frag w).1
  cases hv : drv.compiles vtx with
  | false =>
    obtain ⟨a1, a2, a3, a4, _, a6⟩ := UCreateShaderProgram_vertex_fails drv vtx frag w hv
    refine ⟨?_, hn, a2, fun _ => ⟨a1, a3, a4, a6⟩, ?_, ?_, ?_⟩
    · rw [a1]
      simp
    · intro h
      exact absurd h (by simp)
    · intro h
      exact absurd h (by simp)
    · intro h
      exact absurd h (by simp)
  | true =>
    cases hf : drv.compiles frag with
    | false =>
      obtain ⟨a1, a2, a3, a4, _, a6⟩ :=
        UCreateShaderProgram_fragment_fails drv vtx frag w hv hf
      refine ⟨?_, hn, a2, ?_, fun _ => a3, fun _ _ => ⟨a1, a4, a6⟩, ?_⟩
      · rw [a1]
        simp
      · intro h
        exact absurd h (by simp)
      · intro _ h
        exact absurd h (by simp)
    | true =>
      obtain ⟨a1, a2, a3, a4, a5⟩ := UCreateShaderProgram_linked drv vtx frag w hv hf hfresh
      obtain ⟨b1, b2⟩ := UCreateShaderProgram_link_result drv vtx frag w hv hf hfresh
      refine ⟨?_, hn, a2, ?_, fun _ => a3, ?_, fun _ _ => ⟨a1, a4, a5, b1, fun h => (b2 h).1⟩⟩
      · rw [a1]
        simp
      · intro h
        exact absurd h (by simp)
      · intro _ h
        exact absurd h (by simp)

/-- C21 (witness): from the start-up state, with a driver that rejects the vertex shader, the
function returns false, the fragment shader (name 3) has no compile status and the program
(name 1) no link status. -/
theorem UCreateShaderProgram_succeeds_iff_stages_witness :
    (initialWorld (⟨0, 1.5, 7⟩, 45) : World ℚ (Vec3 ℚ × ℚ)).attached
      ((initialWorld (⟨0, 1.5, 7⟩, 45) : World ℚ (Vec3 ℚ × ℚ)).names + 1) = [] ∧
    (UCreateShaderProgram brokenVertexDriver ShaderSource.vertexShaderSource
      ShaderSource.fragmentShaderSource
      (initialWorld (⟨0, 1.5, 7⟩, 45) : World ℚ (Vec3 ℚ × ℚ))).1 = false ∧
    (UCreateShaderProgram brokenVertexDriver ShaderSource.vertexShaderSource
      ShaderSource.fragmentShaderSource
      (initialWorld (⟨0, 1.5, 7⟩, 45) : World ℚ (Vec3 ℚ × ℚ))).2.2.compileStatus 3 = none ∧
    (UCreateShaderProgram brokenVertexDriver ShaderSource.vertexShaderSource
      ShaderSource.fragmentShaderSource
      (initialWorld (⟨0, 1.5, 7⟩, 45) : World ℚ (Vec3 ℚ × ℚ))).2.2.linkStatus 1 = none :=
  have h := UCreateShaderProgram_succeeds_iff_stages brokenVertexDriver
    ShaderSource.vertexShaderSource ShaderSource.fragmentShaderSource
    (initialWorld (⟨0, 1.5, 7⟩, 45) : World ℚ (Vec3 ℚ × ℚ)) rfl
  ⟨rfl, (h.2.2.2.1 rfl).1, ((h.2.2.2.1 rfl).2.1 3 (by decide)).trans rfl,
    (congrFun (h.2.2.2.1 rfl).2.2.1 1).trans rfl⟩

/-! ### The start-up of main -/

section StartupLemmas

variable {α κ : Type} (drv : Driver) (w : World α κ)

/-- The result of UInitialize, and what it leaves alone. -/
theorem UInitialize_result :
    (UInitialize drv w).1 = (drv.windowCreated && drv.glewOk) ∧
    (UInitialize drv w).2.draws = w.draws ∧
    (UInitialize drv w).2.windowShouldClose = w.windowShouldClose ∧
    (UInitialize drv w).2.attached = w.attached ∧
    (UInitialize drv w).2.names = w.names := by
  unfold UInitialize
  cases drv.windowCreated <;> cases drv.glewOk <;> exact ⟨rfl, rfl, rfl, rfl, rfl⟩

/-- What UCreateShaderProgram leaves alone: the draws, the window's close flag, and the
shaders attached to every program but the new one. -/
theorem UCreateShaderProgram_frame (vtx frag : ShaderSource) :
    (UCreateShaderProgram drv vtx frag w).2.2.draws = w.draws ∧
    (UCreateShaderProgram drv vtx frag w).2.2.windowShouldClose = w.windowShouldClose ∧
    (∀ n, n ≠ w.names + 1 →
      (UCreateShaderProgram drv vtx frag w).2.2.attached n = w.attached n) := by
  refine ⟨?_, ?_, ?_⟩
  · simp only [UCreateShaderProgram]
    split_ifs <;>
      simp only [glAttachShader, glLinkProgram, glCompileShader, glShaderSource, glCreateShader,
        glCreateProgram, glGen, glUseProgram]
  · simp only [UCreateShaderProgram]
    split_ifs <;>
      simp only [glAttachShader, glLinkProgram, glCompileShader, glShaderSource, glCreateShader,
        glCreateProgram, glGen, glUseProgram]
  · intro n hn
    simp only [UCreateShaderProgram]
    split_ifs <;>
      simp [glAttachShader, glLinkProgram, glCompileShader, glShaderSource, glCreateShader,
        glCreateProgram, glGen, glUseProgram, hn]

/-- The result of UCreateShaderProgram for a program name that has no shader attached yet. -/
theorem UCreateShaderProgram_result (vtx frag : ShaderSource)
    (hfresh : w.attached (w.names + 1) = []) :
    (UCreateShaderProgram drv vtx frag w).1 = drv.builds vtx frag := by
  unfold Driver.builds
  cases hv : drv.compiles vtx with
  | false => rw [(UCreateShaderProgram_vertex_fails drv vtx frag w hv).1]; rfl
  | true =>
    cases hf : drv.compiles frag with
    | false => rw [(UCreateShaderProgram_fragment_fails drv vtx frag w hv hf).1]; rfl
    | true =>
      rw [(UCreateShaderProgram_linked drv vtx frag w hv hf hfresh).1]
      simp

/-- With a decoder that returns well-formed images UCreateTexture has a result. -/
theorem UCreateTexture_ne_none (filename : String) (textureId : Nat)
    (hwf : ∀ f img, drv.stbi_load f = some img → img.WellFormed) :
    UCreateTexture drv.stbi_load filename textureId w ≠ none := by
  cases hl : drv.stbi_load filename with
  | none =>
    rw [UCreateTexture_not_decoded drv.stbi_load filename textureId w hl]
    simp
  | some img =>
    obtain ⟨flipped, hf⟩ := flipImageVertically_of_wellFormed img (hwf _ img hl)
    by_cases h3 : img.channels = 3
    · rw [UCreateTexture_rgb drv.stbi_load filename textureId w img flipped hl hf h3]
      simp
    · by_cases h4 : img.channels = 4
      · rw [UCreateTexture_rgba drv.stbi_load filename textureId w img flipped hl hf h4]
        simp
      · rw [UCreateTexture_unsupported drv.stbi_load filename textureId w img flipped hl hf h3
          h4]
        simp

/-- An upload on the prepared state, or the prepared state with a line on cout, has the draws,
the close flag, the shader attachments of the state before. -/
theorem texturePrepared_frame (fmt : InternalFormat) (width height : Int)
    (pixels : List UChar) (line : String) :
    (glBindTexture 0 (glGenerateMipmap (glTexImage2D fmt width height pixels
      (texturePrepared w)))).draws = w.draws ∧
    (glBindTexture 0 (glGenerateMipmap (glTexImage2D fmt width height pixels
      (texturePrepared w)))).windowShouldClose = w.windowShouldClose ∧
    ({ texturePrepared w with cout := w.cout ++ [line] } : World α κ).draws = w.draws ∧
    ({ texturePrepared w with cout := w.cout ++ [line] } : World α κ).windowShouldClose =
      w.windowShouldClose := by
  simp only [glBindTexture, glGenerateMipmap, glTexImage2D, glTexParameteri, texturePrepared,
    glGen, glGenTextures, and_self]

/-- The bool UCreateTexture returns, and what it leaves alone. -/
theorem UCreateTexture_some (filename : String) (textureId : Nat) (ok : Bool) (tid : Nat)
    (w2 : World α κ)
    (h : UCreateTexture drv.stbi_load filename textureId w = some (ok, tid, w2)) :
    ok = drv.loads filename ∧ w2.draws = w.draws ∧
      w2.windowShouldClose = w.windowShouldClose := by
  unfold Driver.loads
  cases hl : drv.stbi_load filename with
  | none =>
    rw [UCreateTexture_not_decoded drv.stbi_load filename textureId w hl] at h
    simp only [Option.some.injEq, Prod.mk.injEq] at h
    rw [← h.2.2, ← h.1]
    exact ⟨rfl, rfl, rfl⟩
  | some img =>
    cases hf : flipImageVertically img.data img.width img.height img.channels with
    | none =>
      simp only [UCreateTexture, hl, Option.bind_eq_bind] at h
      rw [hf] at h
      simp at h
    | some flipped =>
      by_cases h3 : img.channels = 3
      · rw [UCreateTexture_rgb drv.stbi_load filename textureId w img flipped hl hf h3] at h
        simp only [Option.some.injEq, Prod.mk.injEq] at h
        rw [← h.2.2, ← h.1]
        exact ⟨by simp [h3], (texturePrepared_frame w _ _ _ _ "").1,
          (texturePrepared_frame w _ _ _ _ "").2.1⟩
      · by_cases h4 : img.channels = 4
        · rw [UCreateTexture_rgba drv.stbi_load filename textureId w img flipped hl hf h4] at h
          simp only [Option.some.injEq, Prod.mk.injEq] at h
          rw [← h.2.2, ← h.1]
          exact ⟨by simp [h4], (texturePrepared_frame w _ _ _ _ "").1,
            (texturePrepared_frame w _ _ _ _ "").2.1⟩
        · rw [UCreateTexture_unsupported drv.stbi_load filename textureId w img flipped hl hf h3
            h4] at h
          simp only [Option.some.injEq, Prod.mk.injEq] at h
          rw [← h.2.2, ← h.1]
          exact ⟨by simp [h3, h4], (texturePrepared_frame w InternalFormat.RGB8 0 0 [] _).2.2.1,
            (texturePrepared_frame w InternalFormat.RGB8 0 0 [] _).2.2.2⟩

end StartupLemmas

section StartupMain

variable {α κ : Type} (drv : Driver) (w : World α κ)

/-- What the five mesh builders leave alone, and the names they use up. -/
theorem createMeshes_frame {α κ : Type} [Field α] (w : World α κ) :
    (createMeshes w).draws = w.draws ∧
    (createMeshes w).windowShouldClose = w.windowShouldClose ∧
    (createMeshes w).attached = w.attached ∧
    (createMeshes w).names = w.names + 10 := by
  simp only [createMeshes, genMesh, glGen, glGenVertexArrays, glGenBuffers, glBindVertexArray,
    glBindBuffer, true_and]

/-- The last texture load of main, with a decoder that returns well-formed images: either it
fails and the run ends with EXIT_FAILURE, or the render loop can start. -/
theorem mainLoadPlastic_spec
    (hwf : ∀ f img, drv.stbi_load f = some img → img.WellFormed) :
    (∃ w2, mainLoadPlastic drv w = Except.error (Outcome.exited EXIT_FAILURE w2) ∧
      drv.loads filenamePlastic = false ∧ w2.draws = w.draws) ∨
    (∃ w2, mainLoadPlastic drv w = Except.ok w2 ∧ drv.loads filenamePlastic = true ∧
      w2.draws = w.draws ∧ w2.windowShouldClose = w.windowShouldClose) := by
  unfold mainLoadPlastic
  split
  · rename_i heq
    exact absurd heq (UCreateTexture_ne_none drv _ _ _ hwf)
  · rename_i tid1 w1 heq1
    obtain ⟨hok1, hd1, _⟩ := UCreateTexture_some drv _ _ _ _ _ _ heq1
    exact Or.inl ⟨_, rfl, hok1.symm, hd1⟩
  · rename_i tid1 w1 heq1
    obtain ⟨hok1, hd1, hc1⟩ := UCreateTexture_some drv _ _ _ _ _ _ heq1
    exact Or.inr ⟨_, rfl, hok1.symm, hd1, hc1⟩

/-- The texture loads of main from filenameBirch on, with a decoder that returns well-formed images:
either a load fails and the run ends with EXIT_FAILURE, or the render loop can start. -/
theorem mainLoadBirch_spec
    (hwf : ∀ f img, drv.stbi_load f = some img → img.WellFormed) :
    (∃ w2, mainLoadBirch drv w = Except.error (Outcome.exited EXIT_FAILURE w2) ∧
      (drv.loads filenameBirch && drv.loads filenamePlastic) = false ∧ w2.draws = w.draws) ∨
    (∃ w2, mainLoadBirch drv w = Except.ok w2 ∧
      (drv.loads filenameBirch && drv.loads filenamePlastic) = true ∧
      w2.draws = w.draws ∧ w2.windowShouldClose = w.windowShouldClose) := by
  unfold mainLoadBirch
  split
  · rename_i heq
    exact absurd heq (UCreateTexture_ne_none drv _ _ _ hwf)
  · rename_i tid1 w1 heq1
    obtain ⟨hok1, hd1, _⟩ := UCreateTexture_some drv _ _ _ _ _ _ heq1
    exact Or.inl ⟨_, rfl, by rw [← hok1]; rfl, hd1⟩
  · rename_i tid1 w1 heq1
    obtain ⟨hok1, hd1, hc1⟩ := UCreateTexture_some drv _ _ _ _ _ _ heq1
    rcases mainLoadPlastic_spec drv _ hwf with ⟨w2, e, hl, hd2⟩ | ⟨w2, e, hl, hd2, hc2⟩
    · exact Or.inl ⟨w2, e, by rw [← hok1, hl]; rfl, hd2.trans hd1⟩
    · exact Or.inr ⟨w2, e, by rw [← hok1, hl]; rfl, hd2.trans hd1, hc2.trans hc1⟩

/-- The texture loads of main from filenameShinyBlue on, with a decoder that returns well-formed images:
either a load fails and the run ends with EXIT_FAILURE, or the render loop can start. -/
theorem mainLoadShinyBlue_spec
    (hwf : ∀ f img, drv.stbi_load f = some img → img.WellFormed) :
    (∃ w2, mainLoadShinyBlue drv w = Except.error (Outcome.exited EXIT_FAILURE w2) ∧
      (drv.loads filenameShinyBlue && (drv.loads filenameBirch && drv.loads filenamePlastic)) = false ∧ w2.draws = w.draws) ∨
    (∃ w2, mainLoadShinyBlue drv w = Except.ok w2 ∧
      (drv.loads filenameShinyBlue && (drv.loads filenameBirch && drv.loads filenamePlastic)) = true ∧
      w2.draws = w.draws ∧ w2.windowShouldClose = w.windowShouldClose) := by
  unfold mainLoadShinyBlue
  split
  · rename_i heq
    exact absurd heq (UCreateTexture_ne_none drv _ _ _ hwf)
  · rename_i tid1 w1 heq1
    obtain ⟨hok1, hd1, _⟩ := UCreateTexture_some drv _ _ _ _ _ _ heq1
    exact Or.inl ⟨_, rfl, by rw [← hok1]; rfl, hd1⟩
  · rename_i tid1 w1 heq1
    obtain ⟨hok1, hd1, hc1⟩ := UCreateTexture_some drv _ _ _ _ _ _ heq1
    rcases mainLoadBirch_spec drv _ hwf with ⟨w2, e, hl, hd2⟩ | ⟨w2, e, hl, hd2, hc2⟩
    · exact Or.inl ⟨w2, e, by rw [← hok1, hl]; rfl, hd2.trans hd1⟩
    · exact Or.inr ⟨w2, e, by rw [← hok1, hl]; rfl, hd2.trans hd1, hc2.trans hc1⟩

/-- The texture loads of main from filenameTorchLight on, with a decoder that returns well-formed images:
either a load fails and the run ends with EXIT_FAILURE, or the render loop can start. -/
theorem mainLoadTorchLight_spec
    (hwf : ∀ f img, drv.stbi_load f = some img → img.WellFormed) :
    (∃ w2, mainLoadTorchLight drv w = Except.error (Outcome.exited EXIT_FAILURE w2) ∧
      (drv.loads filenameTorchLight && (drv.loads filenameShinyBlue && (drv.loads filenameBirch && drv.loads filenamePlastic))) = false ∧ w2.draws = w.draws) ∨
    (∃ w2, mainLoadTorchLight drv w = Except.ok w2 ∧
      (drv.loads filenameTorchLight && (drv.loads filenameShinyBlue && (drv.loads filenameBirch && drv.loads filenamePlastic))) = true ∧
      w2.draws = w.draws ∧ w2.windowShouldClose = w.windowShouldClose) := by
  unfold mainLoadTorchLight
  split
  · rename_i heq
    exact absurd heq (UCreateTexture_ne_none drv _ _ _ hwf)
  · rename_i tid1 w1 heq1
    obtain ⟨hok1, hd1, _⟩ := UCreateTexture_some drv _ _ _ _ _ _ heq1
    exact Or.inl ⟨_, rfl, by rw [← hok1]; rfl, hd1⟩
  · rename_i tid1 w1 heq1
    obtain ⟨hok1, hd1, hc1⟩ := UCreateTexture_some drv _ _ _ _ _ _ heq1
    rcases mainLoadShinyBlue_spec drv _ hwf with ⟨w2, e, hl, hd2⟩ | ⟨w2, e, hl, hd2, hc2⟩
    · exact Or.inl ⟨w2, e, by rw [← hok1, hl]; rfl, hd2.trans hd1⟩
    · exact Or.inr ⟨w2, e, by rw [← hok1, hl]; rfl, hd2.trans hd1, hc2.trans hc1⟩

/-- The texture loads of main from filenameTorchHandle on, with a decoder that returns well-formed images:
either a load fails and the run ends with EXIT_FAILURE, or the render loop can start. -/
theorem mainLoadTextures_spec
    (hwf : ∀ f img, drv.stbi_load f = some img → img.WellFormed) :
    (∃ w2, mainLoadTextures drv w = Except.error (Outcome.exited EXIT_FAILURE w2) ∧
      (drv.loads filenameTorchHandle && (drv.loads filenameTorchLight && (drv.loads filenameShinyBlue && (drv.loads filenameBirch && drv.loads filenamePlastic)))) = false ∧ w2.draws = w.draws) ∨
    (∃ w2, mainLoadTextures drv w = Except.ok w2 ∧
      (drv.loads filenameTorchHandle && (drv.loads filenameTorchLight && (drv.loads filenameShinyBlue && (drv.loads filenameBirch && drv.loads filenamePlastic)))) = true ∧
      w2.draws = w.draws ∧ w2.windowShouldClose = w.windowShouldClose) := by
  unfold mainLoadTextures
  split
  · rename_i heq
    exact absurd heq (UCreateTexture_ne_none drv _ _ _ hwf)
  · rename_i tid1 w1 heq1
    obtain ⟨hok1, hd1, _⟩ := UCreateTexture_some drv _ _ _ _ _ _ heq1
    exact Or.inl ⟨_, rfl, by rw [← hok1]; rfl, hd1⟩
  · rename_i tid1 w1 heq1
    obtain ⟨hok1, hd1, hc1⟩ := UCreateTexture_some drv _ _ _ _ _ _ heq1
    rcases mainLoadTorchLight_spec drv _ hwf with ⟨w2, e, hl, hd2⟩ | ⟨w2, e, hl, hd2, hc2⟩
    · exact Or.inl ⟨w2, e, by rw [← hok1, hl]; rfl, hd2.trans hd1⟩
    · exact Or.inr ⟨w2, e, by rw [← hok1, hl]; rfl, hd2.trans hd1, hc2.trans hc1⟩

/-- The five loads taken in order succeed exactly when all five texture files load. -/
theorem loadsTextures_eq :
    (drv.loads filenameTorchHandle && (drv.loads filenameTorchLight &&
      (drv.loads filenameShinyBlue && (drv.loads filenameBirch &&
        drv.loads filenamePlastic)))) = drv.loadsTextures := by
  unfold Driver.loadsTextures
  simp only [Bool.and_assoc]

/-- The creation of the light program and what follows it in main's start-up, for a new
program name that has no shader attached yet. -/
theorem mainCreateLightProgram_spec
    (hwf : ∀ f img, drv.stbi_load f = some img → img.WellFormed)
    (hfresh : w.attached (w.names + 1) = []) :
    (∃ w2, mainCreateLightProgram drv w = Except.error (Outcome.exited EXIT_FAILURE w2) ∧
      (drv.builds ShaderSource.lightVertexShaderSource ShaderSource.lightFragmentShaderSource &&
        drv.loadsTextures) = false ∧ w2.draws = w.draws) ∨
    (∃ w2, mainCreateLightProgram drv w = Except.ok w2 ∧
      (drv.builds ShaderSource.lightVertexShaderSource ShaderSource.lightFragmentShaderSource &&
        drv.loadsTextures) = true ∧
      w2.draws = w.draws ∧ w2.windowShouldClose = w.windowShouldClose) := by
  have hr := UCreateShaderProgram_result drv w ShaderSource.lightVertexShaderSource
    ShaderSource.lightFragmentShaderSource hfresh
  obtain ⟨hd, hc, _⟩ := UCreateShaderProgram_frame drv w ShaderSource.lightVertexShaderSource
    ShaderSource.lightFragmentShaderSource
  unfold mainCreateLightProgram
  split
  · rename_i pid w1 heq
    rw [heq] at hr hd
    exact Or.inl ⟨_, rfl, by rw [← hr]; rfl, hd⟩
  · rename_i pid w1 heq
    rw [heq] at hr hd hc
    rcases mainLoadTextures_spec drv _ hwf with ⟨w2, e, hl, hd2⟩ | ⟨w2, e, hl, hd2, hc2⟩
    · rw [loadsTextures_eq] at hl
      exact Or.inl ⟨w2, e, by rw [← hr, hl]; rfl, hd2.trans hd⟩
    · rw [loadsTextures_eq] at hl
      exact Or.inr ⟨w2, e, by rw [← hr, hl]; rfl, hd2.trans hd, hc2.trans hc⟩

/-- The creation of the two programs and what follows it in main's start-up, from a state
in which no name that is still to be handed out has a shader attached. -/
theorem mainCreatePrograms_spec
    (hwf : ∀ f img, drv.stbi_load f = some img → img.WellFormed)
    (hfresh : ∀ n, w.names < n → w.attached n = []) :
    (∃ w2, mainCreatePrograms drv w = Except.error (Outcome.exited EXIT_FAILURE w2) ∧
      (drv.buildsPrograms && drv.loadsTextures) = false ∧ w2.draws = w.draws) ∨
    (∃ w2, mainCreatePrograms drv w = Except.ok w2 ∧
      (drv.buildsPrograms && drv.loadsTextures) = true ∧
      w2.draws = w.draws ∧ w2.windowShouldClose = w.windowShouldClose) := by
  have hr := UCreateShaderProgram_result drv w ShaderSource.vertexShaderSource
    ShaderSource.fragmentShaderSource (hfresh _ (Nat.lt_succ_self _))
  obtain ⟨hd, hc, ha⟩ := UCreateShaderProgram_frame drv w ShaderSource.vertexShaderSource
    ShaderSource.fragmentShaderSource
  have hn := (UCreateShaderProgram_names drv ShaderSource.vertexShaderSource
    ShaderSource.fragmentShaderSource w).2
  unfold mainCreatePrograms Driver.buildsPrograms
  split
  · rename_i pid w1 heq
    rw [heq] at hr hd
    exact Or.inl ⟨_, rfl, by rw [← hr]; rfl, hd⟩
  · rename_i pid w1 heq
    rw [heq] at hr hd hc ha hn
    have hfresh2 : ({ w1 with gProgramId := pid } : World α κ).attached
        (({ w1 with gProgramId := pid } : World α κ).names + 1) = [] := by
      show w1.attached (w1.names + 1) = []
      rw [hn, ha _ (by omega)]
      exact hfresh _ (by omega)
    rcases mainCreateLightProgram_spec drv _ hwf hfresh2 with
      ⟨w2, e, hl, hd2⟩ | ⟨w2, e, hl, hd2, hc2⟩
    · exact Or.inl ⟨w2, e, by rw [← hr, Bool.and_assoc, hl]; rfl, hd2.trans hd⟩
    · exact Or.inr ⟨w2, e, by rw [← hr, Bool.and_assoc, hl]; rfl, hd2.trans hd, hc2.trans hc⟩

/-- The start-up of main, with a decoder that returns well-formed images, from a state in
which no name that is still to be handed out has a shader attached: either an initialization
step fails and the run ends with EXIT_FAILURE, or all succeed and the render loop can start;
the draws are as before, and so is the window's close flag when the loop can start. -/
theorem mainStartup_spec {α κ : Type} [Field α] (drv : Driver) (w : World α κ)
    (hwf : ∀ f img, drv.stbi_load f = some img → img.WellFormed)
    (hfresh : ∀ n, w.names < n → w.attached n = []) :
    (∃ w2, mainStartup drv w = Except.error (Outcome.exited EXIT_FAILURE w2) ∧
      drv.initializes = false ∧ w2.draws = w.draws) ∨
    (∃ w2, mainStartup drv w = Except.ok w2 ∧ drv.initializes = true ∧
      w2.draws = w.draws ∧ w2.windowShouldClose = w.windowShouldClose) := by
  obtain ⟨hr, hd, hc, ha, hn⟩ := UInitialize_result drv w
  unfold mainStartup Driver.initializes
  split
  · rename_i w1 heq
    rw [heq] at hr hd
    refine Or.inl ⟨_, rfl, ?_, hd⟩
    rw [← hr]
    rfl
  · rename_i w1 heq
    rw [heq] at hr hd hc ha hn
    obtain ⟨md, mc, ma, mn⟩ := createMeshes_frame w1
    have hfresh2 : ∀ n, (createMeshes w1).names < n → (createMeshes w1).attached n = [] := by
      intro n hlt
      rw [ma, ha]
      rw [mn, hn] at hlt
      exact hfresh n (by omega)
    rcases mainCreatePrograms_spec drv _ hwf hfresh2 with
      ⟨w2, e, hl, hd2⟩ | ⟨w2, e, hl, hd2, hc2⟩
    · exact Or.inl ⟨w2, e, by rw [← hr, Bool.and_assoc, hl]; rfl, hd2.trans (md.trans hd)⟩
    · exact Or.inr ⟨w2, e, by rw [← hr, Bool.and_assoc, hl]; rfl, hd2.trans (md.trans hd),
        hc2.trans (mc.trans hc)⟩


end StartupMain

/-! ### The render loop and the window's close flag -/

section CloseState

variable {α κ : Type} (env : Env α κ) (w : World α κ)

/-- A key test of UProcessInput leaves the window's close flag alone. -/
theorem keyMove_windowShouldClose (b : Bool) (d : Camera_Movement) :
    (keyMove env b d w).windowShouldClose = w.windowShouldClose := by
  unfold keyMove
  cases b <;> rfl

/-- Binding a texture leaves the window's close flag alone. -/
theorem glBindTexture_windowShouldClose (t : Nat) :
    (glBindTexture t w).windowShouldClose = w.windowShouldClose := rfl

/-- Setting a texture parameter leaves the window's close flag alone. -/
theorem glTexParameteri_windowShouldClose (p : TexPname) (v : TexParam) :
    (glTexParameteri p v w).windowShouldClose = w.windowShouldClose := rfl

/-- The close flag after the ESCAPE test of UProcessInput. -/
theorem close_windowShouldClose (b : Bool) :
    (if b = true then { w with windowShouldClose := true } else w).windowShouldClose =
      (w.windowShouldClose || b) := by
  cases b <;> simp

/-- The function UProcessInput raises the window's close flag when ESCAPE is held. -/
theorem UProcessInput_windowShouldClose (keys : Key → Bool) :
    (UProcessInput env keys w).windowShouldClose = (w.windowShouldClose || keys Key.ESCAPE) := by
  simp only [UProcessInput, glBindTexture_windowShouldClose, glTexParameteri_windowShouldClose,
    keyMove_windowShouldClose, close_windowShouldClose]

/-- The function processView leaves the window's close flag alone. -/
theorem processView_windowShouldClose (keys : Key → Bool) :
    (processView keys w).windowShouldClose = w.windowShouldClose := by
  unfold processView
  cases keys Key.P <;> cases keys Key.O <;> rfl

end CloseState

section CloseLemmas

variable {α κ : Type} [Field α] (env : Env α κ) (w : World α κ)

/-- The draw functions leave the window's close flag alone. -/
theorem draw_windowShouldClose (a b c d e f g : α) :
    (drawPlane env a b c d e f g w).windowShouldClose = w.windowShouldClose ∧
    (drawPyramid env a b c d e f g w).windowShouldClose = w.windowShouldClose ∧
    (drawRectPrism env a b c d e f g w).windowShouldClose = w.windowShouldClose ∧
    (drawCube env a b c d e f g w).windowShouldClose = w.windowShouldClose ∧
    (drawCylinder env a b c d e f g w).windowShouldClose = w.windowShouldClose := by
  simp only [drawPlane, drawPyramid, drawRectPrism, drawCube, drawCylinder, updateCamera,
    glUniform, glUseProgram, glBindTexture, glBindVertexArray, glDrawArrays, and_self]

/-- The function drawScene leaves the window's close flag alone. -/
theorem drawScene_windowShouldClose :
    (drawScene env w).windowShouldClose = w.windowShouldClose := by
  unfold drawScene
  simp only [glUseProgram, glBindVertexArray]
  rw [(draw_windowShouldClose env _ _ _ _ _ _ _ _).2.2.2.2,
    (draw_windowShouldClose env _ _ _ _ _ _ _ _).2.2.2.2,
    (draw_windowShouldClose env _ _ _ _ _ _ _ _).2.2.2.2,
    (draw_windowShouldClose env _ _ _ _ _ _ _ _).2.2.2.1,
    (draw_windowShouldClose env _ _ _ _ _ _ _ _).2.2.1,
    (draw_windowShouldClose env _ _ _ _ _ _ _ _).2.1,
    (draw_windowShouldClose env _ _ _ _ _ _ _ _).1]
  rfl

/-- An event raises the window's close flag when it is the request to close. -/
theorem dispatch_windowShouldClose (e : Event α) :
    (dispatch env e w).windowShouldClose = (w.windowShouldClose || e.isWindowClose) := by
  cases e with
  | cursorPos xpos ypos =>
    simp only [dispatch, UMousePositionCallback, Event.isWindowClose, Bool.or_false]
    cases w.gFirstMouse <;> rfl
  | scroll xoffset yoffset => simp only [dispatch, UMouseScrollCallback, Event.isWindowClose,
      Bool.or_false]
  | mouseButton button action mods =>
    simp only [dispatch, UMouseButtonCallback, Event.isWindowClose, Bool.or_false]
    split_ifs <;> rfl
  | framebufferSize width height => simp only [dispatch, Event.isWindowClose, Bool.or_false]
  | windowClose => simp only [dispatch, Event.isWindowClose, Bool.or_true]

/-- The call glfwPollEvents raises the window's close flag when a request to close waits. -/
theorem glfwPollEvents_windowShouldClose (events : List (Event α)) :
    (glfwPollEvents env events w).windowShouldClose =
      (w.windowShouldClose || events.any Event.isWindowClose) := by
  unfold glfwPollEvents
  induction events generalizing w with
  | nil => simp
  | cons e es ih =>
    rw [List.foldl_cons, ih, dispatch_windowShouldClose, List.any_cons, Bool.or_assoc]

/-- An iteration of the render loop raises the window's close flag when the frame asks to
close. -/
theorem renderFrame_windowShouldClose (input : FrameInput α) :
    (renderFrame env input w).windowShouldClose =
      (w.windowShouldClose || input.closeRequested) := by
  simp only [renderFrame, glfwPollEvents_windowShouldClose, drawScene_windowShouldClose,
    processView_windowShouldClose, UProcessInput_windowShouldClose, FrameInput.closeRequested,
    Bool.or_assoc]

/-- The render loop ends within the given frames exactly when the close flag is raised at its
start or one of the frames asks to close. -/
theorem renderLoop_isSome (frames : List (FrameInput α)) :
    (renderLoop env frames w).isSome =
      (w.windowShouldClose || frames.any FrameInput.closeRequested) := by
  induction frames generalizing w with
  | nil =>
    unfold renderLoop
    cases w.windowShouldClose <;> rfl
  | cons input rest ih =>
    unfold renderLoop
    cases hc : w.windowShouldClose with
    | true => rfl
    | false =>
      rw [if_neg (by simp), ih, renderFrame_windowShouldClose, hc, List.any_cons]
      simp

/-- The render loop does not run at all when the close flag is raised at its start. -/
theorem renderLoop_of_closed (frames : List (FrameInput α)) (hc : w.windowShouldClose = true) :
    renderLoop env frames w = some w := by
  cases frames <;> simp [renderLoop, hc]

end CloseLemmas

/-! ### The exit code of main -/

/-- C22: with a decoder that returns well-formed images, main ends with a non-zero exit code
exactly when an initialization step fails: the window or the GL context is not created, one
of the two shader programs does not build, or one of the five texture files does not load.
In that case the exit code is EXIT_FAILURE and the render loop was never entered: the final
state has no draw, while every iteration of the loop leaves draws behind. When every step
succeeds, the run ends with EXIT_SUCCESS, which is 0, as soon as a frame asks to close the
window (ESCAPE held, or a request to close waiting at glfwPollEvents), and is still in the
render loop after the given frames when none of them does. -/
theorem main_exit_code {α κ : Type} [Field α] (env : Env α κ) (drv : Driver)
    (frames : List (FrameInput α)) (camera : κ)
    (hwf : ∀ f img, drv.stbi_load f = some img → img.WellFormed) :
    ((∃ code w, main env drv frames camera = Outcome.exited code w ∧ code ≠ 0) ↔
      drv.initializes = false) ∧
    (drv.initializes = false →
      ∃ w, main env drv frames camera = Outcome.exited EXIT_FAILURE w ∧ w.draws = []) ∧
    (∀ (input : FrameInput α) (w : World α κ), (renderFrame env input w).draws ≠ []) ∧
    (drv.initializes = true → frames.any FrameInput.closeRequested = true →
      ∃ w, main env drv frames camera = Outcome.exited EXIT_SUCCESS w) ∧
    (drv.initializes = true → frames.any FrameInput.closeRequested = false →
      main env drv frames camera = Outcome.running) ∧
    EXIT_FAILURE ≠ 0 ∧ EXIT_SUCCESS = 0 := by
  have hframe : ∀ (input : FrameInput α) (w : World α κ),
      (renderFrame env input w).draws ≠ [] := by
    intro input w h
    have h8 := congrArg List.length (renderFrame_binding env w input)
    rw [List.length_map, h] at h8
    simp at h8
  rcases mainStartup_spec drv (initialWorld camera : World α κ) hwf (fun _ _ => rfl) with
    ⟨w2, e, hi, hd⟩ | ⟨w2, e, hi, hd, hc⟩
  · have hm : main env drv frames camera = Outcome.exited EXIT_FAILURE w2 := by
      unfold main
      rw [e]
    refine ⟨⟨fun _ => hi, fun _ => ⟨EXIT_FAILURE, w2, hm, by decide⟩⟩, fun _ => ⟨w2, hm, hd⟩,
      hframe, ?_, ?_, by decide, rfl⟩
    · intro h
      rw [hi] at h
      exact absurd h (by decide)
    · intro h
      rw [hi] at h
      exact absurd h (by decide)
  · have hc2 : w2.windowShouldClose = false := hc
    have hs := renderLoop_isSome env w2 frames
    rw [hc2, Bool.false_or] at hs
    have hm : main env drv frames camera =
        match renderLoop env frames w2 with
        | none => Outcome.running
        | some w => Outcome.exited EXIT_SUCCESS (mainShutdown w) := by
      unfold main
      rw [e]
    refine ⟨⟨?_, ?_⟩, ?_, hframe, ?_, ?_, by decide, rfl⟩
    · rintro ⟨code, w, hcode, hne⟩
      rw [hm] at hcode
      cases hl : renderLoop env frames w2 with
      | none =>
        rw [hl] at hcode
        exact absurd hcode (by simp)
      | some w3 =>
        rw [hl] at hcode
        simp only [Outcome.exited.injEq] at hcode
        exact absurd hcode.1.symm hne
    · intro h
      rw [hi] at h
      exact absurd h (by decide)
    · intro h
      rw [hi] at h
      exact absurd h (by decide)
    · intro _ hany
      rw [hany] at hs
      cases hl : renderLoop env frames w2 with
      | none =>
        rw [hl] at hs
        simp at hs
      | some w3 =>
        rw [hm, hl]
        exact ⟨_, rfl⟩
    · intro _ hany
      rw [hany] at hs
      cases hl : renderLoop env frames w2 with
      | none => rw [hm, hl]
      | some w3 =>
        rw [hl] at hs
        simp at hs

/-- C22 (witness): with the driver with which every step succeeds and one frame in which
ESCAPE is held, main ends with EXIT_SUCCESS. -/
theorem main_exit_code_witness :
    (∀ f img, workingDriver.stbi_load f = some img → img.WellFormed) ∧
    ∃ w, main fixedEnv workingDriver [escapeFrame] (⟨0, 1.5, 7⟩, 45) =
      Outcome.exited EXIT_SUCCESS w :=
  have hwf : ∀ f img, workingDriver.stbi_load f = some img → img.WellFormed := by
    intro f img h
    simp only [workingDriver, decodesTo, Option.some.injEq] at h
    subst h
    unfold StbImage.WellFormed INT_MAX
    decide
  ⟨hwf, (main_exit_code fixedEnv workingDriver [escapeFrame] (⟨0, 1.5, 7⟩, 45) hwf).2.2.2.1
    rfl rfl⟩

/-! ### The shutdown of main -/

/-- The calls of main's shutdown, from any state: the names passed to the glDelete* calls are
the vertex arrays and buffers of the plane, pyramid, cube and rectangular prism and then the
two programs; four new names are generated. -/
theorem mainShutdown_deleted {α κ : Type} (w : World α κ) :
    (mainShutdown w).deleted = w.deleted ++
      [(ObjectKind.vertexArray, w.planeMesh.vao), (ObjectKind.buffer, w.planeMesh.vbo),
       (ObjectKind.vertexArray, w.pyramidMesh.vao), (ObjectKind.buffer, w.pyramidMesh.vbo),
       (ObjectKind.vertexArray, w.cubeMesh.vao), (ObjectKind.buffer, w.cubeMesh.vbo),
       (ObjectKind.vertexArray, w.rectPrismMesh.vao), (ObjectKind.buffer, w.rectPrismMesh.vbo),
       (ObjectKind.program, w.gProgramId), (ObjectKind.program, w.gLightProgramId)] ∧
    (mainShutdown w).names = w.names + 4 ∧
    (mainShutdown w).toResources = w.toResources := by
  simp [mainShutdown, UDestroyMesh, UDestroyTexture, UDestroyShaderProgram,
    glDeleteVertexArrays, glDeleteBuffers, glDeleteProgram, glGenTextures, glGen]

/-- The function UDestroyTexture deletes nothing: it generates one more texture name. -/
theorem UDestroyTexture_generates {α κ : Type} (textureId : Nat) (w : World α κ) :
    (UDestroyTexture textureId w).live = w.live ++ [(ObjectKind.texture, w.names + 1)] ∧
    (UDestroyTexture textureId w).deleted = w.deleted := by
  simp [UDestroyTexture, glGenTextures, glGen]

/-- C23 (as stated, refuted by the code): main's shutdown does not release every resource.
From any state the names it passes to the glDelete* calls are the vertex arrays and buffers of
the plane, pyramid, cube and rectangular prism meshes and then the two programs, in this
order: the cylinder mesh is never destroyed, and no texture is deleted, because
UDestroyTexture calls glGenTextures, which creates one more texture, and is not called for
texPlasticId at all. In the run with a driver with which every start-up step succeeds and one
frame in which ESCAPE is held, main exits with EXIT_SUCCESS while the cylinder's vertex array
(9) and buffer (10), the five textures (17 to 21), four textures generated by the shutdown
(22 to 25) and the four shader objects still exist. -/
theorem shutdown_leaves_resources_live :
    (∀ (w : World ℚ (Vec3 ℚ × ℚ)),
      (mainShutdown w).deleted = w.deleted ++
        [(ObjectKind.vertexArray, w.planeMesh.vao), (ObjectKind.buffer, w.planeMesh.vbo),
         (ObjectKind.vertexArray, w.pyramidMesh.vao), (ObjectKind.buffer, w.pyramidMesh.vbo),
         (ObjectKind.vertexArray, w.cubeMesh.vao), (ObjectKind.buffer, w.cubeMesh.vbo),
         (ObjectKind.vertexArray, w.rectPrismMesh.vao),
         (ObjectKind.buffer, w.rectPrismMesh.vbo),
         (ObjectKind.program, w.gProgramId), (ObjectKind.program, w.gLightProgramId)]) ∧
    (∀ (textureId : Nat) (w : World ℚ (Vec3 ℚ × ℚ)),
      (UDestroyTexture textureId w).live = w.live ++ [(ObjectKind.texture, w.names + 1)] ∧
      (UDestroyTexture textureId w).deleted = w.deleted) ∧
    (main fixedEnv workingDriver [escapeFrame] (⟨0, 1.5, 7⟩, 45)).code = some EXIT_SUCCESS ∧
    (main fixedEnv workingDriver [escapeFrame] (⟨0, 1.5, 7⟩, 45)).final.map
        (fun w => w.cylinderMesh) = some ⟨9, 10, 96⟩ ∧
    (main fixedEnv workingDriver [escapeFrame] (⟨0, 1.5, 7⟩, 45)).final.map
        (fun w => [w.texTorchHandleId, w.texTorchLightId, w.texShinyBlueId, w.texBirchId,
          w.texPlasticId, w.gProgramId, w.gLightProgramId]) =
      some [17, 18, 19, 20, 21, 11, 14] ∧
    (main fixedEnv workingDriver [escapeFrame] (⟨0, 1.5, 7⟩, 45)).final.map
        (fun w => w.live) =
      some [(ObjectKind.vertexArray, 9), (ObjectKind.buffer, 10), (ObjectKind.shader, 12),
         (ObjectKind.shader, 13), (ObjectKind.shader, 15), (ObjectKind.shader, 16),
         (ObjectKind.texture, 17), (ObjectKind.texture, 18), (ObjectKind.texture, 19),
         (ObjectKind.texture, 20), (ObjectKind.texture, 21), (ObjectKind.texture, 22),
         (ObjectKind.texture, 23), (ObjectKind.texture, 24), (ObjectKind.texture, 25)] ∧
    (main fixedEnv workingDriver [escapeFrame] (⟨0, 1.5, 7⟩, 45)).final.map
        (fun w => w.deleted) =
      some [(ObjectKind.vertexArray, 1), (ObjectKind.buffer, 2), (ObjectKind.vertexArray, 3),
         (ObjectKind.buffer, 4), (ObjectKind.vertexArray, 5), (ObjectKind.buffer, 6),
         (ObjectKind.vertexArray, 7), (ObjectKind.buffer, 8), (ObjectKind.program, 11),
         (ObjectKind.program, 14)] := by
  refine ⟨fun w => (mainShutdown_deleted w).1, fun t w => UDestroyTexture_generates t w,
    ?_, ?_, ?_, ?_, ?_⟩ <;> decide!

end Scene
